import Mathlib

/-! ## Verification of the credit-card expiry tracker record store

Shallow embedding of the repository (src/main.py, the Streamlit dashboard,
and src/bot.py, the Telegram bot) and proofs about the claims on its
record-store consistency layer, derived-state calculators and action
handlers.

Conventions of the embedding:
* pandas floating-point money columns are modelled as rational numbers;
* dates are civil dates (year, month, day); pandas Timestamps in this
  application always sit at midnight, so a civil date is enough;
* a CSV file is a header plus rows of raw optional strings (a `none`
  cell is an empty field); the quoting layer of the CSV format is below
  this abstraction;
* string-to-number and string-to-date parsing model the machine formats
  that `DataFrame.to_csv` emits (decimal text, ISO dates); a string
  outside those formats counts as unparseable.
-/

namespace CardTracker

/-! ## Decimal digit strings

The model serialises and parses numbers itself (the analogue of the text
layer used by pandas `to_csv` / `read_csv` / `to_numeric`). -/

/-- Convert a digit 0..9 to its character. -/
def digitChar (n : ℕ) : Char :=
  Char.ofNat (48 + n)

/-- Numeric value of a decimal digit character. -/
def digitVal (c : Char) : ℕ :=
  c.toNat - 48

/-- Test for a decimal digit character. -/
def isDigitCh (c : Char) : Bool :=
  48 ≤ c.toNat ∧ c.toNat ≤ 57

/-- Decimal digits, fuelled recursion (the fuel argument only bounds the
recursion depth; `natDigits` supplies enough). -/
def natDigitsF : ℕ → ℕ → List Char
  | 0, n => [digitChar n]
  | fuel+1, n =>
    if n < 10 then [digitChar n]
    else natDigitsF fuel (n / 10) ++ [digitChar (n % 10)]

/-- Decimal digits of a natural number, most significant first. -/
def natDigits (n : ℕ) : List Char :=
  natDigitsF n n

/-- Decimal rendering of a natural number. -/
def natStr (n : ℕ) : String :=
  String.mk (natDigits n)

/-- Decimal rendering of an integer (possible leading minus sign). -/
def intChars (z : ℤ) : List Char :=
  if z < 0 then Char.ofNat 45 :: natDigits z.natAbs else natDigits z.natAbs

/-- Decimal rendering of an integer as a string. -/
def intStr (z : ℤ) : String :=
  String.mk (intChars z)

/-- Value of a digit list, most significant first (fold left). -/
def digitsVal (cs : List Char) : ℕ :=
  cs.foldl (fun acc c => acc * 10 + digitVal c) 0

/-- Parse a nonempty all-digit character list into a natural number. -/
def parseNat (cs : List Char) : Option ℕ :=
  if cs ≠ [] ∧ cs.all isDigitCh then some (digitsVal cs) else none

/-- Split an optional leading minus sign from a character list. -/
def splitSign (cs : List Char) : Bool × List Char :=
  match cs with
  | c :: rest => if c = Char.ofNat 45 then (true, rest) else (false, cs)
  | [] => (false, [])

/-- Parse an integer written in decimal with optional leading minus. -/
def parseIntChars (cs : List Char) : Option ℤ :=
  let (neg, body) := splitSign cs
  match parseNat body with
  | some n => some (if neg then -(n : ℤ) else (n : ℤ))
  | none => none

/-- Parse an integer from a string. -/
def parseInt (s : String) : Option ℤ :=
  parseIntChars s.data

/-- Parse a plain decimal number `D+` or `D+.D+` (optional leading minus)
into a rational.  This models the numeric tokens `pandas.to_numeric` and
float coercion accept from the CSV files this application writes. -/
def parseDecChars (cs : List Char) : Option ℚ :=
  let (neg, body) := splitSign cs
  let intPart := body.takeWhile isDigitCh
  let rest := body.dropWhile isDigitCh
  if intPart = [] then none
  else
    match rest with
    | [] => some ((if neg then -1 else 1) * (digitsVal intPart : ℚ))
    | dot :: frac =>
      if dot = Char.ofNat 46 ∧ frac ≠ [] ∧ frac.all isDigitCh then
        some ((if neg then -1 else 1) *
          ((digitsVal intPart * 10 ^ frac.length + digitsVal frac : ℕ) : ℚ) /
            ((10 : ℚ) ^ frac.length))
      else none

/-- Parse a decimal number from a string. -/
def parseDec (s : String) : Option ℚ :=
  parseDecChars s.data

/-- Left-pad a digit list with character zeros up to length `k`. -/
def padZeros (k : ℕ) (cs : List Char) : List Char :=
  List.replicate (k - cs.length) (digitChar 0) ++ cs

/-- Smallest exponent `k` with `d ∣ 10 ^ k`, when one exists (searching up
to `d + 1` suffices for denominators of decimal fractions). -/
def decExp (d : ℕ) : Option ℕ :=
  (List.range (d + 2)).find? (fun k => 10 ^ k % d = 0)

/-- A rational is a finite decimal fraction when its denominator divides a
power of ten. -/
def isDecimalRat (q : ℚ) : Bool :=
  (decExp q.den).isSome

/-- Render a rational as Python float text: integer part, a dot, then the
fractional digits (`512` prints as `512.0`, one quarter as `0.25`).  This
models `str(float)` / the text `to_csv` writes for float columns.  For a
rational that is not a finite decimal fraction — which never arises from
parsed CSV data — a slash-free fallback is produced. -/
def floatRepr (q : ℚ) : String :=
  match decExp q.den with
  | some k =>
    let total := q.num.natAbs * (10 ^ k / q.den)
    let ip := total / 10 ^ k
    let fp := total % 10 ^ k
    let fracDigits := if k = 0 then [digitChar 0] else padZeros k (natDigits fp)
    String.mk ((if q.num < 0 then [Char.ofNat 45] else []) ++
      natDigits ip ++ [Char.ofNat 46] ++ fracDigits)
  | none =>
    String.mk (intChars q.num ++ [Char.ofNat 47] ++ natDigits q.den)

/-! ## Civil dates -/

/-- A civil calendar date.  pandas Timestamps in this application are
always midnight-aligned, so the date part is a faithful model. -/
structure Date where
  year : ℤ
  month : ℕ
  day : ℕ
deriving DecidableEq, Repr

/-- Gregorian leap-year test. -/
def isLeap (y : ℤ) : Bool :=
  y % 4 = 0 ∧ (y % 100 ≠ 0 ∨ y % 400 = 0)

/-- Number of days in a month of a given year. -/
def daysInMonth (y : ℤ) (m : ℕ) : ℕ :=
  if m = 2 then (if isLeap y then 29 else 28)
  else if m = 4 ∨ m = 6 ∨ m = 9 ∨ m = 11 then 30
  else 31

/-- A date is valid when it is a real calendar day inside the range
pandas nanosecond Timestamps can represent (1678..2261 covers it). -/
def validDate (d : Date) : Bool :=
  1678 ≤ d.year ∧ d.year ≤ 2261 ∧ 1 ≤ d.month ∧ d.month ≤ 12 ∧
    1 ≤ d.day ∧ d.day ≤ daysInMonth d.year d.month

/-- Two-digit zero-padded rendering of a number below 100. -/
def pad2 (n : ℕ) : List Char :=
  padZeros 2 (natDigits n)

/-- ISO rendering `YYYY-MM-DD` of a date (years here are four digits). -/
def isoChars (d : Date) : List Char :=
  natDigits d.year.natAbs ++ [Char.ofNat 45] ++ pad2 d.month ++
    [Char.ofNat 45] ++ pad2 d.day

/-- ISO rendering of a date as a string, the machine format save writes
for date columns (the analogue of the text to_csv emits for midnight
datetime columns). -/
def isoStr (d : Date) : String :=
  String.mk (isoChars d)

/-- Split a character list at a separator character. -/
def splitOnCh (sep : Char) (cs : List Char) : List (List Char) :=
  match cs with
  | [] => [[]]
  | c :: rest =>
    let tail := splitOnCh sep rest
    if c = sep then [] :: tail
    else
      match tail with
      | t :: ts => (c :: t) :: ts
      | [] => [[c]]

/-- Parse an ISO `YYYY-MM-DD` token into a valid date.  This models the
subset of strings `pandas.to_datetime` accepts that matters here: the
unambiguous machine format the application itself writes.  Anything else
is treated as unparseable (and so coerces to NaT under errors=coerce). -/
def parseDateChars (cs : List Char) : Option Date :=
  match splitOnCh (Char.ofNat 45) cs with
  | [ys, ms, ds] =>
    match parseNat ys, parseNat ms, parseNat ds with
    | some y, some m, some d =>
      let date : Date := ⟨(y : ℤ), m, d⟩
      if validDate date then some date else none
    | _, _, _ => none
  | _ => none

/-- Parse an ISO date from a string. -/
def parseDate (s : String) : Option Date :=
  parseDateChars s.data

/-- Days since 1970-01-01 of a civil date (Gregorian, proleptic).  Used
to model Timestamp subtraction (`.days`). -/
def toEpochDays (d : Date) : ℤ :=
  let y : ℤ := if d.month ≤ 2 then d.year - 1 else d.year
  let era : ℤ := (if 0 ≤ y then y else y - 399) / 400
  let yoe : ℤ := y - era * 400
  let mp : ℤ := ((d.month : ℤ) + 9) % 12
  let doy : ℤ := (153 * mp + 2) / 5 + (d.day : ℤ) - 1
  let doe : ℤ := yoe * 365 + yoe / 4 - yoe / 100 + doy
  era * 146097 + doe - 719468

/-- Civil date of a count of days since 1970-01-01 (inverse direction of
`toEpochDays`). -/
def ofEpochDays (z : ℤ) : Date :=
  let z := z + 719468
  let era : ℤ := (if 0 ≤ z then z else z - 146096) / 146097
  let doe : ℤ := z - era * 146097
  let yoe : ℤ := (doe - doe / 1460 + doe / 36524 - doe / 146096) / 365
  let y : ℤ := yoe + era * 400
  let doy : ℤ := doe - (365 * yoe + yoe / 4 - yoe / 100)
  let mp : ℤ := (5 * doy + 2) / 153
  let d : ℤ := doy - (153 * mp + 2) / 5 + 1
  let m : ℤ := if mp < 10 then mp + 3 else mp - 9
  ⟨if m ≤ 2 then y + 1 else y, m.toNat, d.toNat⟩

/-- Nanoseconds in a day. -/
def nsPerDay : ℤ := 86400000000000

/-- Date of an epoch-nanosecond count: `pandas.to_datetime` interprets a
numeric column as nanoseconds since the epoch (it does NOT coerce numbers
to NaT).  Only the day component matters in this application. -/
def ofEpochNs (z : ℤ) : Date :=
  ofEpochDays (Int.fdiv z nsPerDay)

/-- Truncate a rational toward zero, as Python int() does. -/
def ratTrunc (q : ℚ) : ℤ :=
  if q < 0 then -((-q).floor) else q.floor

/-- pandas `DateOffset(months=n)` applied to a date: advance the month
count, clamping the day to the length of the target month. -/
def addMonths (d : Date) (n : ℕ) : Date :=
  let total : ℕ := d.month - 1 + n
  let y : ℤ := d.year + (total / 12 : ℕ)
  let m : ℕ := total % 12 + 1
  ⟨y, m, min d.day (daysInMonth y m)⟩

/-! ## The schema: month names and the typed record

`ALL_COLUMNS` / `COLUMN_DTYPES` of src/main.py (identical in src/bot.py)
give 26 columns.  `CardRec` is the typed in-memory view of one row after
`load_data` has coerced it: object columns that are never fillna-ed can
still hold a missing value (`Option`), coerced numeric/string columns
cannot. -/

/-- MONTH_NAMES from src/main.py. -/
def MONTH_NAMES : List String :=
  ["January", "February", "March", "April", "May", "June",
   "July", "August", "September", "October", "November", "December"]

/-- MONTH_MAP from src/main.py: two-digit month token to month name. -/
def MONTH_MAP (mm : String) : Option String :=
  match parseNat mm.data with
  | some n => if mm.data.length = 2 ∧ 1 ≤ n ∧ n ≤ 12 then MONTH_NAMES.get? (n - 1) else none
  | none => none

/-- One card record in its typed, schema-conformant form. -/
structure CardRec where
  bank : Option String
  cardName : Option String
  annualFee : Option ℚ
  cardExpiry : Option String
  feeMonth : Option String
  dateApplied : Option Date
  dateApproved : Option Date
  dateReceived : Option Date
  dateActivated : Option Date
  firstCharge : Option Date
  imageFilename : Option String
  sortOrder : ℤ
  notes : String
  cancellationDate : Option Date
  reapplyDate : Option Date
  tags : String
  bonusOffer : String
  minSpend : ℚ
  minSpendDeadline : Option Date
  bonusStatus : String
  last4 : String
  currentSpend : ℚ
  feeWaivedCount : ℤ
  feePaidCount : ℤ
  lastFeeActionYear : ℤ
  lastFeeAction : String
deriving DecidableEq, Repr

/-- A blank record with every field at its schema default. -/
def blankRec : CardRec :=
  { bank := none, cardName := none, annualFee := none, cardExpiry := none,
    feeMonth := none, dateApplied := none, dateApproved := none,
    dateReceived := none, dateActivated := none, firstCharge := none,
    imageFilename := none, sortOrder := 1, notes := "",
    cancellationDate := none, reapplyDate := none, tags := "",
    bonusOffer := "", minSpend := 0, minSpendDeadline := none,
    bonusStatus := "", last4 := "", currentSpend := 0,
    feeWaivedCount := 0, feePaidCount := 0, lastFeeActionYear := 0,
    lastFeeAction := "" }

/-- A record is active when its cancellation date is unset. -/
def isActive (c : CardRec) : Bool :=
  c.cancellationDate = none

/-! ## Action handlers (src/main.py dashboard, src/bot.py) -/

namespace Main

/-- Spend update mini-form of the dashboard Welcome Bonus Tracker
(src/main.py, show_dashboard, update_spend form): if the status read from
the looped card is Not Started and the submitted total is positive, the
status becomes In Progress; the submitted value replaces Current Spend.
No other status change is made here. -/
def update_spend (c : CardRec) (newSpend : ℚ) : CardRec :=
  let c1 :=
    if c.bonusStatus = "Not Started" ∧ 0 < newSpend then
      { c with bonusStatus := "In Progress" }
    else c
  { c1 with currentSpend := newSpend }

/-- The Mark Bonus as Met button of the dashboard (shown only when the
spend target is reached): sets the status to Met. -/
def mark_bonus_met (c : CardRec) : CardRec :=
  { c with bonusStatus := "Met" }

/-- The I Waived This Fee button (src/main.py, show_dashboard). -/
def fee_waived (currentYear : ℤ) (c : CardRec) : CardRec :=
  { c with feeWaivedCount := c.feeWaivedCount + 1,
           lastFeeActionYear := currentYear, lastFeeAction := "Waived" }

/-- The I Paid This Fee button (src/main.py, show_dashboard). -/
def fee_paid (currentYear : ℤ) (c : CardRec) : CardRec :=
  { c with feePaidCount := c.feePaidCount + 1,
           lastFeeActionYear := currentYear, lastFeeAction := "Paid" }

/-- The Confirm Cancel button (src/main.py, show_dashboard): stamps the
cancellation date with today and the re-apply date with today plus a
13-calendar-month DateOffset. -/
def cancel_card (today : Date) (c : CardRec) : CardRec :=
  { c with cancellationDate := some today,
           reapplyDate := some (addMonths today 13) }

/-- The Re-activate button (src/main.py, show_dashboard): clears both
cancellation dates and resets the fee-action memory. -/
def reactivate_card (c : CardRec) : CardRec :=
  { c with cancellationDate := none, reapplyDate := none,
           lastFeeActionYear := 0, lastFeeAction := "" }

end Main

namespace Bot

/-- The spend-tracking branch of handle_message (src/bot.py): adds the
typed amount to Current Spend and, if the new total reaches a positive
Min Spend and the status is not already Met, sets the status to Met.
No other status transition is made here. -/
def add_spend (c : CardRec) (amount : ℚ) : CardRec :=
  let newSpend := c.currentSpend + amount
  let c1 := { c with currentSpend := newSpend }
  if c.minSpend ≤ newSpend ∧ 0 < c.minSpend ∧ c.bonusStatus ≠ "Met" then
    { c1 with bonusStatus := "Met" }
  else c1

/-- The Waived button of the weekly fee notification (src/bot.py,
button_handler). -/
def fee_waived (currentYear : ℤ) (c : CardRec) : CardRec :=
  { c with feeWaivedCount := c.feeWaivedCount + 1,
           lastFeeAction := "Waived", lastFeeActionYear := currentYear }

/-- The Paid button of the weekly fee notification (src/bot.py,
button_handler). -/
def fee_paid (currentYear : ℤ) (c : CardRec) : CardRec :=
  { c with feePaidCount := c.feePaidCount + 1,
           lastFeeAction := "Paid", lastFeeActionYear := currentYear }

end Bot

/-! ## Input validation and the Add / Edit handlers (src/main.py) -/

/-- The expiry month regex of src/main.py: 0 followed by 1..9, or
1 followed by 0..2. -/
def validExpiryMM (s : String) : Bool :=
  match s.data with
  | [a, b] =>
    (a = '0' ∧ ('1' ≤ b ∧ b ≤ '9')) ∨ (a = '1' ∧ ('0' ≤ b ∧ b ≤ '2'))
  | _ => false

/-- The expiry year regex of src/main.py: exactly two digits. -/
def validExpiryYY (s : String) : Bool :=
  match s.data with
  | [a, b] => isDigitCh a ∧ isDigitCh b
  | _ => false

/-- The last-4-digits regex of src/main.py: exactly four digits. -/
def validLast4 (s : String) : Bool :=
  match s.data with
  | [a, b, c, d] => isDigitCh a ∧ isDigitCh b ∧ isDigitCh c ∧ isDigitCh d
  | _ => false

/-- Validation errors the Add / Edit forms can report. -/
inductive FormError
  | missingName
  | badMonth
  | badYear
  | badLast4
deriving DecidableEq, Repr

/-- The form fields of the Add a New Card page. -/
structure AddInput where
  custom : Bool
  bank : String
  cardName : String
  imageFilename : String
  last4 : String
  expiryMM : String
  expiryYY : String
  annualFee : ℚ
  tags : List String
  notes : String
  bonusOffer : String
  minSpend : ℚ
  minSpendDeadline : Option Date
  bonusStatus : String
  applied : Option Date
  approved : Option Date
  received : Option Date
  activated : Option Date
  firstCharge : Option Date

/-- Sort order assigned to a newly added card (src/main.py,
show_add_card_form): one more than the current maximum, or 1 when the
table is empty or the maximum is below 1. -/
def newSortOrder (df : List CardRec) : ℤ :=
  match (df.map (·.sortOrder)).max? with
  | none => 1
  | some m => if m < 1 then 1 else m + 1

namespace Main

/-- Submission logic of the Add a New Card form (src/main.py,
show_add_card_form): validates the name fields (custom path), the expiry
regexes and the last-4 regex, then appends a record whose expiry token is
MM/YY and whose Month of Annual Fee comes from MONTH_MAP. -/
def show_add_card_form (df : List CardRec) (inp : AddInput) :
    Except FormError (List CardRec) :=
  if inp.custom ∧ (inp.bank = "" ∨ inp.cardName = "") then
    .error .missingName
  else if ¬ validExpiryMM inp.expiryMM then .error .badMonth
  else if ¬ validExpiryYY inp.expiryYY then .error .badYear
  else if inp.last4 ≠ "" ∧ ¬ validLast4 inp.last4 then .error .badLast4
  else
    let newCard : CardRec :=
      { bank := some inp.bank, cardName := some inp.cardName,
        annualFee := some inp.annualFee,
        cardExpiry := some (inp.expiryMM ++ "/" ++ inp.expiryYY),
        feeMonth := MONTH_MAP inp.expiryMM,
        dateApplied := inp.applied, dateApproved := inp.approved,
        dateReceived := inp.received, dateActivated := inp.activated,
        firstCharge := inp.firstCharge,
        imageFilename := some inp.imageFilename,
        sortOrder := newSortOrder df,
        notes := inp.notes, cancellationDate := none, reapplyDate := none,
        tags := String.intercalate "," inp.tags,
        bonusOffer := inp.bonusOffer, minSpend := inp.minSpend,
        minSpendDeadline := inp.minSpendDeadline,
        bonusStatus := inp.bonusStatus, last4 := inp.last4,
        currentSpend := 0, feeWaivedCount := 0, feePaidCount := 0,
        lastFeeActionYear := 0, lastFeeAction := "" }
    .ok (df ++ [newCard])

/-- The form fields of the Edit Card page. -/
structure EditInput where
  bank : String
  cardName : String
  newImage : Option String
  last4 : String
  expiryMM : String
  expiryYY : String
  annualFee : ℚ
  tags : List String
  notes : String
  bonusOffer : String
  minSpend : ℚ
  currentSpend : ℚ
  minSpendDeadline : Option Date
  bonusStatus : String
  applied : Option Date
  approved : Option Date
  received : Option Date
  activated : Option Date
  firstCharge : Option Date

/-- Submission logic of the Edit Card form (src/main.py, show_edit_form):
validates names and regexes, then overwrites exactly the editable fields;
sort order, cancellation state and the fee ledger are untouched. -/
def show_edit_form (c : CardRec) (inp : EditInput) :
    Except FormError CardRec :=
  if inp.bank = "" ∨ inp.cardName = "" then .error .missingName
  else if ¬ validExpiryMM inp.expiryMM then .error .badMonth
  else if ¬ validExpiryYY inp.expiryYY then .error .badYear
  else if inp.last4 ≠ "" ∧ ¬ validLast4 inp.last4 then .error .badLast4
  else
    .ok { c with
      bank := some inp.bank, cardName := some inp.cardName,
      imageFilename :=
        (match inp.newImage with
         | some f => some f
         | none => c.imageFilename),
      annualFee := some inp.annualFee,
      cardExpiry := some (inp.expiryMM ++ "/" ++ inp.expiryYY),
      feeMonth := MONTH_MAP inp.expiryMM,
      dateApplied := inp.applied, dateApproved := inp.approved,
      dateReceived := inp.received, dateActivated := inp.activated,
      firstCharge := inp.firstCharge,
      notes := inp.notes, tags := String.intercalate "," inp.tags,
      bonusOffer := inp.bonusOffer, minSpend := inp.minSpend,
      minSpendDeadline := inp.minSpendDeadline,
      bonusStatus := inp.bonusStatus, last4 := inp.last4,
      currentSpend := inp.currentSpend }

end Main

/-! ## The reorder handler (src/main.py, show_sort_order_form) -/

/-- Values occurring more than once in a list (the items of
collections.Counter with count above one). -/
def duplicateValues (xs : List ℤ) : List ℤ :=
  xs.dedup.filter (fun v => 1 < xs.count v)

/-- Positions of the active (non-cancelled) records of the table, in the
order the sort form lists them (sorted by current Sort Order). -/
def sortedActiveIndices (df : List CardRec) : List ℕ :=
  ((df.enum.filter (fun p => isActive p.2)).mergeSort
      (fun p q => p.2.sortOrder ≤ q.2.sortOrder)).map (·.1)

/-- Write a batch of (position, new order) updates into the table;
records at positions outside the batch keep their value. -/
def applyOrders (df : List CardRec) (pairs : List (ℕ × ℤ)) : List CardRec :=
  df.enum.map (fun p =>
    match pairs.lookup p.1 with
    | some v => { p.2 with sortOrder := v }
    | none => p.2)

/-- Submission logic of the Edit Manual Card Order form (src/main.py,
show_sort_order_form): collect the new order of every active card; if
any value is assigned twice, report the duplicated values and save
nothing; otherwise write only the active records' new values. -/
def show_sort_order_form (df : List CardRec) (newOrders : List ℤ) :
    Except (List ℤ) (List CardRec) :=
  let dups := duplicateValues newOrders
  if dups ≠ [] then .error dups
  else .ok (applyOrders df ((sortedActiveIndices df).zip newOrders))

/-- One submission of the sort form against the on-disk table: on
rejection the table is returned unchanged together with the reported
duplicates; on success the new table is saved and nothing is reported. -/
def sortFormStep (df : List CardRec) (newOrders : List ℤ) :
    List CardRec × List ℤ :=
  match show_sort_order_form df newOrders with
  | .error d => (df, d)
  | .ok df2 => (df2, [])

/-! ## Derived bonus views (src/main.py show_dashboard, src/bot.py
check_bonuses) -/

/-- Days left until the minimum-spend deadline, the model of
(Min Spend Deadline - today).dt.days. -/
def daysLeft (today : Date) (c : CardRec) : ℤ :=
  match c.minSpendDeadline with
  | some d => toEpochDays d - toEpochDays today
  | none => 0

/-- The Welcome Bonus Tracker selection of the dashboard (src/main.py,
show_dashboard): from the displayed cards (all cards, or the active ones
when Show Cancelled is off), keep those with a deadline set and a status
of Not Started or In Progress, then drop the ones whose Days Left is
negative. -/
def dashboardActiveBonuses (today : Date) (showCancelled : Bool)
    (cards : List CardRec) : List CardRec :=
  let disp := if showCancelled then cards else cards.filter isActive
  let ab := disp.filter (fun c => c.minSpendDeadline.isSome ∧
      (c.bonusStatus = "Not Started" ∨ c.bonusStatus = "In Progress"))
  ab.filter (fun c => 0 ≤ daysLeft today c)

/-- The Active Bonus Tracker selection of the bot (src/bot.py,
check_bonuses): not cancelled, status In Progress or Not Started, and a
deadline set.  No condition on days left appears here. -/
def botBonusCards (cards : List CardRec) : List CardRec :=
  cards.filter (fun c => isActive c ∧
    (c.bonusStatus = "In Progress" ∨ c.bonusStatus = "Not Started") ∧
    c.minSpendDeadline.isSome)

/-! ## Physical I/O traces and the advisory lock (src/bot.py load_data,
save_data; src/main.py load_data and the to_csv calls)

Each load or save is abstracted to the sequence of file-system events it
performs: acquiring or releasing the FileLock on the sidecar lock file,
and physically reading or writing the record file. -/

/-- A file-system event of one load or save operation. -/
inductive IOEvent
  | acquireLock
  | releaseLock
  | readData
  | writeData
deriving DecidableEq, Repr

namespace Bot

/-- Event trace of src/bot.py load_data: when the data file is missing it
returns an empty frame without touching the lock; otherwise the read
happens inside the FileLock context. -/
def load_data_events (filePresent : Bool) : List IOEvent :=
  if filePresent then [.acquireLock, .readData, .releaseLock] else []

/-- Event trace of src/bot.py save_data: to_csv inside the FileLock
context. -/
def save_data_events : List IOEvent :=
  [.acquireLock, .writeData, .releaseLock]

end Bot

namespace Main

/-- Event trace of src/main.py load_data: a bare pd.read_csv, no lock
anywhere in the dashboard. -/
def load_data_events : List IOEvent :=
  [.readData]

/-- Event trace of every dashboard save (the df.to_csv calls of
src/main.py): a bare write, no lock. -/
def save_data_events : List IOEvent :=
  [.writeData]

end Main

/-- Checks an event trace for the locking discipline: every physical read
or write happens while the advisory lock is held, and releases match
acquisitions. -/
def lockedIO (events : List IOEvent) : Bool :=
  (events.foldl
    (fun st e =>
      match st with
      | none => none
      | some depth =>
        match e with
        | .acquireLock => some (depth + 1)
        | .releaseLock => if depth = 0 then none else some (depth - 1)
        | .readData => if depth = 0 then none else some depth
        | .writeData => if depth = 0 then none else some depth)
    (some 0)).isSome

/-! ## The bot front door and the restricted decorator (src/bot.py) -/

/-- Static configuration of the bot: the single authorised chat id
(TELEGRAM_CHAT_ID). -/
structure BotEnv where
  chatId : String

/-- An incoming Telegram update, reduced to what the handlers see. -/
inductive Payload
  | command (name : String)
  | callback (data : String)
  | textMsg (text : String)
deriving DecidableEq, Repr

/-- An incoming request: who sent it and what it carries. -/
structure Request where
  senderId : String
  payload : Payload
deriving DecidableEq, Repr

/-- Per-chat conversational state (context.user_data). -/
structure UserData where
  awaitingSpend : Bool
  trackingIndex : Option ℕ
  awaitingWidth : Bool
  viewMode : String
  tableWidth : ℕ
deriving DecidableEq, Repr

/-- The full state a bot request can read or mutate: the record store
(the CSV file) and the conversational state. -/
structure BotState where
  store : List CardRec
  userData : UserData
deriving DecidableEq, Repr

/-- An observable output of the bot: a message sent back to the chat,
reduced to a tag naming which reply it is. -/
inductive BotOutput
  | reply (tag : String)
deriving DecidableEq, Repr

namespace Bot

/-- Replace the record at one position of the store. -/
def setAt (df : List CardRec) (i : ℕ) (f : CardRec → CardRec) :
    List CardRec :=
  df.enum.map (fun p => if p.1 = i then f p.2 else p.2)

/-- The body of handle_message (src/bot.py) once the sender is
authorised: the spend-input conversation adds the typed amount via
add_spend; everything else only touches conversational state or
replies. -/
def handle_message_body (st : BotState) (text : String) :
    BotState × List BotOutput :=
  if st.userData.awaitingWidth then
    ({ st with userData := { st.userData with awaitingWidth := false } },
      [.reply "width"])
  else if st.userData.awaitingSpend then
    match parseDec text, st.userData.trackingIndex with
    | some amount, some i =>
      let ud := { st.userData with awaitingSpend := false, trackingIndex := none }
      ({ store := setAt st.store i (fun c => add_spend c amount), userData := ud },
        [.reply "spend-added"])
    | _, _ => (st, [.reply "invalid-number"])
  else (st, [])

/-- The body of button_handler (src/bot.py) once the sender is
authorised: the fee buttons mutate the store; the rest is menus and
view-mode state. -/
def button_handler_body (currentYear : ℤ) (st : BotState) (data : String) :
    BotState × List BotOutput :=
  if data = "home" then (st, [.reply "menu"])
  else if data.startsWith "track_select_" then
    match parseNat (data.drop 13).data with
    | some i =>
      let ud := { st.userData with awaitingSpend := true, trackingIndex := some i }
      ({ st with userData := ud }, [.reply "ask-amount"])
    | none => (st, [])
  else if data.startsWith "waived_" then
    match parseNat (data.drop 7).data with
    | some i =>
      ({ st with store := setAt st.store i (fee_waived currentYear) },
        [.reply "marked-waived"])
    | none => (st, [])
  else if data.startsWith "paid_" then
    match parseNat (data.drop 5).data with
    | some i =>
      ({ st with store := setAt st.store i (fee_paid currentYear) },
        [.reply "marked-paid"])
    | none => (st, [])
  else if data.startsWith "ignore_" then (st, [.reply "skipped"])
  else (st, [.reply "view-menu"])

/-- Dispatch of an authorised request to its registered handler
(the add_handler calls of src/bot.py __main__): commands reply with
their view of the store, buttons and text go to their handlers. -/
def dispatch (currentYear : ℤ) (st : BotState) (p : Payload) :
    BotState × List BotOutput :=
  match p with
  | .command name => (st, [.reply name])
  | .callback data => button_handler_body currentYear st data
  | .textMsg text => handle_message_body st text

/-- The restricted decorator (src/bot.py): if the sender id differs from
the configured chat id, the wrapped handler body never runs — no store
access, no reply.  Every registered handler of src/bot.py is wrapped. -/
def restricted
    (handler : BotState → Payload → BotState × List BotOutput)
    (env : BotEnv) (st : BotState) (req : Request) :
    BotState × List BotOutput :=
  if req.senderId ≠ env.chatId then (st, [])
  else handler st req.payload

/-- One incoming update processed by the application: every entry point
is a restricted-wrapped handler. -/
def processRequest (currentYear : ℤ) (env : BotEnv) (st : BotState)
    (req : Request) : BotState × List BotOutput :=
  restricted (dispatch currentYear) env st req

/-- A whole session: process a list of incoming updates in order,
collecting every message the bot sends. -/
def processAll (currentYear : ℤ) (env : BotEnv) (st : BotState)
    (reqs : List Request) : BotState × List BotOutput :=
  reqs.foldl
    (fun acc req =>
      let r := processRequest currentYear env acc.1 req
      (r.1, acc.2 ++ r.2))
    (st, [])

end Bot

/-! ## The record file: raw CSV and typed cell values

A CSV file is a header and rows of raw cells (`none` is an empty field).
`read_csv` infers one type per column: all-missing, integer, float, or
object (strings kept verbatim).  `PVal` is a parsed cell value. -/

/-- A parsed cell value of a loaded DataFrame. -/
inductive PVal
  | na
  | int (z : ℤ)
  | flt (q : ℚ)
  | str (s : String)
  | date (d : Date)
deriving DecidableEq, Repr

/-- An on-disk CSV file above the quoting layer. -/
structure CsvFile where
  header : List String
  rows : List (List (Option String))
deriving DecidableEq, Repr

/-- An in-memory DataFrame: column names and rows of parsed cells,
row-aligned with the column list. -/
structure DataFrame where
  cols : List String
  rows : List (List PVal)
deriving DecidableEq, Repr

/-- Errors a load can raise (pandas exceptions). -/
inductive LoadErr
  | fileNotFound
  | emptyDataError
  | parserError
  | keyError (col : String)
  | valueError (col : String)
deriving DecidableEq, Repr

/-- The default missing-value tokens `read_csv` recognises (the common
subset of the pandas list). -/
def naTokens : List String :=
  ["", "nan", "NaN", "NULL", "null", "N/A", "NA", "n/a", "None", "<NA>"]

/-- Normalise a raw cell: a missing-value token counts as missing. -/
def normCell : Option String → Option String
  | none => none
  | some s => if naTokens.contains s then none else some s

/-- The inferred type of one CSV column. -/
inductive ColKind
  | allNa
  | intK
  | fltK
  | objK
deriving DecidableEq, Repr

/-- A present cell parseable as an integer. -/
def cellIsInt : Option String → Bool
  | none => false
  | some s => (parseInt s).isSome

/-- A cell that is missing or parseable as a decimal number. -/
def cellDecOrNa : Option String → Bool
  | none => true
  | some s => (parseDec s).isSome

/-- Column type inference of `read_csv`: a column of only missing cells
is a float column of NaNs; a column of integer tokens is integer; a
column of numeric-or-missing tokens is float; anything else is object
and keeps its strings verbatim. -/
def inferKind (xs : List (Option String)) : ColKind :=
  if xs.all (·.isNone) then .allNa
  else if xs.all cellIsInt then .intK
  else if xs.all cellDecOrNa then .fltK
  else .objK

/-- Parse one raw cell under its column's inferred type. -/
def mkCell : ColKind → Option String → PVal
  | _, none => .na
  | .allNa, some _ => .na
  | .intK, some s =>
    (match parseInt s with
     | some z => .int z
     | none => .na)
  | .fltK, some s =>
    (match parseDec s with
     | some q => .flt q
     | none => .na)
  | .objK, some s => .str s

/-- Raw (normalised) cells of column `j` of a CSV file. -/
def rawColumn (f : CsvFile) (j : ℕ) : List (Option String) :=
  f.rows.map (fun row => normCell ((row.get? j).join))

/-- The pandas `read_csv` model: infer each column's type from its raw
cells, then parse every cell; short rows are padded with missing
values. -/
def readCsv (f : CsvFile) : DataFrame :=
  let n := f.header.length
  let kinds := (List.range n).map (fun j => inferKind (rawColumn f j))
  ⟨f.header,
   f.rows.map (fun row =>
     (List.range n).map (fun j =>
       mkCell (kinds.getD j .objK) (normCell ((row.get? j).join))))⟩

/-- A row longer than the header makes the pandas C parser raise. -/
def hasLongRow (f : CsvFile) : Bool :=
  f.rows.any (fun r => f.header.length < r.length)

/-! ## DataFrame column operations -/

/-- Cells of a named column. -/
def DataFrame.getCol (df : DataFrame) (name : String) : Option (List PVal) :=
  (df.cols.findIdx? (fun c => c = name)).map
    (fun i => df.rows.map (fun row => row.getD i .na))

/-- Replace a named column by mapping a function over its cells
(`df[col] = df[col].something()`); a missing column raises KeyError. -/
def mapCol (name : String) (f : PVal → PVal) (df : DataFrame) :
    Except LoadErr DataFrame :=
  match df.cols.findIdx? (fun c => c = name) with
  | none => .error (.keyError name)
  | some i => .ok ⟨df.cols, df.rows.map (fun row => row.modify f i)⟩

/-- Add a constant-valued column when it is absent (one migration step
of load_data). -/
def dfAddConst (name : String) (v : PVal) (df : DataFrame) : DataFrame :=
  if df.cols.contains name then df
  else ⟨df.cols ++ [name], df.rows.map (fun row => row ++ [v])⟩

/-- The Sort Order migration step: when the column is absent it is
filled with `range(1, len(df) + 1)`. -/
def dfAddSortOrder (df : DataFrame) : DataFrame :=
  if df.cols.contains "Sort Order" then df
  else ⟨df.cols ++ ["Sort Order"],
        df.rows.enum.map (fun p => p.2 ++ [.int ((p.1 : ℤ) + 1)])⟩

/-- Constant defaults of the migration block of load_data
(src/main.py), in source order after the Sort Order step. -/
def migrationDefaults : List (String × PVal) :=
  [("Notes", .str ""), ("Cancellation Date", .na), ("Re-apply Date", .na),
   ("Tags", .str ""), ("Bonus Offer", .str ""), ("Min Spend", .flt 0),
   ("Min Spend Deadline", .na), ("Bonus Status", .str ""),
   ("Last 4 Digits", .str ""), ("Current Spend", .flt 0),
   ("FeeWaivedCount", .int 0), ("FeePaidCount", .int 0),
   ("LastFeeActionYear", .int 0), ("LastFeeAction", .str "")]

/-- The whole migration block of load_data: inject every missing
migratable column with its default. -/
def migrate (df : DataFrame) : DataFrame :=
  migrationDefaults.foldl (fun d p => dfAddConst p.1 p.2 d) (dfAddSortOrder df)

/-! ## Cell coercions of load_data -/

/-- One cell under `pd.to_datetime(col, errors=coerce)`: strings parse as
the machine date format or coerce to NaT; numbers are interpreted as
epoch nanoseconds (to_datetime does not coerce numbers to NaT). -/
def toDatetimeCell : PVal → PVal
  | .na => .na
  | .str s =>
    (match parseDate s with
     | some d => .date d
     | none => .na)
  | .int z => .date (ofEpochNs z)
  | .flt q => .date (ofEpochNs (ratTrunc q))
  | .date d => .date d

/-- One cell under `pd.to_numeric(col, errors=coerce)`. -/
def toNumericCell : PVal → PVal
  | .na => .na
  | .int z => .int z
  | .flt q => .flt q
  | .str s =>
    (match parseDec s with
     | some q => .flt q
     | none => .na)
  | .date _ => .na

/-- Sort Order coercion: to_numeric, fillna(99), astype(int). -/
def sortOrderCell (v : PVal) : PVal :=
  match toNumericCell v with
  | .na => .int 99
  | .int z => .int z
  | .flt q => .int (ratTrunc q)
  | _ => .int 99

/-- Money coercion (Min Spend, Current Spend): to_numeric, fillna(0.0),
astype(float). -/
def moneyCell (v : PVal) : PVal :=
  match toNumericCell v with
  | .na => .flt 0
  | .int z => .flt (z : ℚ)
  | .flt q => .flt q
  | _ => .flt 0

/-- Counter coercion (FeeWaivedCount, FeePaidCount, LastFeeActionYear):
to_numeric, fillna(0), astype(int). -/
def counterCell (v : PVal) : PVal :=
  match toNumericCell v with
  | .na => .int 0
  | .int z => .int z
  | .flt q => .int (ratTrunc q)
  | _ => .int 0

/-- String coercion (Notes, Tags, Bonus Offer, Bonus Status, Last 4
Digits, LastFeeAction): fillna of the empty string, then astype(str)
which renders any non-string cell as its Python text. -/
def strFillCell : PVal → PVal
  | .na => .str ""
  | .str s => .str s
  | .int z => .str (intStr z)
  | .flt q => .str (floatRepr q)
  | .date d => .str (isoStr d)

/-- Drop a trailing `.0`, the str.replace fix for Last 4 Digits values
that were saved through a float column. -/
def stripDotZero (s : String) : String :=
  if s.data.reverse.take 2 = ['0', Char.ofNat 46] then
    String.mk (s.data.take (s.data.length - 2))
  else s

/-- The str.replace step applied to the Last 4 Digits column. -/
def stripCell : PVal → PVal
  | .str s => .str (stripDotZero s)
  | v => v

/-! ## The final astype over COLUMN_DTYPES -/

/-- Declared column dtypes. -/
inductive Dtype
  | objectT
  | floatT
  | intT
  | dateT
deriving DecidableEq, Repr

/-- COLUMN_DTYPES of src/main.py and src/bot.py (identical), in source
order. -/
def COLUMN_DTYPES : List (String × Dtype) :=
  [("Bank", .objectT), ("Card Name", .objectT), ("Annual Fee", .floatT),
   ("Card Expiry (MM/YY)", .objectT), ("Month of Annual Fee", .objectT),
   ("Date Applied", .dateT), ("Date Approved", .dateT),
   ("Date Received Card", .dateT), ("Date Activated Card", .dateT),
   ("First Charge Date", .dateT), ("Image Filename", .objectT),
   ("Sort Order", .intT), ("Notes", .objectT),
   ("Cancellation Date", .dateT), ("Re-apply Date", .dateT),
   ("Tags", .objectT), ("Bonus Offer", .objectT), ("Min Spend", .floatT),
   ("Min Spend Deadline", .dateT), ("Bonus Status", .objectT),
   ("Last 4 Digits", .objectT), ("Current Spend", .floatT),
   ("FeeWaivedCount", .intT), ("FeePaidCount", .intT),
   ("LastFeeActionYear", .intT), ("LastFeeAction", .objectT)]

/-- ALL_COLUMNS of src/main.py (the schema order, identical to the
dtype-dictionary order). -/
def ALL_COLUMNS : List String :=
  ["Bank", "Card Name", "Annual Fee", "Card Expiry (MM/YY)",
   "Month of Annual Fee", "Date Applied", "Date Approved",
   "Date Received Card", "Date Activated Card", "First Charge Date",
   "Image Filename", "Sort Order", "Notes", "Cancellation Date",
   "Re-apply Date", "Tags", "Bonus Offer", "Min Spend",
   "Min Spend Deadline", "Bonus Status", "Last 4 Digits", "Current Spend",
   "FeeWaivedCount", "FeePaidCount", "LastFeeActionYear", "LastFeeAction"]

/-- DATE_COLUMNS of src/main.py, in source order. -/
def DATE_COLUMNS : List String :=
  ["Date Applied", "Date Approved", "Date Received Card",
   "Date Activated Card", "First Charge Date",
   "Cancellation Date", "Re-apply Date", "Min Spend Deadline"]

/-- Declared dtype of a column name, if the schema covers it. -/
def dtypeOf (name : String) : Option Dtype :=
  COLUMN_DTYPES.lookup name

/-- Convert one cell to a declared dtype; a value the dtype cannot take
raises ValueError. -/
def astypeCell (col : String) (dt : Dtype) (v : PVal) : Except LoadErr PVal :=
  match dt with
  | .objectT => .ok v
  | .floatT =>
    (match v with
     | .na => .ok .na
     | .flt q => .ok (.flt q)
     | .int z => .ok (.flt (z : ℚ))
     | .str s =>
       (match parseDec s with
        | some q => .ok (.flt q)
        | none => .error (.valueError col))
     | .date _ => .error (.valueError col))
  | .intT =>
    (match v with
     | .int z => .ok (.int z)
     | .flt q => .ok (.int (ratTrunc q))
     | .str s =>
       (match parseInt s with
        | some z => .ok (.int z)
        | none => .error (.valueError col))
     | _ => .error (.valueError col))
  | .dateT =>
    (match v with
     | .na => .ok .na
     | .date d => .ok (.date d)
     | .str s =>
       (match parseDate s with
        | some d => .ok (.date d)
        | none => .error (.valueError col))
     | .int z => .ok (.date (ofEpochNs z))
     | .flt q => .ok (.date (ofEpochNs (ratTrunc q))))

/-- Convert one named cell under the dtype dictionary; columns outside
the dictionary are untouched. -/
def astypeConv (p : String × PVal) : Except LoadErr PVal :=
  match dtypeOf p.1 with
  | some dt => astypeCell p.1 dt p.2
  | none => .ok p.2

/-- Convert one row under the dtype dictionary. -/
def astypeRow (cols : List String) (row : List PVal) :
    Except LoadErr (List PVal) :=
  (cols.zip row).mapM astypeConv

/-- The `df.astype(COLUMN_DTYPES)` call: every dictionary key must be a
column (else KeyError), then every cell converts (else ValueError). -/
def astypeAll (df : DataFrame) : Except LoadErr DataFrame :=
  match COLUMN_DTYPES.find? (fun p => ¬ df.cols.contains p.1) with
  | some p => .error (.keyError p.1)
  | none =>
    (df.rows.mapM (astypeRow df.cols)).map (fun rows => ⟨df.cols, rows⟩)

/-- The empty, schema-conformant DataFrame. -/
def emptySchemaDf : DataFrame := ⟨ALL_COLUMNS, []⟩

/-- The observable state of the record file on disk. -/
inductive FileState
  | absent
  | emptyFile
  | csv (f : CsvFile)
deriving DecidableEq, Repr

/-- The per-column coercion statements of load_data (src/main.py), in
source order: the to_datetime loop over DATE_COLUMNS, then the numeric
and string coercions, each one column assignment. -/
def coercionSteps : List (String × (PVal → PVal)) :=
  DATE_COLUMNS.map (fun c => (c, toDatetimeCell)) ++
  [("Sort Order", sortOrderCell), ("Notes", strFillCell),
   ("Tags", strFillCell), ("Bonus Offer", strFillCell),
   ("Min Spend", moneyCell), ("Bonus Status", strFillCell),
   ("Last 4 Digits", strFillCell), ("Last 4 Digits", stripCell),
   ("Current Spend", moneyCell), ("FeeWaivedCount", counterCell),
   ("FeePaidCount", counterCell), ("LastFeeActionYear", counterCell),
   ("LastFeeAction", strFillCell)]

/-- The net cell transformation a sequence of column coercions applies
to the cells of one named column. -/
def netMap (steps : List (String × (PVal → PVal))) (name : String) :
    PVal → PVal :=
  steps.foldl (fun acc p => fun v => if name = p.1 then p.2 (acc v) else acc v)
    id

namespace Main

/-- The body of src/main.py load_data on a readable CSV: migration of
missing columns, the per-column coercions in source order, and the final
astype over the schema dtypes. -/
def load_csv (f : CsvFile) : Except LoadErr DataFrame := do
  if hasLongRow f then .error .parserError else
  let df0 := migrate (readCsv f)
  let df14 ← coercionSteps.foldlM (fun d p => mapCol p.1 p.2 d) df0
  astypeAll df14

/-- src/main.py load_data: an entirely empty file (EmptyDataError) is
caught and yields the empty schema frame; an absent file raises
(only the start-up block outside load_data creates the file). -/
def load_data : FileState → Except LoadErr DataFrame
  | .absent => .error .fileNotFound
  | .emptyFile => .ok emptySchemaDf
  | .csv f => load_csv f

end Main

namespace Bot

/-- src/bot.py load_data: an absent file yields a frame with no columns
at all; otherwise read_csv runs with no migration, no coercion and no
exception handling, followed directly by astype(COLUMN_DTYPES). -/
def load_data : FileState → Except LoadErr DataFrame
  | .absent => .ok ⟨[], []⟩
  | .emptyFile => .error .emptyDataError
  | .csv f =>
    if hasLongRow f then .error .parserError
    else astypeAll (readCsv f)

end Bot

/-! ## Serialisation of a typed record set (the to_csv model) -/

/-- Serialise an optional string field: to_csv writes an empty field for
a missing value, and an empty string is indistinguishable from one. -/
def serStrOpt : Option String → Option String
  | none => none
  | some s => if s = "" then none else some s

/-- Serialise a plain string field. -/
def serStr (s : String) : Option String :=
  if s = "" then none else some s

/-- Serialise an optional date field as the ISO machine format. -/
def serDateOpt : Option Date → Option String
  | none => none
  | some d => some (isoStr d)

/-- Serialise an optional money field as float text. -/
def serMoneyOpt : Option ℚ → Option String
  | none => none
  | some q => some (floatRepr q)

/-- One CSV row of a typed record, in ALL_COLUMNS order. -/
def serRow (c : CardRec) : List (Option String) :=
  [serStrOpt c.bank, serStrOpt c.cardName, serMoneyOpt c.annualFee,
   serStrOpt c.cardExpiry, serStrOpt c.feeMonth,
   serDateOpt c.dateApplied, serDateOpt c.dateApproved,
   serDateOpt c.dateReceived, serDateOpt c.dateActivated,
   serDateOpt c.firstCharge, serStrOpt c.imageFilename,
   some (intStr c.sortOrder), serStr c.notes,
   serDateOpt c.cancellationDate, serDateOpt c.reapplyDate,
   serStr c.tags, serStr c.bonusOffer, some (floatRepr c.minSpend),
   serDateOpt c.minSpendDeadline, serStr c.bonusStatus, serStr c.last4,
   some (floatRepr c.currentSpend), some (intStr c.feeWaivedCount),
   some (intStr c.feePaidCount), some (intStr c.lastFeeActionYear),
   serStr c.lastFeeAction]

/-- The save operation (`df.to_csv(DATA_FILE, index=False)` of both
front ends) applied to a schema-conformant record set: the full rewrite
of the record file. -/
def save_data (R : List CardRec) : CsvFile :=
  ⟨ALL_COLUMNS, R.map serRow⟩

/-! ## Reading a typed record set back out of a loaded DataFrame -/

/-- Cell of a named column inside one row. -/
def cellAt (cols : List String) (row : List PVal) (name : String) : PVal :=
  match cols.findIdx? (fun c => c = name) with
  | some i => row.getD i .na
  | none => .na

/-- View a cell as an optional string (object column). -/
def asOptStr : PVal → Option (Option String)
  | .na => some none
  | .str s => some (some s)
  | _ => none

/-- View a cell as a definite string. -/
def asStr : PVal → Option String
  | .str s => some s
  | _ => none

/-- View a cell as an optional date (datetime column). -/
def asOptDate : PVal → Option (Option Date)
  | .na => some none
  | .date d => some (some d)
  | _ => none

/-- View a cell as an optional rational (float column). -/
def asOptMoney : PVal → Option (Option ℚ)
  | .na => some none
  | .flt q => some (some q)
  | _ => none

/-- View a cell as a definite rational. -/
def asMoney : PVal → Option ℚ
  | .flt q => some q
  | _ => none

/-- View a cell as an integer (int column). -/
def asInt : PVal → Option ℤ
  | .int z => some z
  | _ => none

/-- One step of rebuilding a typed record: read the named column's cell
of the row and store it into its field, failing when the cell does not
carry the declared type. -/
def fieldReaders : List (String × (CardRec → PVal → Option CardRec)) :=
  [("Bank", fun c v => (asOptStr v).map (fun x => { c with bank := x })),
   ("Card Name", fun c v => (asOptStr v).map (fun x => { c with cardName := x })),
   ("Annual Fee", fun c v => (asOptMoney v).map (fun x => { c with annualFee := x })),
   ("Card Expiry (MM/YY)", fun c v => (asOptStr v).map (fun x => { c with cardExpiry := x })),
   ("Month of Annual Fee", fun c v => (asOptStr v).map (fun x => { c with feeMonth := x })),
   ("Date Applied", fun c v => (asOptDate v).map (fun x => { c with dateApplied := x })),
   ("Date Approved", fun c v => (asOptDate v).map (fun x => { c with dateApproved := x })),
   ("Date Received Card", fun c v => (asOptDate v).map (fun x => { c with dateReceived := x })),
   ("Date Activated Card", fun c v => (asOptDate v).map (fun x => { c with dateActivated := x })),
   ("First Charge Date", fun c v => (asOptDate v).map (fun x => { c with firstCharge := x })),
   ("Image Filename", fun c v => (asOptStr v).map (fun x => { c with imageFilename := x })),
   ("Sort Order", fun c v => (asInt v).map (fun x => { c with sortOrder := x })),
   ("Notes", fun c v => (asStr v).map (fun x => { c with notes := x })),
   ("Cancellation Date", fun c v => (asOptDate v).map (fun x => { c with cancellationDate := x })),
   ("Re-apply Date", fun c v => (asOptDate v).map (fun x => { c with reapplyDate := x })),
   ("Tags", fun c v => (asStr v).map (fun x => { c with tags := x })),
   ("Bonus Offer", fun c v => (asStr v).map (fun x => { c with bonusOffer := x })),
   ("Min Spend", fun c v => (asMoney v).map (fun x => { c with minSpend := x })),
   ("Min Spend Deadline", fun c v => (asOptDate v).map (fun x => { c with minSpendDeadline := x })),
   ("Bonus Status", fun c v => (asStr v).map (fun x => { c with bonusStatus := x })),
   ("Last 4 Digits", fun c v => (asStr v).map (fun x => { c with last4 := x })),
   ("Current Spend", fun c v => (asMoney v).map (fun x => { c with currentSpend := x })),
   ("FeeWaivedCount", fun c v => (asInt v).map (fun x => { c with feeWaivedCount := x })),
   ("FeePaidCount", fun c v => (asInt v).map (fun x => { c with feePaidCount := x })),
   ("LastFeeActionYear", fun c v => (asInt v).map (fun x => { c with lastFeeActionYear := x })),
   ("LastFeeAction", fun c v => (asStr v).map (fun x => { c with lastFeeAction := x }))]

/-- Rebuild the typed record of one loaded row; fails when a cell does
not carry the type the schema declares for its field. -/
def buildRec (cols : List String) (row : List PVal) : Option CardRec :=
  fieldReaders.foldlM (fun c p => p.2 c (cellAt cols row p.1)) blankRec

/-- The schema-typed view of a whole loaded DataFrame. -/
def toRecords (df : DataFrame) : Option (List CardRec) :=
  df.rows.mapM (buildRec df.cols)

/-- Save a record set, load the file back through the dashboard
load_data, and view the result as typed records. -/
def load_save_roundtrip (R : List CardRec) : Option (List CardRec) :=
  match Main.load_data (.csv (save_data R)) with
  | .ok df => toRecords df
  | .error _ => none

/-! ## Schema conformance of a loaded DataFrame -/

/-- Can a cell sit in a column of the given declared dtype? -/
def cellOkForDtype : Dtype → PVal → Bool
  | .objectT, _ => true
  | .floatT, v =>
    (match v with
     | .na => true
     | .flt _ => true
     | _ => false)
  | .intT, v =>
    (match v with
     | .int _ => true
     | _ => false)
  | .dateT, v =>
    (match v with
     | .na => true
     | .date _ => true
     | _ => false)

/-- Every schema field is present and every cell has its declared
type. -/
def schemaConformant (df : DataFrame) : Bool :=
  COLUMN_DTYPES.all (fun p =>
    match df.getCol p.1 with
    | some cells => cells.all (cellOkForDtype p.2)
    | none => false)

/-- The columns load_data can NOT migrate or coerce into existence: they
must already be in the file or load_data raises. -/
def requiredCols : List String :=
  ["Bank", "Card Name", "Annual Fee", "Card Expiry (MM/YY)",
   "Month of Annual Fee", "Date Applied", "Date Approved",
   "Date Received Card", "Date Activated Card", "First Charge Date",
   "Image Filename"]

/-- Raw cells of a named column of a CSV file (empty when absent). -/
def rawColumnByName (f : CsvFile) (name : String) : List (Option String) :=
  match f.header.findIdx? (fun c => c = name) with
  | some j => rawColumn f j
  | none => []

/-- The class of files the dashboard load_data is actually robust
against: no duplicate or overlong raw structure, the non-migratable
columns present, and the Annual Fee column numeric where present. -/
def goodFile (f : CsvFile) : Prop :=
  f.header.Nodup ∧ hasLongRow f = false ∧
    (∀ c ∈ requiredCols, c ∈ f.header) ∧
    (∀ x ∈ rawColumnByName f "Annual Fee", cellDecOrNa x = true)

instance (f : CsvFile) : Decidable (goodFile f) := by
  unfold goodFile
  infer_instance

/-- Rows are aligned with the column list. -/
def Aligned (df : DataFrame) : Prop :=
  ∀ row ∈ df.rows, row.length = df.cols.length

/-- The named column is present and every cell of it satisfies the
predicate. -/
def colHas (df : DataFrame) (name : String) (p : PVal → Bool) : Prop :=
  ∃ cells, df.getCol name = some cells ∧ cells.all p = true

/-- A definite string cell. -/
def isStrCell : PVal → Bool
  | .str _ => true
  | _ => false

/-- The six columns load_data coerces with fillna of the empty string
followed by astype(str). -/
def strCoercedCols : List String :=
  ["Notes", "Tags", "Bonus Offer", "Bonus Status", "Last 4 Digits",
   "LastFeeAction"]

/-! ## Derived invariant statements -/

/-- The fee-month denormalisation invariant: the record's expiry token is
MM/YY with a valid month MM, and its Month of Annual Fee is exactly the
month name MONTH_MAP assigns to MM. -/
def feeMonthAgrees (c : CardRec) : Prop :=
  ∃ mm yy, c.cardExpiry = some (mm ++ "/" ++ yy) ∧
    validExpiryMM mm = true ∧
    c.feeMonth = MONTH_MAP mm ∧ (MONTH_MAP mm).isSome = true

/-! ## Concrete example data used by counterexamples and witnesses -/

/-- A record with a 500 minimum spend and an untouched bonus. -/
def exNotStarted : CardRec :=
  { blankRec with minSpend := 500, bonusStatus := "Not Started" }

/-- A record whose bonus has already been marked Met. -/
def exMet : CardRec :=
  { blankRec with minSpend := 500, bonusStatus := "Met", currentSpend := 500 }

/-- A record with an expired minimum-spend deadline and an eligible
status. -/
def exExpiredBonus : CardRec :=
  { blankRec with
    minSpendDeadline := some ⟨2026, 10, 11⟩
    bonusStatus := "Not Started" }

/-- A reference day for the deadline examples. -/
def exToday : Date := ⟨2026, 10, 12⟩

/-- A valid submission of the Add a New Card form. -/
def exAddInput : AddInput :=
  { custom := true, bank := "DBS", cardName := "Altitude",
    imageFilename := "img.png", last4 := "1234", expiryMM := "05",
    expiryYY := "27", annualFee := 100, tags := [], notes := "",
    bonusOffer := "", minSpend := 0, minSpendDeadline := none,
    bonusStatus := "Not Started", applied := none, approved := none,
    received := none, activated := none, firstCharge := none }

/-- A valid submission of the Edit Card form. -/
def exEditInput : Main.EditInput :=
  { bank := "DBS", cardName := "Altitude", newImage := none,
    last4 := "1234", expiryMM := "11", expiryYY := "28", annualFee := 100,
    tags := [], notes := "", bonusOffer := "", minSpend := 0,
    currentSpend := 0, minSpendDeadline := none,
    bonusStatus := "Not Started", applied := none, approved := none,
    received := none, activated := none, firstCharge := none }

/-- The table produced by the example Add submission. -/
def exAddResult : List CardRec :=
  (Main.show_add_card_form [] exAddInput).toOption.getD []

/-- The record produced by the example Edit submission. -/
def exEditResult : CardRec :=
  (Main.show_edit_form blankRec exEditInput).toOption.getD blankRec

/-- A raw file with only the eleven required columns, one row with
missing cells and a garbage date: load_data migrates and coerces it. -/
def exMessyFile : CsvFile :=
  ⟨["Bank", "Card Name", "Annual Fee", "Card Expiry (MM/YY)",
    "Month of Annual Fee", "Date Applied", "Date Approved",
    "Date Received Card", "Date Activated Card", "First Charge Date",
    "Image Filename"],
   [[some "Chase", some "Sapphire Preferred", some "95",
     some "05/27", some "May", some "2024-01-15", none,
     some "garbage", some "2024-01-26", some "2024-02-01", none]]⟩

/-! ## The class of records that round-trip through save and load -/

def safeStr (s : String) : Bool :=
  (parseDec s).isNone && !(naTokens.contains s)

def optStrOK : Option String → Bool
  | none => true
  | some s => safeStr s

def strFieldOK (s : String) : Bool :=
  s == "" || safeStr s

def last4OK (s : String) : Bool :=
  s == "" || (safeStr s && stripDotZero s == s)

def optMoneyOK : Option ℚ → Bool
  | none => true
  | some q => isDecimalRat q

def optDateOK : Option Date → Bool
  | none => true
  | some d => validDate d

/-- A record whose serialised row reads back verbatim: plain-text fields
hold empty or safe strings (not numeric-shaped, not an NA token, for the
Last 4 Digits also not ending in `.0`), money fields are finite decimal
fractions, dates are valid in-range dates. -/
def RecOK (c : CardRec) : Bool :=
  optStrOK c.bank && optStrOK c.cardName && optMoneyOK c.annualFee &&
  optStrOK c.cardExpiry && optStrOK c.feeMonth &&
  optDateOK c.dateApplied && optDateOK c.dateApproved &&
  optDateOK c.dateReceived && optDateOK c.dateActivated &&
  optDateOK c.firstCharge && optStrOK c.imageFilename &&
  strFieldOK c.notes && optDateOK c.cancellationDate &&
  optDateOK c.reapplyDate && strFieldOK c.tags && strFieldOK c.bonusOffer &&
  isDecimalRat c.minSpend && optDateOK c.minSpendDeadline &&
  strFieldOK c.bonusStatus && last4OK c.last4 &&
  isDecimalRat c.currentSpend && strFieldOK c.lastFeeAction

/-- The typed cell an optional object-column value loads back as. -/
def optStrCell : Option String → PVal
  | none => .na
  | some s => .str s

/-- The typed cell an optional date loads back as. -/
def dateCell : Option Date → PVal
  | none => .na
  | some d => .date d

/-- The typed cell an optional money value loads back as. -/
def optMoneyCell : Option ℚ → PVal
  | none => .na
  | some q => .flt q

/-! ## The save pipeline on a conforming record set -/

/-- The row read_csv produces for one saved record (kinds inferred from
the whole saved file). -/
def midRow (R : List CardRec) (r : CardRec) : List PVal :=
  [mkCell (inferKind (rawColumn (save_data R) 0)) (normCell (serStrOpt r.bank)),
   mkCell (inferKind (rawColumn (save_data R) 1)) (normCell (serStrOpt r.cardName)),
   mkCell (inferKind (rawColumn (save_data R) 2)) (normCell (serMoneyOpt r.annualFee)),
   mkCell (inferKind (rawColumn (save_data R) 3)) (normCell (serStrOpt r.cardExpiry)),
   mkCell (inferKind (rawColumn (save_data R) 4)) (normCell (serStrOpt r.feeMonth)),
   mkCell (inferKind (rawColumn (save_data R) 5)) (normCell (serDateOpt r.dateApplied)),
   mkCell (inferKind (rawColumn (save_data R) 6)) (normCell (serDateOpt r.dateApproved)),
   mkCell (inferKind (rawColumn (save_data R) 7)) (normCell (serDateOpt r.dateReceived)),
   mkCell (inferKind (rawColumn (save_data R) 8)) (normCell (serDateOpt r.dateActivated)),
   mkCell (inferKind (rawColumn (save_data R) 9)) (normCell (serDateOpt r.firstCharge)),
   mkCell (inferKind (rawColumn (save_data R) 10)) (normCell (serStrOpt r.imageFilename)),
   mkCell (inferKind (rawColumn (save_data R) 11)) (normCell (some (intStr r.sortOrder))),
   mkCell (inferKind (rawColumn (save_data R) 12)) (normCell (serStr r.notes)),
   mkCell (inferKind (rawColumn (save_data R) 13)) (normCell (serDateOpt r.cancellationDate)),
   mkCell (inferKind (rawColumn (save_data R) 14)) (normCell (serDateOpt r.reapplyDate)),
   mkCell (inferKind (rawColumn (save_data R) 15)) (normCell (serStr r.tags)),
   mkCell (inferKind (rawColumn (save_data R) 16)) (normCell (serStr r.bonusOffer)),
   mkCell (inferKind (rawColumn (save_data R) 17)) (normCell (some (floatRepr r.minSpend))),
   mkCell (inferKind (rawColumn (save_data R) 18)) (normCell (serDateOpt r.minSpendDeadline)),
   mkCell (inferKind (rawColumn (save_data R) 19)) (normCell (serStr r.bonusStatus)),
   mkCell (inferKind (rawColumn (save_data R) 20)) (normCell (serStr r.last4)),
   mkCell (inferKind (rawColumn (save_data R) 21)) (normCell (some (floatRepr r.currentSpend))),
   mkCell (inferKind (rawColumn (save_data R) 22)) (normCell (some (intStr r.feeWaivedCount))),
   mkCell (inferKind (rawColumn (save_data R) 23)) (normCell (some (intStr r.feePaidCount))),
   mkCell (inferKind (rawColumn (save_data R) 24)) (normCell (some (intStr r.lastFeeActionYear))),
   mkCell (inferKind (rawColumn (save_data R) 25)) (normCell (serStr r.lastFeeAction))]

/-- The same row once every column kind is resolved. -/
def niceRow (r : CardRec) : List PVal :=
  [optStrCell (serStrOpt r.bank),
   optStrCell (serStrOpt r.cardName),
   optMoneyCell r.annualFee,
   optStrCell (serStrOpt r.cardExpiry),
   optStrCell (serStrOpt r.feeMonth),
   optStrCell (serDateOpt r.dateApplied),
   optStrCell (serDateOpt r.dateApproved),
   optStrCell (serDateOpt r.dateReceived),
   optStrCell (serDateOpt r.dateActivated),
   optStrCell (serDateOpt r.firstCharge),
   optStrCell (serStrOpt r.imageFilename),
   PVal.int r.sortOrder,
   optStrCell (serStr r.notes),
   optStrCell (serDateOpt r.cancellationDate),
   optStrCell (serDateOpt r.reapplyDate),
   optStrCell (serStr r.tags),
   optStrCell (serStr r.bonusOffer),
   PVal.flt r.minSpend,
   optStrCell (serDateOpt r.minSpendDeadline),
   optStrCell (serStr r.bonusStatus),
   optStrCell (serStr r.last4),
   PVal.flt r.currentSpend,
   PVal.int r.feeWaivedCount,
   PVal.int r.feePaidCount,
   PVal.int r.lastFeeActionYear,
   optStrCell (serStr r.lastFeeAction)]

/-- The row after the per-column coercions of load_data. -/
def finalRow (r : CardRec) : List PVal :=
  [optStrCell r.bank,
   optStrCell r.cardName,
   optMoneyCell r.annualFee,
   optStrCell r.cardExpiry,
   optStrCell r.feeMonth,
   dateCell r.dateApplied,
   dateCell r.dateApproved,
   dateCell r.dateReceived,
   dateCell r.dateActivated,
   dateCell r.firstCharge,
   optStrCell r.imageFilename,
   PVal.int r.sortOrder,
   PVal.str r.notes,
   dateCell r.cancellationDate,
   dateCell r.reapplyDate,
   PVal.str r.tags,
   PVal.str r.bonusOffer,
   PVal.flt r.minSpend,
   dateCell r.minSpendDeadline,
   PVal.str r.bonusStatus,
   PVal.str r.last4,
   PVal.flt r.currentSpend,
   PVal.int r.feeWaivedCount,
   PVal.int r.feePaidCount,
   PVal.int r.lastFeeActionYear,
   PVal.str r.lastFeeAction]

/-- The net row transformation of the coercion fold over the full
column list. -/
def rowCoerce (row : List PVal) : List PVal :=
  List.modify strFillCell 25
    (List.modify counterCell 24
    (List.modify counterCell 23
    (List.modify counterCell 22
    (List.modify moneyCell 21
    (List.modify stripCell 20
    (List.modify strFillCell 20
    (List.modify strFillCell 19
    (List.modify moneyCell 17
    (List.modify strFillCell 16
    (List.modify strFillCell 15
    (List.modify strFillCell 12
    (List.modify sortOrderCell 11
    (List.modify toDatetimeCell 18
    (List.modify toDatetimeCell 14
    (List.modify toDatetimeCell 13
    (List.modify toDatetimeCell 9
    (List.modify toDatetimeCell 8
    (List.modify toDatetimeCell 7
    (List.modify toDatetimeCell 6
    (List.modify toDatetimeCell 5
    (row)))))))))))))))))))))

/-- A record inside the round-trip class, with realistic content. -/
def exGoodRec : CardRec :=
  { blankRec with
    bank := some "Chase"
    cardName := some "Sapphire Preferred"
    annualFee := some 95
    cardExpiry := some "05/27"
    feeMonth := some "May"
    dateApplied := some ⟨2024, 1, 15⟩
    dateApproved := some ⟨2024, 1, 20⟩
    minSpend := 4000
    minSpendDeadline := some ⟨2024, 4, 15⟩
    bonusStatus := "In Progress"
    bonusOffer := "60k points"
    notes := "keep an eye on the fee"
    tags := "travel"
    imageFilename := some "chase.png"
    last4 := "x512"
    currentSpend := mkRat 501 2 }

/-- The same record with a leading-zero Last 4 Digits value. -/
def exBadRec : CardRec :=
  { exGoodRec with last4 := "0512" }

/-- The record the round trip actually returns for exBadRec. -/
def exFixedRec : CardRec :=
  { exBadRec with last4 := "512" }

/-! ## Theorems -/

/-! # Theorems -/

/-! ## Claim C5: cancel then reactivate resets the lifecycle fields -/

/-- C5: for every record and every prior state of its fields, cancelling
it and then reactivating it leaves cancellation_date and reapply_date
unset, last_fee_action_year equal to 0 and last_fee_action empty. -/
theorem c5_cancel_reactivate_roundtrip (c : CardRec) (today : Date) :
    (Main.reactivate_card (Main.cancel_card today c)).cancellationDate = none ∧
    (Main.reactivate_card (Main.cancel_card today c)).reapplyDate = none ∧
    (Main.reactivate_card (Main.cancel_card today c)).lastFeeActionYear = 0 ∧
    (Main.reactivate_card (Main.cancel_card today c)).lastFeeAction = "" := by
  exact ⟨rfl, rfl, rfl, rfl⟩

/-! ## Claim C7: cancel stamps today and today plus 13 calendar months -/

/-- C7: the Cancel operation sets cancellation_date to today and
reapply_date to today plus exactly 13 calendar months: the linear month
index advances by exactly 13, and the day is kept whenever the target
month is long enough (clamped otherwise), so short months introduce no
drift. -/
theorem c7_cancel_sets_reapply_window (c : CardRec) (today : Date) :
    (Main.cancel_card today c).cancellationDate = some today ∧
    (Main.cancel_card today c).reapplyDate = some (addMonths today 13) ∧
    (1 ≤ today.month →
      12 * (addMonths today 13).year + ((addMonths today 13).month : ℤ) =
        12 * today.year + (today.month : ℤ) + 13) ∧
    (addMonths today 13).day =
      min today.day (daysInMonth (addMonths today 13).year (addMonths today 13).month) := by
  refine ⟨rfl, rfl, ?_, rfl⟩
  intro hm
  simp only [addMonths]
  have h12 : today.month - 1 + 13 = today.month + 12 := by omega
  rw [h12]
  have hdiv : 12 * ((today.month + 12) / 12) + (today.month + 12) % 12 = today.month + 12 :=
    Nat.div_add_mod (today.month + 12) 12
  push_cast
  omega

/-! ## Claim C3: spend updates and the bonus status -/

/-- C3 fails on the code: the dashboard spend update that reaches a
positive minimum spend from NOT_STARTED yields IN_PROGRESS, not MET (the
MET transition of the dashboard is a separate manual button), and the
bot spend update that makes the total positive from NOT_STARTED leaves
the status NOT_STARTED (the bot never sets IN_PROGRESS).  The claim
demands MET and IN_PROGRESS respectively at these inputs. -/
theorem c3_counterexample :
    (Main.update_spend exNotStarted 500).bonusStatus = "In Progress" ∧
    (Bot.add_spend exNotStarted 300).bonusStatus = "Not Started" := by
  constructor
  · norm_num [Main.update_spend, exNotStarted, blankRec]
  · norm_num [Bot.add_spend, exNotStarted, blankRec]

/-- C3 amended: the dashboard spend update sets the submitted total and
advances NOT_STARTED to IN_PROGRESS exactly when the new total is
positive — it never sets MET; the bot spend update adds the delta and
sets MET exactly when the new total reaches a positive minimum spend and
the status is not already MET — it never sets IN_PROGRESS; and neither
update ever moves a MET status backward. -/
theorem c3_spend_update_transitions (c : CardRec) (total amount : ℚ) :
    (Main.update_spend c total).currentSpend = total ∧
    (Main.update_spend c total).bonusStatus =
      (if c.bonusStatus = "Not Started" ∧ 0 < total then "In Progress"
       else c.bonusStatus) ∧
    (Bot.add_spend c amount).currentSpend = c.currentSpend + amount ∧
    (Bot.add_spend c amount).bonusStatus =
      (if c.minSpend ≤ c.currentSpend + amount ∧ 0 < c.minSpend ∧
          c.bonusStatus ≠ "Met" then "Met"
       else c.bonusStatus) ∧
    (c.bonusStatus = "Met" →
      (Main.update_spend c total).bonusStatus = "Met" ∧
      (Bot.add_spend c amount).bonusStatus = "Met") := by
  refine ⟨?_, ?_, ?_, ?_, ?_⟩
  · rfl
  · simp only [Main.update_spend]
    split <;> rfl
  · simp only [Bot.add_spend]
    split <;> rfl
  · simp only [Bot.add_spend]
    split <;> rfl
  · intro hMet
    constructor
    · simp only [Main.update_spend]
      rw [if_neg]
      · exact hMet
      · rintro ⟨h1, _⟩
        rw [hMet] at h1
        exact absurd h1 (by decide)
    · simp only [Bot.add_spend]
      rw [if_neg]
      · exact hMet
      · rintro ⟨_, _, h3⟩
        exact h3 hMet

/-- C3 amended, witness: the never-revert clause of the amended claim
applied at a concrete MET record. -/
theorem c3_spend_update_transitions_witness :
    (Main.update_spend exMet 100).bonusStatus = "Met" ∧
    (Bot.add_spend exMet 100).bonusStatus = "Met" :=
  (c3_spend_update_transitions exMet 100 100).2.2.2.2 rfl

/-! ## Claim C4: duplicate reorder batches are rejected without saving -/

/-- C4: when any two active records of a submitted reorder batch would
receive the same sort value, the whole batch is rejected: the on-disk
table is unchanged by the attempt, and the reported duplicates are
exactly the values assigned more than once. -/
theorem c4_reorder_duplicates_rejected (df : List CardRec)
    (newOrders : List ℤ) (h : ∃ v, 1 < newOrders.count v) :
    (sortFormStep df newOrders).1 = df ∧
    (∀ v : ℤ, v ∈ (sortFormStep df newOrders).2 ↔
      v ∈ newOrders ∧ 1 < newOrders.count v) := by
  obtain ⟨v, hv⟩ := h
  have hvmem : v ∈ newOrders := by
    have : 0 < newOrders.count v := by omega
    exact List.count_pos_iff.mp this
  have hdup : v ∈ duplicateValues newOrders := by
    simp only [duplicateValues, List.mem_filter, List.mem_dedup,
      decide_eq_true_eq]
    exact ⟨hvmem, hv⟩
  have hdne : duplicateValues newOrders ≠ [] := by
    intro he
    rw [he] at hdup
    exact absurd hdup (List.not_mem_nil v)
  have hform : show_sort_order_form df newOrders =
      .error (duplicateValues newOrders) := by
    simp only [show_sort_order_form]
    rw [if_pos hdne]
  constructor
  · simp [sortFormStep, hform]
  · intro w
    simp only [sortFormStep, hform]
    simp [duplicateValues, List.mem_filter, List.mem_dedup,
      decide_eq_true_eq]

/-- C4 witness: the spec scenario of two active records both assigned
position 1 — the save is skipped and the duplicate value 1 is
reported. -/
theorem c4_reorder_duplicates_rejected_witness :
    (∃ v : ℤ, 1 < ([1, 1] : List ℤ).count v) ∧
    (sortFormStep [blankRec, blankRec] [1, 1]).1 = [blankRec, blankRec] ∧
    (∀ v : ℤ, v ∈ (sortFormStep [blankRec, blankRec] [1, 1]).2 ↔
      v ∈ ([1, 1] : List ℤ) ∧ 1 < ([1, 1] : List ℤ).count v) :=
  ⟨⟨1, by decide⟩,
   c4_reorder_duplicates_rejected [blankRec, blankRec] [1, 1] ⟨1, by decide⟩⟩

/-! ## Claim C9: the advisory lock around physical reads and writes -/

/-- C9 fails on the code: the dashboard front end performs its physical
read (load_data) and its physical writes (every to_csv call) with no
lock at all; only the bot wraps them in the FileLock. -/
theorem c9_counterexample :
    lockedIO Main.load_data_events = false ∧
    lockedIO Main.save_data_events = false := by
  constructor
  · rfl
  · rfl

/-- C9 amended: the bot front end performs every physical read and write
of the record file while holding the advisory lock; the dashboard front
end performs them with no lock at all. -/
theorem c9_lock_discipline :
    (∀ filePresent, lockedIO (Bot.load_data_events filePresent) = true) ∧
    lockedIO Bot.save_data_events = true ∧
    lockedIO Main.load_data_events = false ∧
    lockedIO Main.save_data_events = false := by
  refine ⟨?_, rfl, rfl, rfl⟩
  intro b
  cases b <;> rfl

/-! ## Claim C10: requests from other users are invisible -/

/-- Helper: an unauthorised request leaves the state untouched and sends
nothing, by the restricted decorator. -/
theorem bot_step_unauthorized (year : ℤ) (env : BotEnv) (st : BotState)
    (req : Request) (h : ¬ req.senderId = env.chatId) :
    Bot.processRequest year env st req = (st, []) := by
  simp [Bot.processRequest, Bot.restricted, h]

/-- Helper: folding the request processor over a request list equals
folding it over the authorised sublist, from any starting state and
output log. -/
theorem bot_foldl_filter (year : ℤ) (env : BotEnv) :
    ∀ (reqs : List Request) (p : BotState × List BotOutput),
      reqs.foldl (fun acc req =>
        let r := Bot.processRequest year env acc.1 req
        (r.1, acc.2 ++ r.2)) p =
      (reqs.filter (fun r => r.senderId = env.chatId)).foldl (fun acc req =>
        let r := Bot.processRequest year env acc.1 req
        (r.1, acc.2 ++ r.2)) p := by
  intro reqs
  induction reqs with
  | nil => intro p; rfl
  | cons r t ih =>
    intro p
    by_cases hr : r.senderId = env.chatId
    · rw [List.filter_cons_of_pos (by simpa using hr)]
      simp only [List.foldl_cons]
      exact ih _
    · rw [List.filter_cons_of_neg (by simpa using hr)]
      simp only [List.foldl_cons]
      have hs :
          (let q := Bot.processRequest year env p.1 r
           (q.1, p.2 ++ q.2)) = p := by
        rw [bot_step_unauthorized year env p.1 r hr]
        simp
      rw [hs]
      exact ih p

/-- C10: a whole bot session produces exactly the same final record
store and the same outgoing messages as the session with every
unauthorised request deleted — requests whose sender differs from the
configured chat id neither touch the store nor produce any reply. -/
theorem c10_unauthorized_requests_invisible (year : ℤ) (env : BotEnv)
    (st : BotState) (reqs : List Request) :
    Bot.processAll year env st reqs =
      Bot.processAll year env st
        (reqs.filter (fun r => r.senderId = env.chatId)) := by
  unfold Bot.processAll
  exact bot_foldl_filter year env reqs (st, [])

/-! ## Claim C6: the fee-month denormalisation invariant -/

/-- Helper: every index below twelve hits a month name. -/
theorem month_names_get_isSome (n : ℕ) (h : n < 12) :
    (MONTH_NAMES.get? n).isSome = true := by
  interval_cases n <;> decide

/-- Helper: a token passing the expiry-month regex resolves to a month
name under MONTH_MAP. -/
theorem validMM_month_map (mm : String) (h : validExpiryMM mm = true) :
    (MONTH_MAP mm).isSome = true := by
  unfold validExpiryMM at h
  rcases hd : mm.data with _ | ⟨a, _ | ⟨b, _ | ⟨c, t⟩⟩⟩ <;> rw [hd] at h
  · simp at h
  · simp at h
  case _ =>
    simp only [decide_eq_true_eq] at h
    have hnum : (a.toNat = 48 ∧ 49 ≤ b.toNat ∧ b.toNat ≤ 57) ∨
        (a.toNat = 49 ∧ 48 ≤ b.toNat ∧ b.toNat ≤ 50) := by
      rcases h with ⟨ha, hb1, hb2⟩ | ⟨ha, hb1, hb2⟩
      · subst ha
        exact Or.inl ⟨rfl, by exact_mod_cast hb1, by exact_mod_cast hb2⟩
      · subst ha
        exact Or.inr ⟨rfl, by exact_mod_cast hb1, by exact_mod_cast hb2⟩
    have hdiga : isDigitCh a = true := by
      simp only [isDigitCh, decide_eq_true_eq]
      omega
    have hdigb : isDigitCh b = true := by
      simp only [isDigitCh, decide_eq_true_eq]
      omega
    have hpn : parseNat [a, b] = some (digitsVal [a, b]) := by
      rw [parseNat, if_pos]
      exact ⟨by simp, by simp [hdiga, hdigb]⟩
    have hval : digitsVal [a, b] = (a.toNat - 48) * 10 + (b.toNat - 48) := by
      simp [digitsVal, digitVal]
    unfold MONTH_MAP
    rw [hd, hpn]
    have hcond : ([a, b] : List Char).length = 2 ∧
        1 ≤ digitsVal [a, b] ∧ digitsVal [a, b] ≤ 12 := by
      refine ⟨rfl, ?_, ?_⟩ <;> rw [hval] <;> omega
    show (if ([a, b] : List Char).length = 2 ∧ 1 ≤ digitsVal [a, b] ∧
        digitsVal [a, b] ≤ 12 then MONTH_NAMES.get? (digitsVal [a, b] - 1)
      else none).isSome = true
    rw [if_pos hcond]
    refine month_names_get_isSome _ ?_
    rw [hval]
    omega
  · simp at h

/-- C6: every record written by a successful Add or Edit submission has
its Month of Annual Fee equal to the month name MONTH_MAP assigns to the
validated MM component of its expiry token — fee_due_month agrees with
expiry.month. -/
theorem c6_fee_month_invariant (df df2 : List CardRec) (c c2 : CardRec)
    (inpA : AddInput) (inpE : Main.EditInput) :
    (Main.show_add_card_form df inpA = .ok df2 →
      ∃ cNew, df2 = df ++ [cNew] ∧ feeMonthAgrees cNew) ∧
    (Main.show_edit_form c inpE = .ok c2 → feeMonthAgrees c2) := by
  constructor
  · intro h
    unfold Main.show_add_card_form at h
    split at h
    · exact absurd h (by simp)
    · split at h
      · exact absurd h (by simp)
      · split at h
        · exact absurd h (by simp)
        · split at h
          · exact absurd h (by simp)
          · rename_i h1 h2 h3 h4
            refine ⟨_, (Except.ok.injEq _ _ ▸ h).symm, ?_⟩
            refine ⟨inpA.expiryMM, inpA.expiryYY, rfl, ?_, rfl, ?_⟩
            · exact of_not_not h2
            · exact validMM_month_map _ (of_not_not h2)
  · intro h
    unfold Main.show_edit_form at h
    split at h
    · exact absurd h (by simp)
    · split at h
      · exact absurd h (by simp)
      · split at h
        · exact absurd h (by simp)
        · split at h
          · exact absurd h (by simp)
          · rename_i h1 h2 h3 h4
            have hc2 : c2 = _ := (Except.ok.injEq _ _ ▸ h).symm
            subst hc2
            refine ⟨inpE.expiryMM, inpE.expiryYY, rfl, ?_, rfl, ?_⟩
            · exact of_not_not h2
            · exact validMM_month_map _ (of_not_not h2)

/-- C6 witness: the invariant instantiated at concrete successful Add
and Edit submissions. -/
theorem c6_fee_month_invariant_witness :
    (∃ cNew, exAddResult = [] ++ [cNew] ∧ feeMonthAgrees cNew) ∧
    feeMonthAgrees exEditResult := by
  constructor
  · exact (c6_fee_month_invariant [] exAddResult blankRec exEditResult
      exAddInput exEditInput).1 rfl
  · exact (c6_fee_month_invariant [] exAddResult blankRec exEditResult
      exAddInput exEditInput).2 rfl

/-! ## Claim C8: expired bonuses and the active-bonus views -/

/-- C8 fails on the code: a record with an expired deadline (negative
days left), eligible status and no cancellation is a member of the bot
front end's active-bonus view (check_bonuses applies no days-left
filter), while the claim demands exclusion from every active-bonus
view. -/
theorem c8_counterexample :
    exExpiredBonus ∈ botBonusCards [exExpiredBonus] ∧
    daysLeft exToday exExpiredBonus < 0 := by
  constructor
  · decide
  · decide

/-- C8 amended: the dashboard Welcome Bonus Tracker contains exactly the
displayed records with a set deadline, eligible status and non-negative
days left; the bot /bonus view contains exactly the non-cancelled
records with eligible status and a set deadline, with no days-left
filter at all. -/
theorem c8_bonus_view_membership (today : Date) (sc : Bool)
    (cards : List CardRec) (c : CardRec) :
    (c ∈ dashboardActiveBonuses today sc cards ↔
      c ∈ (if sc then cards else cards.filter isActive) ∧
      c.minSpendDeadline.isSome = true ∧
      (c.bonusStatus = "Not Started" ∨ c.bonusStatus = "In Progress") ∧
      0 ≤ daysLeft today c) ∧
    (c ∈ botBonusCards cards ↔
      c ∈ cards ∧ isActive c = true ∧
      (c.bonusStatus = "In Progress" ∨ c.bonusStatus = "Not Started") ∧
      c.minSpendDeadline.isSome = true) := by
  constructor
  · simp [dashboardActiveBonuses, List.mem_filter, and_assoc]
    try tauto
  · simp [botBonusCards, List.mem_filter, and_assoc]
    try tauto

/-- C7 witness: the cancel stamp evaluated at a concrete record and
day. -/
theorem c7_cancel_sets_reapply_window_witness :
    (Main.cancel_card exToday blankRec).cancellationDate = some exToday ∧
    (Main.cancel_card exToday blankRec).reapplyDate =
      some (addMonths exToday 13) ∧
    12 * (addMonths exToday 13).year + ((addMonths exToday 13).month : ℤ) =
      12 * exToday.year + (exToday.month : ℤ) + 13 := by
  obtain ⟨h1, h2, h3, h4⟩ := c7_cancel_sets_reapply_window blankRec exToday
  exact ⟨h1, h2, h3 (by decide)⟩

theorem findIdx?_isSome_of_mem {l : List String} {s : String} (h : s ∈ l) :
    (l.findIdx? (fun c => c = s)).isSome = true := by
  induction l with
  | nil => simp at h
  | cons a t ih =>
    rw [List.findIdx?_cons]
    by_cases ha : a = s
    · simp [ha]
    · have hst : s ∈ t := by
        rcases List.mem_cons.mp h with h1 | h1
        · exact absurd h1.symm ha
        · exact h1
      simp only [decide_eq_false ha]
      simpa [List.findIdx?_succ] using ih hst

theorem findIdx?_eq_some_prop {l : List String} {s : String} {i : ℕ}
    (h : l.findIdx? (fun c => c = s) = some i) :
    i < l.length ∧ l.getD i "" = s := by
  induction l generalizing i with
  | nil => simp [List.findIdx?] at h
  | cons a t ih =>
    rw [List.findIdx?_cons] at h
    by_cases ha : a = s
    · simp [ha] at h
      subst h
      simpa using ha
    · simp only [decide_eq_false ha] at h
      simp only [List.findIdx?_succ] at h
      cases hi : t.findIdx? (fun c => c = s) with
      | none => rw [hi] at h; simp at h
      | some j =>
        rw [hi] at h
        simp at h
        subst h
        obtain ⟨h1, h2⟩ := ih hi
        exact ⟨by simpa using Nat.succ_lt_succ h1, by simpa using h2⟩

theorem mapCol_spec (tname : String) (g : PVal → PVal) (df : DataFrame)
    (hpres : tname ∈ df.cols) (halign : Aligned df) :
    ∃ df2, mapCol tname g df = .ok df2 ∧ df2.cols = df.cols ∧ Aligned df2 ∧
      ∀ name cells, df.getCol name = some cells →
        df2.getCol name =
          some (cells.map (fun v => if name = tname then g v else v)) := by
  obtain ⟨i, hfi⟩ :=
    Option.isSome_iff_exists.mp (findIdx?_isSome_of_mem hpres)
  obtain ⟨hilen, hival⟩ := findIdx?_eq_some_prop hfi
  refine ⟨⟨df.cols, df.rows.map (fun row => row.modify g i)⟩, ?_, rfl, ?_, ?_⟩
  · unfold mapCol
    rw [hfi]
  · intro row hrow
    simp only [List.mem_map] at hrow
    obtain ⟨r0, hr0, rfl⟩ := hrow
    rw [List.length_modify]
    exact halign r0 hr0
  · intro name cells hget
    unfold DataFrame.getCol at hget ⊢
    cases hfj : df.cols.findIdx? (fun c => c = name) with
    | none => rw [hfj] at hget; simp at hget
    | some j =>
      rw [hfj] at hget
      have hcells : cells = df.rows.map (fun row => row.getD j .na) := by
        simpa using hget.symm
      subst hcells
      simp only [Option.map_some', Option.some.injEq]
      rw [List.map_map, List.map_map]
      apply List.map_congr_left
      intro row hrow
      simp only [Function.comp_apply]
      by_cases hnt : name = tname
      · subst hnt
        rw [hfi] at hfj
        injection hfj with hij
        subst hij
        have hlen : i < row.length := by rw [halign row hrow]; exact hilen
        rw [List.getD_eq_getElem?_getD, List.getD_eq_getElem?_getD,
          List.getElem?_modify, List.getElem?_eq_getElem hlen]
        simp
      · obtain ⟨hjlen, hjval⟩ := findIdx?_eq_some_prop hfj
        have hij : i ≠ j := by
          intro he
          subst he
          rw [hival] at hjval
          exact hnt hjval.symm
        rw [List.getD_eq_getElem?_getD, List.getD_eq_getElem?_getD,
          List.getElem?_modify]
        cases hrj : row[j]? with
        | none => simp [hij, hnt]
        | some a => simp [hij, hnt]

theorem lookup_mem {n : String} {dt : Dtype} {ps : List (String × Dtype)}
    (h : ps.lookup n = some dt) : (n, dt) ∈ ps := by
  induction ps with
  | nil => simp [List.lookup] at h
  | cons a t ih =>
    rw [List.lookup] at h
    cases hn : (n == a.1) with
    | true =>
      simp only [hn] at h
      injection h with h
      have hna : n = a.1 := by simpa using hn
      subst hna
      subst h
      exact (show (a.1, a.2) = a from rfl) ▸ List.mem_cons_self _ _
    | false =>
      simp only [hn] at h
      exact List.mem_cons_of_mem _ (ih h)

theorem astypeCell_type {n : String} {dt : Dtype} {v w : PVal}
    (h : astypeCell n dt v = .ok w) : cellOkForDtype dt w = true := by
  cases dt <;> cases v <;> simp only [astypeCell] at h <;>
    try split at h
  all_goals
    first
      | (injection h with h; subst h; rfl)
      | (exact absurd h (by simp))

theorem astypeCell_object {n : String} {v : PVal} :
    astypeCell n .objectT v = .ok v := rfl

theorem mapM_ok_spec {α β : Type} (conv : α → Except LoadErr β) :
    ∀ (l : List α), (∀ p ∈ l, (conv p).toOption.isSome = true) →
      ∃ out : List β, l.mapM conv = .ok out ∧ out.length = l.length ∧
        ∀ k : ℕ, out[k]? = (l[k]?).bind (fun p => (conv p).toOption) := by
  intro l
  induction l with
  | nil =>
    intro h
    refine ⟨([] : List β), rfl, rfl, ?_⟩
    intro k
    simp
  | cons a t ih =>
    intro h
    have ha := h a (List.mem_cons_self _ _)
    obtain ⟨w, hw⟩ : ∃ w, conv a = .ok w := by
      cases hc : conv a with
      | ok w => exact ⟨w, rfl⟩
      | error e => rw [hc] at ha; simp [Except.toOption] at ha
    obtain ⟨out, ho, hlen, hk⟩ := ih (fun p hp => h p (List.mem_cons_of_mem _ hp))
    refine ⟨w :: out, ?_, by simp [hlen], ?_⟩
    · rw [List.mapM_cons, hw, ho]
      rfl
    · intro k
      cases k with
      | zero => simp [hw, Except.toOption]
      | succ k2 => simpa using hk k2

theorem astypeRow_spec (cols : List String) (row : List PVal)
    (hlen : row.length = cols.length)
    (hok : ∀ k : ℕ, k < row.length →
        (astypeConv (cols.getD k "", row.getD k .na)).toOption.isSome = true) :
    ∃ out : List PVal, astypeRow cols row = .ok out ∧
      out.length = row.length ∧
      ∀ k : ℕ, k < row.length →
        out[k]? = (astypeConv (cols.getD k "", row.getD k .na)).toOption := by
  have hzlen : (cols.zip row).length = row.length := by
    rw [List.length_zip]
    omega
  have hzget : ∀ k : ℕ, k < row.length →
      (cols.zip row)[k]? = some (cols.getD k "", row.getD k .na) := by
    intro k hk
    have hc : cols[k]? = some (cols.getD k "") := by
      rw [List.getD_eq_getElem?_getD]
      cases hc : cols[k]? with
      | none =>
        rw [List.getElem?_eq_none_iff] at hc
        omega
      | some a => rfl
    have hr : row[k]? = some (row.getD k .na) := by
      rw [List.getD_eq_getElem?_getD]
      cases hr : row[k]? with
      | none =>
        rw [List.getElem?_eq_none_iff] at hr
        omega
      | some a => rfl
    rw [List.getElem?_zip_eq_some]
    exact ⟨hc, hr⟩
  have hmem : ∀ p ∈ cols.zip row, (astypeConv p).toOption.isSome = true := by
    intro p hp
    obtain ⟨k, hk⟩ := List.mem_iff_getElem?.mp hp
    have hklt : k < (cols.zip row).length := by
      by_contra hcon
      rw [List.getElem?_eq_none_iff.mpr (by omega)] at hk
      exact absurd hk (by simp)
    have hklt2 : k < row.length := by omega
    rw [hzget k hklt2] at hk
    injection hk with hk
    subst hk
    exact hok k hklt2
  obtain ⟨out, ho, holen, hidx⟩ := mapM_ok_spec astypeConv (cols.zip row) hmem
  refine ⟨out, ho, by omega, ?_⟩
  intro k hk
  rw [hidx k, hzget k hk]
  rfl

theorem astypeAll_spec (df : DataFrame) (halign : Aligned df)
    (hpres : ∀ p ∈ COLUMN_DTYPES, df.cols.contains p.1 = true)
    (hok : ∀ row ∈ df.rows, ∀ k : ℕ, k < row.length →
        (astypeConv (df.cols.getD k "", row.getD k .na)).toOption.isSome = true) :
    ∃ df2, astypeAll df = .ok df2 ∧ df2.cols = df.cols ∧ Aligned df2 ∧
      ∀ n cells, df.getCol n = some cells →
        df2.getCol n =
          some (cells.map (fun v => ((astypeConv (n, v)).toOption).getD .na)) := by
  have hfind : COLUMN_DTYPES.find? (fun p => ¬ df.cols.contains p.1) = none := by
    rw [List.find?_eq_none]
    intro p hp
    have hc := hpres p hp
    simp only [decide_eq_true_eq, not_not]
    simp at hc ⊢
    exact hc
  have hrowok : ∀ row ∈ df.rows, (astypeRow df.cols row).toOption.isSome = true := by
    intro row hrow
    obtain ⟨out, ho, _, _⟩ :=
      astypeRow_spec df.cols row (halign row hrow) (hok row hrow)
    rw [ho]
    rfl
  obtain ⟨outRows, hmap, hmlen, hmidx⟩ :=
    mapM_ok_spec (astypeRow df.cols) df.rows hrowok
  refine ⟨⟨df.cols, outRows⟩, ?_, rfl, ?_, ?_⟩
  · unfold astypeAll
    rw [hfind, hmap]
    rfl
  · intro row hrow
    obtain ⟨i, hi⟩ := List.mem_iff_getElem?.mp hrow
    have hsome := hmidx i
    cases hrin : df.rows[i]? with
    | none =>
      rw [hrin] at hsome
      simp only [Option.none_bind] at hsome
      rw [hi] at hsome
      exact absurd hsome (by simp)
    | some r0 =>
      rw [hrin] at hsome
      simp only [Option.some_bind] at hsome
      have hr0 : r0 ∈ df.rows := List.mem_iff_getElem?.mpr ⟨i, hrin⟩
      obtain ⟨out, ho, holen, _⟩ :=
        astypeRow_spec df.cols r0 (halign r0 hr0) (hok r0 hr0)
      rw [ho] at hsome
      simp only [Except.toOption] at hsome
      rw [hi] at hsome
      injection hsome with hsome
      show row.length = df.cols.length
      rw [hsome, holen]
      exact halign r0 hr0
  · intro n cells hget
    unfold DataFrame.getCol at hget ⊢
    cases hfj : df.cols.findIdx? (fun c => c = n) with
    | none => rw [hfj] at hget; simp at hget
    | some j =>
      rw [hfj] at hget
      have hcells : cells = df.rows.map (fun row => row.getD j .na) := by
        simpa using hget.symm
      subst hcells
      simp only [Option.map_some', Option.some.injEq]
      obtain ⟨hjlen, hjval⟩ := findIdx?_eq_some_prop hfj
      rw [List.map_map]
      apply List.ext_getElem?
      intro i
      rw [List.getElem?_map, List.getElem?_map]
      have hsome := hmidx i
      cases hrin : df.rows[i]? with
      | none =>
        rw [hrin] at hsome
        simp only [Option.none_bind] at hsome
        rw [hsome]
        rfl
      | some r0 =>
        rw [hrin] at hsome
        simp only [Option.some_bind] at hsome
        have hr0 : r0 ∈ df.rows := List.mem_iff_getElem?.mpr ⟨i, hrin⟩
        obtain ⟨out, ho, holen, hoidx⟩ :=
          astypeRow_spec df.cols r0 (halign r0 hr0) (hok r0 hr0)
        rw [ho] at hsome
        simp only [Except.toOption] at hsome
        rw [hsome]
        simp only [Option.map_some', Option.some.injEq, Function.comp_apply]
        have hjr : j < r0.length := by
          rw [halign r0 hr0]
          exact hjlen
        have hoj := hoidx j hjr
        rw [List.getD_eq_getElem?_getD, hoj]
        rw [hjval]

theorem dfAddConst_spec (name : String) (v : PVal) (df : DataFrame)
    (halign : Aligned df) :
    (∀ n ∈ df.cols, n ∈ (dfAddConst name v df).cols) ∧
    name ∈ (dfAddConst name v df).cols ∧
    Aligned (dfAddConst name v df) ∧
    (df.cols.Nodup → (dfAddConst name v df).cols.Nodup) ∧
    (∀ n2 ∈ (dfAddConst name v df).cols, n2 ∈ df.cols ∨ n2 = name) ∧
    (∀ n2 cells, df.getCol n2 = some cells →
      (dfAddConst name v df).getCol n2 = some cells) := by
  unfold dfAddConst
  by_cases hc : df.cols.contains name
  · rw [if_pos hc]
    refine ⟨fun n hn => hn, ?_, halign, fun h => h, fun n2 h => Or.inl h,
      fun n2 cells h => h⟩
    simpa using hc
  · rw [if_neg hc]
    have hnotin : name ∉ df.cols := by simpa using hc
    refine ⟨?_, ?_, ?_, ?_, ?_, ?_⟩
    · intro n hn
      exact List.mem_append_left _ hn
    · exact List.mem_append_right _ (List.mem_singleton_self name)
    · intro row hrow
      simp only [List.mem_map] at hrow
      obtain ⟨r0, hr0, rfl⟩ := hrow
      simp only [List.length_append, List.length_singleton]
      rw [halign r0 hr0]
    · intro hnd
      simp [List.nodup_append, hnd, hnotin]
    · intro n2 h
      rcases List.mem_append.mp h with h1 | h1
      · exact Or.inl h1
      · exact Or.inr (List.mem_singleton.mp h1)
    · intro n2 cells hget
      unfold DataFrame.getCol at hget ⊢
      cases hfj : df.cols.findIdx? (fun c => c = n2) with
      | none => rw [hfj] at hget; simp at hget
      | some j =>
        rw [hfj] at hget
        have hcells : cells = df.rows.map (fun row => row.getD j .na) := by
          simpa using hget.symm
        subst hcells
        have hfj2 : (df.cols ++ [name]).findIdx? (fun c => c = n2) = some j := by
          rw [List.findIdx?_append, hfj]
          rfl
        simp only
        rw [hfj2]
        simp only [Option.map_some', Option.some.injEq]
        rw [List.map_map]
        apply List.map_congr_left
        intro row hrow
        simp only [Function.comp_apply]
        obtain ⟨hjlen, _⟩ := findIdx?_eq_some_prop hfj
        have hjr : j < row.length := by
          rw [halign row hrow]
          exact hjlen
        rw [List.getD_eq_getElem?_getD, List.getD_eq_getElem?_getD,
          List.getElem?_append, if_pos hjr]

theorem dfAddSortOrder_spec (df : DataFrame) (halign : Aligned df) :
    (∀ n ∈ df.cols, n ∈ (dfAddSortOrder df).cols) ∧
    "Sort Order" ∈ (dfAddSortOrder df).cols ∧
    Aligned (dfAddSortOrder df) ∧
    (df.cols.Nodup → (dfAddSortOrder df).cols.Nodup) ∧
    (∀ n2 ∈ (dfAddSortOrder df).cols, n2 ∈ df.cols ∨ n2 = "Sort Order") ∧
    (∀ n2 cells, df.getCol n2 = some cells →
      (dfAddSortOrder df).getCol n2 = some cells) := by
  unfold dfAddSortOrder
  by_cases hc : df.cols.contains "Sort Order"
  · rw [if_pos hc]
    refine ⟨fun n hn => hn, ?_, halign, fun h => h, fun n2 h => Or.inl h,
      fun n2 cells h => h⟩
    simpa using hc
  · rw [if_neg hc]
    have hnotin : "Sort Order" ∉ df.cols := by simpa using hc
    refine ⟨?_, ?_, ?_, ?_, ?_, ?_⟩
    · intro n hn
      exact List.mem_append_left _ hn
    · exact List.mem_append_right _ (List.mem_singleton_self _)
    · intro row hrow
      simp only [List.mem_map] at hrow
      obtain ⟨p0, hp0, rfl⟩ := hrow
      simp only [List.length_append, List.length_singleton]
      rw [halign p0.2 (List.snd_mem_of_mem_enum hp0)]
    · intro hnd
      simp [List.nodup_append, hnd, hnotin]
    · intro n2 h
      rcases List.mem_append.mp h with h1 | h1
      · exact Or.inl h1
      · exact Or.inr (List.mem_singleton.mp h1)
    · intro n2 cells hget
      unfold DataFrame.getCol at hget ⊢
      cases hfj : df.cols.findIdx? (fun c => c = n2) with
      | none => rw [hfj] at hget; simp at hget
      | some j =>
        rw [hfj] at hget
        have hcells : cells = df.rows.map (fun row => row.getD j .na) := by
          simpa using hget.symm
        subst hcells
        have hfj2 : (df.cols ++ ["Sort Order"]).findIdx? (fun c => c = n2) =
            some j := by
          rw [List.findIdx?_append, hfj]
          rfl
        simp only
        rw [hfj2]
        simp only [Option.map_some', Option.some.injEq]
        obtain ⟨hjlen, _⟩ := findIdx?_eq_some_prop hfj
        have hstep : ∀ p ∈ df.rows.enum,
            ((fun q => q.2 ++ [PVal.int ((q.1 : ℤ) + 1)]) p).getD j .na =
              p.2.getD j .na := by
          intro p hp
          have hjr : j < p.2.length := by
            rw [halign p.2 (List.snd_mem_of_mem_enum hp)]
            exact hjlen
          rw [List.getD_eq_getElem?_getD, List.getD_eq_getElem?_getD,
            List.getElem?_append, if_pos hjr]
        calc (df.rows.enum.map (fun q => q.2 ++ [PVal.int ((q.1 : ℤ) + 1)])).map
              (fun row => row.getD j .na)
            = df.rows.enum.map
                ((fun row => row.getD j .na) ∘
                  (fun q => q.2 ++ [PVal.int ((q.1 : ℤ) + 1)])) := by
              rw [List.map_map]
          _ = df.rows.enum.map (fun p => p.2.getD j .na) := by
              apply List.map_congr_left
              intro p hp
              exact hstep p hp
          _ = (df.rows.enum.map Prod.snd).map (fun row => row.getD j .na) := by
              rw [List.map_map]
              rfl
          _ = df.rows.map (fun row => row.getD j .na) := by
              rw [List.enum_map_snd]

theorem migrate_fold_spec :
    ∀ (ds : List (String × PVal)) (df : DataFrame), Aligned df →
    (∀ n ∈ df.cols,
      n ∈ (ds.foldl (fun d p => dfAddConst p.1 p.2 d) df).cols) ∧
    (∀ p ∈ ds, p.1 ∈ (ds.foldl (fun d p => dfAddConst p.1 p.2 d) df).cols) ∧
    Aligned (ds.foldl (fun d p => dfAddConst p.1 p.2 d) df) ∧
    (df.cols.Nodup →
      (ds.foldl (fun d p => dfAddConst p.1 p.2 d) df).cols.Nodup) ∧
    (∀ n2 cells, df.getCol n2 = some cells →
      (ds.foldl (fun d p => dfAddConst p.1 p.2 d) df).getCol n2 = some cells) := by
  intro ds
  induction ds with
  | nil =>
    intro df halign
    exact ⟨fun n hn => hn, by simp, halign, fun h => h, fun n2 cells h => h⟩
  | cons a t ih =>
    intro df halign
    obtain ⟨hm, hself, halign2, hnd, hrange, hpres⟩ := dfAddConst_spec a.1 a.2 df halign
    obtain ⟨ihm, ihself, ihalign, ihnd, ihpres⟩ := ih (dfAddConst a.1 a.2 df) halign2
    simp only [List.foldl_cons]
    refine ⟨?_, ?_, ihalign, ?_, ?_⟩
    · intro n hn
      exact ihm n (hm n hn)
    · intro p hp
      rcases List.mem_cons.mp hp with h1 | h1
      · subst h1
        exact ihm p.1 hself
      · exact ihself p h1
    · intro hnodup
      exact ihnd (hnd hnodup)
    · intro n2 cells hget
      exact ihpres n2 cells (hpres n2 cells hget)

theorem migrate_spec (df : DataFrame) (halign : Aligned df) :
    (∀ n ∈ df.cols, n ∈ (migrate df).cols) ∧
    "Sort Order" ∈ (migrate df).cols ∧
    (∀ p ∈ migrationDefaults, p.1 ∈ (migrate df).cols) ∧
    Aligned (migrate df) ∧
    (df.cols.Nodup → (migrate df).cols.Nodup) ∧
    (∀ n2 cells, df.getCol n2 = some cells →
      (migrate df).getCol n2 = some cells) := by
  obtain ⟨sm, sself, salign, snd, srange, spres⟩ := dfAddSortOrder_spec df halign
  obtain ⟨fm, fself, falign, fnd, fpres⟩ :=
    migrate_fold_spec migrationDefaults (dfAddSortOrder df) salign
  unfold migrate
  exact ⟨fun n hn => fm n (sm n hn), fm _ sself, fself, falign,
    fun hnd => fnd (snd hnd), fun n2 cells h => fpres n2 cells (spres n2 cells h)⟩

theorem readCsv_aligned (f : CsvFile) : Aligned (readCsv f) := by
  intro row hrow
  unfold readCsv at hrow
  simp only [List.mem_map] at hrow
  obtain ⟨r0, _, rfl⟩ := hrow
  simp [readCsv]

theorem readCsv_getCol (f : CsvFile) (name : String) (j : ℕ)
    (hfj : f.header.findIdx? (fun c => c = name) = some j) :
    (readCsv f).getCol name =
      some ((rawColumn f j).map (mkCell (inferKind (rawColumn f j)))) := by
  obtain ⟨hjlen, _⟩ := findIdx?_eq_some_prop hfj
  unfold DataFrame.getCol readCsv
  simp only
  rw [hfj]
  simp only [Option.map_some', Option.some.injEq]
  rw [List.map_map]
  unfold rawColumn
  rw [List.map_map]
  apply List.map_congr_left
  intro row hrow
  simp only [Function.comp_apply]
  rw [List.getD_eq_getElem?_getD, List.getElem?_map, List.getElem?_range hjlen]
  simp only [Option.map_some', Option.getD_some]
  congr 1
  rw [List.getD_eq_getElem?_getD, List.getElem?_map, List.getElem?_range hjlen]
  rfl

theorem netMap_factor (name : String) :
    ∀ (t : List (String × (PVal → PVal))) (g : PVal → PVal),
    t.foldl (fun acc p => fun v => if name = p.1 then p.2 (acc v) else acc v) g
      = (netMap t name) ∘ g := by
  intro t
  induction t with
  | nil =>
    intro g
    funext v
    simp [netMap]
  | cons b t2 ih =>
    intro g
    rw [List.foldl_cons, ih]
    have hb : netMap (b :: t2) name = (netMap t2 name) ∘
        (fun v => if name = b.1 then b.2 v else v) := by
      unfold netMap
      rw [List.foldl_cons, ih]
      rfl
    rw [hb]
    rfl

theorem coercion_fold_spec :
    ∀ (steps : List (String × (PVal → PVal))) (df : DataFrame),
    Aligned df → (∀ p ∈ steps, p.1 ∈ df.cols) →
    ∃ df2, steps.foldlM (fun d p => mapCol p.1 p.2 d) df = .ok df2 ∧
      df2.cols = df.cols ∧ Aligned df2 ∧
      ∀ name cells, df.getCol name = some cells →
        df2.getCol name = some (cells.map (netMap steps name)) := by
  intro steps
  induction steps with
  | nil =>
    intro df halign _
    refine ⟨df, rfl, rfl, halign, ?_⟩
    intro name cells h
    simpa [netMap] using h
  | cons a t ih =>
    intro df halign hpres
    obtain ⟨dfa, hea, hca, haa, hta⟩ :=
      mapCol_spec a.1 a.2 df (hpres a (List.mem_cons_self _ _)) halign
    have hprest : ∀ p ∈ t, p.1 ∈ dfa.cols := by
      intro p hp
      rw [hca]
      exact hpres p (List.mem_cons_of_mem _ hp)
    obtain ⟨df2, he2, hc2, ha2, ht2⟩ := ih dfa haa hprest
    refine ⟨df2, ?_, by rw [hc2, hca], ha2, ?_⟩
    · rw [List.foldlM_cons, hea]
      simpa using he2
    · intro name cells h
      have h1 := hta name cells h
      have h2 := ht2 name _ h1
      rw [h2, List.map_map]
      congr 1
      have hb : netMap (a :: t) name = (netMap t name) ∘
          (fun v => if name = a.1 then a.2 v else v) := by
        unfold netMap
        rw [List.foldl_cons, netMap_factor]
        rfl
      rw [hb]

theorem findIdx?_getD_nodup {cols : List String} (hnd : cols.Nodup) {k : ℕ}
    (hk : k < cols.length) :
    cols.findIdx? (fun c => c = cols.getD k "") = some k := by
  have hmem : cols.getD k "" ∈ cols := by
    rw [List.getD_eq_getElem?_getD, List.getElem?_eq_getElem hk]
    exact List.getElem_mem hk
  obtain ⟨j, hfj⟩ :=
    Option.isSome_iff_exists.mp (findIdx?_isSome_of_mem hmem)
  obtain ⟨hjlen, hjval⟩ := findIdx?_eq_some_prop hfj
  have hjk : j = k := by
    have h1 : cols[j] = cols[k] := by
      have e1 : cols.getD j "" = cols[j] := by
        rw [List.getD_eq_getElem?_getD, List.getElem?_eq_getElem hjlen]
        rfl
      have e2 : cols.getD k "" = cols[k] := by
        rw [List.getD_eq_getElem?_getD, List.getElem?_eq_getElem hk]
        rfl
      rw [← e1, ← e2, hjval]
    exact (List.Nodup.getElem_inj_iff hnd).mp h1
  subst hjk
  exact hfj

theorem toDatetimeCell_dateOk (v : PVal) :
    cellOkForDtype .dateT (toDatetimeCell v) = true := by
  cases v <;> simp only [toDatetimeCell, cellOkForDtype] <;>
    first
      | rfl
      | (rename_i s; cases hp : parseDate s <;> simp [hp])

theorem sortOrderCell_int (v : PVal) :
    cellOkForDtype .intT (sortOrderCell v) = true := by
  cases v <;> simp only [sortOrderCell, toNumericCell] <;>
    first
      | rfl
      | (rename_i s; cases hp : parseDec s <;> simp [hp, cellOkForDtype])

theorem counterCell_int (v : PVal) :
    cellOkForDtype .intT (counterCell v) = true := by
  cases v <;> simp only [counterCell, toNumericCell] <;>
    first
      | rfl
      | (rename_i s; cases hp : parseDec s <;> simp [hp, cellOkForDtype])

theorem moneyCell_flt (v : PVal) :
    cellOkForDtype .floatT (moneyCell v) = true := by
  cases v <;> simp only [moneyCell, toNumericCell] <;>
    first
      | rfl
      | (rename_i s; cases hp : parseDec s <;> simp [hp, cellOkForDtype])

theorem strFillCell_str (v : PVal) : isStrCell (strFillCell v) = true := by
  cases v <;> rfl

theorem stripCell_str {v : PVal} (h : isStrCell v = true) :
    isStrCell (stripCell v) = true := by
  cases v <;> simp_all [stripCell, isStrCell]

theorem astypeCell_isSome_of_ok {n : String} {dt : Dtype} {v : PVal}
    (h : cellOkForDtype dt v = true) :
    (astypeCell n dt v).toOption.isSome = true := by
  cases dt <;> cases v <;> simp_all [cellOkForDtype, astypeCell, Except.toOption]

theorem inferKind_ne_obj {xs : List (Option String)}
    (h : xs.all cellDecOrNa = true) : inferKind xs ≠ .objK := by
  unfold inferKind
  split
  · simp
  · split
    all_goals
      first
        | simp
        | (rename_i hc; exact absurd h hc)

theorem mkCell_numOk {k : ColKind} (hk : k ≠ .objK) (c : Option String)
    {n : String} : (astypeCell n .floatT (mkCell k c)).toOption.isSome = true := by
  cases k <;> cases c <;>
    first
      | rfl
      | (exact absurd rfl hk)
      | (rename_i s; simp only [mkCell]
         cases hp : parseInt s <;> cases hq : parseDec s <;>
           simp [astypeCell, Except.toOption])

theorem astypeConv_eval (n : String) (dt : Dtype) (h : dtypeOf n = some dt)
    (v : PVal) : astypeConv (n, v) = astypeCell n dt v := by
  unfold astypeConv
  rw [h]

theorem getCol_isSome_of_mem (df : DataFrame) (n : String)
    (h : n ∈ df.cols) : ∃ cells, df.getCol n = some cells := by
  obtain ⟨j, hj⟩ := Option.isSome_iff_exists.mp (findIdx?_isSome_of_mem h)
  unfold DataFrame.getCol
  rw [hj]
  exact ⟨_, rfl⟩

theorem astype_extract_ok {n : String} {dt : Dtype} {v : PVal}
    (hdt : dtypeOf n = some dt)
    (h : (astypeConv (n, v)).toOption.isSome = true) :
    cellOkForDtype dt (((astypeConv (n, v)).toOption).getD .na) = true := by
  cases he : astypeConv (n, v) with
  | error e =>
    rw [he] at h
    exact absurd h (by simp [Except.toOption])
  | ok w =>
    have hw : astypeCell n dt v = .ok w := by
      rw [← astypeConv_eval n dt hdt v]
      exact he
    have hok := astypeCell_type hw
    simpa [Except.toOption] using hok

theorem dtypeOf_mem : ∀ p ∈ COLUMN_DTYPES, dtypeOf p.1 = some p.2 := by
  decide

/-- C1: the load contract. For every good file (no duplicate or overlong
raw structure, the eleven non-migratable columns present, Annual Fee
numeric-or-blank), the dashboard load_data returns a schema-conformant
frame without raising, and the six string-coerced columns hold definite
strings in every cell. -/
theorem c1_load_data_robust (f : CsvFile) (h : goodFile f) :
    ∃ df, Main.load_data (.csv f) = .ok df ∧ schemaConformant df = true ∧
      ∀ n ∈ strCoercedCols, ∃ cells, df.getCol n = some cells ∧
        cells.all isStrCell = true := by
  obtain ⟨hnodup, hlong, hreq, haf⟩ := h
  have h0align : Aligned (readCsv f) := readCsv_aligned f
  obtain ⟨m_keep, m_so, m_mig, m_align, m_nd, m_pres⟩ :=
    migrate_spec (readCsv f) h0align
  have h1nd : (migrate (readCsv f)).cols.Nodup := m_nd hnodup
  have hreq1 : ∀ n ∈ requiredCols, n ∈ (migrate (readCsv f)).cols := by
    intro n hn
    exact m_keep n (hreq n hn)
  have hso1 : "Sort Order" ∈ (migrate (readCsv f)).cols := m_so
  have hnames : ∀ n ∈ coercionSteps.map Prod.fst,
      n ∈ (migrate (readCsv f)).cols := by
    have hlist : coercionSteps.map Prod.fst =
        ["Date Applied", "Date Approved", "Date Received Card",
         "Date Activated Card", "First Charge Date", "Cancellation Date",
         "Re-apply Date", "Min Spend Deadline", "Sort Order", "Notes",
         "Tags", "Bonus Offer", "Min Spend", "Bonus Status",
         "Last 4 Digits", "Last 4 Digits", "Current Spend",
         "FeeWaivedCount", "FeePaidCount", "LastFeeActionYear",
         "LastFeeAction"] := by
      simp [coercionSteps, DATE_COLUMNS]
    intro n hn
    rw [hlist] at hn
    fin_cases hn <;>
      first
      | exact hso1
      | exact hreq1 _ (by decide)
      | exact m_mig ("Cancellation Date", PVal.na) (by decide)
      | exact m_mig ("Re-apply Date", PVal.na) (by decide)
      | exact m_mig ("Min Spend Deadline", PVal.na) (by decide)
      | exact m_mig ("Notes", PVal.str "") (by decide)
      | exact m_mig ("Tags", PVal.str "") (by decide)
      | exact m_mig ("Bonus Offer", PVal.str "") (by decide)
      | exact m_mig ("Bonus Status", PVal.str "") (by decide)
      | exact m_mig ("Last 4 Digits", PVal.str "") (by decide)
      | exact m_mig ("LastFeeAction", PVal.str "") (by decide)
      | exact m_mig ("Min Spend", PVal.flt 0) (by decide)
      | exact m_mig ("Current Spend", PVal.flt 0) (by decide)
      | exact m_mig ("FeeWaivedCount", PVal.int 0) (by decide)
      | exact m_mig ("FeePaidCount", PVal.int 0) (by decide)
      | exact m_mig ("LastFeeActionYear", PVal.int 0) (by decide)
  have hsteps : ∀ p ∈ coercionSteps, p.1 ∈ (migrate (readCsv f)).cols := by
    intro p hp
    exact hnames p.1 (List.mem_map_of_mem _ hp)
  obtain ⟨df14, he14, hc14, ha14, ht14⟩ :=
    coercion_fold_spec coercionSteps (migrate (readCsv f)) m_align hsteps
  have h14nd : df14.cols.Nodup := by
    rw [hc14]
    exact h1nd
  have hBank : ∃ cs, df14.getCol "Bank" = some cs ∧
      cs.all (fun v => (astypeConv ("Bank", v)).toOption.isSome) = true := by
    obtain ⟨c0, hg⟩ := getCol_isSome_of_mem (migrate (readCsv f)) "Bank" (hreq1 "Bank" (by decide))
    refine ⟨_, ht14 _ _ hg, ?_⟩
    rw [List.all_eq_true]
    intro v hv
    rfl
  have hCardName : ∃ cs, df14.getCol "Card Name" = some cs ∧
      cs.all (fun v => (astypeConv ("Card Name", v)).toOption.isSome) = true := by
    obtain ⟨c0, hg⟩ := getCol_isSome_of_mem (migrate (readCsv f)) "Card Name" (hreq1 "Card Name" (by decide))
    refine ⟨_, ht14 _ _ hg, ?_⟩
    rw [List.all_eq_true]
    intro v hv
    rfl
  have hafmem : "Annual Fee" ∈ f.header := hreq "Annual Fee" (by decide)
  obtain ⟨jaf, hjaf⟩ :=
    Option.isSome_iff_exists.mp (findIdx?_isSome_of_mem hafmem)
  have hg0 : (readCsv f).getCol "Annual Fee" =
      some ((rawColumn f jaf).map (mkCell (inferKind (rawColumn f jaf)))) :=
    readCsv_getCol f "Annual Fee" jaf hjaf
  have hafraw : (rawColumn f jaf).all cellDecOrNa = true := by
    rw [List.all_eq_true]
    intro x hx
    apply haf
    unfold rawColumnByName
    rw [hjaf]
    exact hx
  have hAnnualFee : ∃ cs, df14.getCol "Annual Fee" = some cs ∧
      cs.all (fun v => (astypeConv ("Annual Fee", v)).toOption.isSome) = true := by
    refine ⟨_, ht14 _ _ (m_pres _ _ hg0), ?_⟩
    rw [List.all_eq_true]
    intro x hx
    rw [List.mem_map] at hx
    obtain ⟨y, hy, rfl⟩ := hx
    rw [List.mem_map] at hy
    obtain ⟨c, hc, rfl⟩ := hy
    have hn2 : netMap coercionSteps "Annual Fee"
        (mkCell (inferKind (rawColumn f jaf)) c) =
        mkCell (inferKind (rawColumn f jaf)) c := by
      simp [netMap, coercionSteps, DATE_COLUMNS]
    rw [hn2, astypeConv_eval "Annual Fee" Dtype.floatT rfl]
    exact mkCell_numOk (inferKind_ne_obj hafraw) c
  have hCardExpiryMMYY : ∃ cs, df14.getCol "Card Expiry (MM/YY)" = some cs ∧
      cs.all (fun v => (astypeConv ("Card Expiry (MM/YY)", v)).toOption.isSome) = true := by
    obtain ⟨c0, hg⟩ := getCol_isSome_of_mem (migrate (readCsv f)) "Card Expiry (MM/YY)" (hreq1 "Card Expiry (MM/YY)" (by decide))
    refine ⟨_, ht14 _ _ hg, ?_⟩
    rw [List.all_eq_true]
    intro v hv
    rfl
  have hMonthofAnnualFee : ∃ cs, df14.getCol "Month of Annual Fee" = some cs ∧
      cs.all (fun v => (astypeConv ("Month of Annual Fee", v)).toOption.isSome) = true := by
    obtain ⟨c0, hg⟩ := getCol_isSome_of_mem (migrate (readCsv f)) "Month of Annual Fee" (hreq1 "Month of Annual Fee" (by decide))
    refine ⟨_, ht14 _ _ hg, ?_⟩
    rw [List.all_eq_true]
    intro v hv
    rfl
  have hDateApplied : ∃ cs, df14.getCol "Date Applied" = some cs ∧
      cs.all (fun v => (astypeConv ("Date Applied", v)).toOption.isSome) = true := by
    obtain ⟨c0, hg⟩ := getCol_isSome_of_mem (migrate (readCsv f)) "Date Applied" (hreq1 "Date Applied" (by decide))
    refine ⟨_, ht14 _ _ hg, ?_⟩
    rw [List.all_map, List.all_eq_true]
    intro v hv
    simp only [Function.comp_apply]
    have hn2 : netMap coercionSteps "Date Applied" v = toDatetimeCell v := by
      simp [netMap, coercionSteps, DATE_COLUMNS]
    rw [hn2, astypeConv_eval "Date Applied" Dtype.dateT rfl]
    exact astypeCell_isSome_of_ok (toDatetimeCell_dateOk v)
  have hDateApproved : ∃ cs, df14.getCol "Date Approved" = some cs ∧
      cs.all (fun v => (astypeConv ("Date Approved", v)).toOption.isSome) = true := by
    obtain ⟨c0, hg⟩ := getCol_isSome_of_mem (migrate (readCsv f)) "Date Approved" (hreq1 "Date Approved" (by decide))
    refine ⟨_, ht14 _ _ hg, ?_⟩
    rw [List.all_map, List.all_eq_true]
    intro v hv
    simp only [Function.comp_apply]
    have hn2 : netMap coercionSteps "Date Approved" v = toDatetimeCell v := by
      simp [netMap, coercionSteps, DATE_COLUMNS]
    rw [hn2, astypeConv_eval "Date Approved" Dtype.dateT rfl]
    exact astypeCell_isSome_of_ok (toDatetimeCell_dateOk v)
  have hDateReceivedCard : ∃ cs, df14.getCol "Date Received Card" = some cs ∧
      cs.all (fun v => (astypeConv ("Date Received Card", v)).toOption.isSome) = true := by
    obtain ⟨c0, hg⟩ := getCol_isSome_of_mem (migrate (readCsv f)) "Date Received Card" (hreq1 "Date Received Card" (by decide))
    refine ⟨_, ht14 _ _ hg, ?_⟩
    rw [List.all_map, List.all_eq_true]
    intro v hv
    simp only [Function.comp_apply]
    have hn2 : netMap coercionSteps "Date Received Card" v = toDatetimeCell v := by
      simp [netMap, coercionSteps, DATE_COLUMNS]
    rw [hn2, astypeConv_eval "Date Received Card" Dtype.dateT rfl]
    exact astypeCell_isSome_of_ok (toDatetimeCell_dateOk v)
  have hDateActivatedCard : ∃ cs, df14.getCol "Date Activated Card" = some cs ∧
      cs.all (fun v => (astypeConv ("Date Activated Card", v)).toOption.isSome) = true := by
    obtain ⟨c0, hg⟩ := getCol_isSome_of_mem (migrate (readCsv f)) "Date Activated Card" (hreq1 "Date Activated Card" (by decide))
    refine ⟨_, ht14 _ _ hg, ?_⟩
    rw [List.all_map, List.all_eq_true]
    intro v hv
    simp only [Function.comp_apply]
    have hn2 : netMap coercionSteps "Date Activated Card" v = toDatetimeCell v := by
      simp [netMap, coercionSteps, DATE_COLUMNS]
    rw [hn2, astypeConv_eval "Date Activated Card" Dtype.dateT rfl]
    exact astypeCell_isSome_of_ok (toDatetimeCell_dateOk v)
  have hFirstChargeDate : ∃ cs, df14.getCol "First Charge Date" = some cs ∧
      cs.all (fun v => (astypeConv ("First Charge Date", v)).toOption.isSome) = true := by
    obtain ⟨c0, hg⟩ := getCol_isSome_of_mem (migrate (readCsv f)) "First Charge Date" (hreq1 "First Charge Date" (by decide))
    refine ⟨_, ht14 _ _ hg, ?_⟩
    rw [List.all_map, List.all_eq_true]
    intro v hv
    simp only [Function.comp_apply]
    have hn2 : netMap coercionSteps "First Charge Date" v = toDatetimeCell v := by
      simp [netMap, coercionSteps, DATE_COLUMNS]
    rw [hn2, astypeConv_eval "First Charge Date" Dtype.dateT rfl]
    exact astypeCell_isSome_of_ok (toDatetimeCell_dateOk v)
  have hImageFilename : ∃ cs, df14.getCol "Image Filename" = some cs ∧
      cs.all (fun v => (astypeConv ("Image Filename", v)).toOption.isSome) = true := by
    obtain ⟨c0, hg⟩ := getCol_isSome_of_mem (migrate (readCsv f)) "Image Filename" (hreq1 "Image Filename" (by decide))
    refine ⟨_, ht14 _ _ hg, ?_⟩
    rw [List.all_eq_true]
    intro v hv
    rfl
  have hSortOrder : ∃ cs, df14.getCol "Sort Order" = some cs ∧
      cs.all (fun v => (astypeConv ("Sort Order", v)).toOption.isSome) = true := by
    obtain ⟨c0, hg⟩ := getCol_isSome_of_mem (migrate (readCsv f)) "Sort Order" hso1
    refine ⟨_, ht14 _ _ hg, ?_⟩
    rw [List.all_map, List.all_eq_true]
    intro v hv
    simp only [Function.comp_apply]
    have hn2 : netMap coercionSteps "Sort Order" v = sortOrderCell v := by
      simp [netMap, coercionSteps, DATE_COLUMNS]
    rw [hn2, astypeConv_eval "Sort Order" Dtype.intT rfl]
    exact astypeCell_isSome_of_ok (sortOrderCell_int v)
  have hNotes : ∃ cs, df14.getCol "Notes" = some cs ∧
      cs.all (fun v => (astypeConv ("Notes", v)).toOption.isSome) = true := by
    obtain ⟨c0, hg⟩ := getCol_isSome_of_mem (migrate (readCsv f)) "Notes" (m_mig ("Notes", PVal.str "") (by decide))
    refine ⟨_, ht14 _ _ hg, ?_⟩
    rw [List.all_eq_true]
    intro v hv
    rfl
  have hCancellationDate : ∃ cs, df14.getCol "Cancellation Date" = some cs ∧
      cs.all (fun v => (astypeConv ("Cancellation Date", v)).toOption.isSome) = true := by
    obtain ⟨c0, hg⟩ := getCol_isSome_of_mem (migrate (readCsv f)) "Cancellation Date" (m_mig ("Cancellation Date", PVal.na) (by decide))
    refine ⟨_, ht14 _ _ hg, ?_⟩
    rw [List.all_map, List.all_eq_true]
    intro v hv
    simp only [Function.comp_apply]
    have hn2 : netMap coercionSteps "Cancellation Date" v = toDatetimeCell v := by
      simp [netMap, coercionSteps, DATE_COLUMNS]
    rw [hn2, astypeConv_eval "Cancellation Date" Dtype.dateT rfl]
    exact astypeCell_isSome_of_ok (toDatetimeCell_dateOk v)
  have hReapplyDate : ∃ cs, df14.getCol "Re-apply Date" = some cs ∧
      cs.all (fun v => (astypeConv ("Re-apply Date", v)).toOption.isSome) = true := by
    obtain ⟨c0, hg⟩ := getCol_isSome_of_mem (migrate (readCsv f)) "Re-apply Date" (m_mig ("Re-apply Date", PVal.na) (by decide))
    refine ⟨_, ht14 _ _ hg, ?_⟩
    rw [List.all_map, List.all_eq_true]
    intro v hv
    simp only [Function.comp_apply]
    have hn2 : netMap coercionSteps "Re-apply Date" v = toDatetimeCell v := by
      simp [netMap, coercionSteps, DATE_COLUMNS]
    rw [hn2, astypeConv_eval "Re-apply Date" Dtype.dateT rfl]
    exact astypeCell_isSome_of_ok (toDatetimeCell_dateOk v)
  have hTags : ∃ cs, df14.getCol "Tags" = some cs ∧
      cs.all (fun v => (astypeConv ("Tags", v)).toOption.isSome) = true := by
    obtain ⟨c0, hg⟩ := getCol_isSome_of_mem (migrate (readCsv f)) "Tags" (m_mig ("Tags", PVal.str "") (by decide))
    refine ⟨_, ht14 _ _ hg, ?_⟩
    rw [List.all_eq_true]
    intro v hv
    rfl
  have hBonusOffer : ∃ cs, df14.getCol "Bonus Offer" = some cs ∧
      cs.all (fun v => (astypeConv ("Bonus Offer", v)).toOption.isSome) = true := by
    obtain ⟨c0, hg⟩ := getCol_isSome_of_mem (migrate (readCsv f)) "Bonus Offer" (m_mig ("Bonus Offer", PVal.str "") (by decide))
    refine ⟨_, ht14 _ _ hg, ?_⟩
    rw [List.all_eq_true]
    intro v hv
    rfl
  have hMinSpend : ∃ cs, df14.getCol "Min Spend" = some cs ∧
      cs.all (fun v => (astypeConv ("Min Spend", v)).toOption.isSome) = true := by
    obtain ⟨c0, hg⟩ := getCol_isSome_of_mem (migrate (readCsv f)) "Min Spend" (m_mig ("Min Spend", PVal.flt 0) (by decide))
    refine ⟨_, ht14 _ _ hg, ?_⟩
    rw [List.all_map, List.all_eq_true]
    intro v hv
    simp only [Function.comp_apply]
    have hn2 : netMap coercionSteps "Min Spend" v = moneyCell v := by
      simp [netMap, coercionSteps, DATE_COLUMNS]
    rw [hn2, astypeConv_eval "Min Spend" Dtype.floatT rfl]
    exact astypeCell_isSome_of_ok (moneyCell_flt v)
  have hMinSpendDeadline : ∃ cs, df14.getCol "Min Spend Deadline" = some cs ∧
      cs.all (fun v => (astypeConv ("Min Spend Deadline", v)).toOption.isSome) = true := by
    obtain ⟨c0, hg⟩ := getCol_isSome_of_mem (migrate (readCsv f)) "Min Spend Deadline" (m_mig ("Min Spend Deadline", PVal.na) (by decide))
    refine ⟨_, ht14 _ _ hg, ?_⟩
    rw [List.all_map, List.all_eq_true]
    intro v hv
    simp only [Function.comp_apply]
    have hn2 : netMap coercionSteps "Min Spend Deadline" v = toDatetimeCell v := by
      simp [netMap, coercionSteps, DATE_COLUMNS]
    rw [hn2, astypeConv_eval "Min Spend Deadline" Dtype.dateT rfl]
    exact astypeCell_isSome_of_ok (toDatetimeCell_dateOk v)
  have hBonusStatus : ∃ cs, df14.getCol "Bonus Status" = some cs ∧
      cs.all (fun v => (astypeConv ("Bonus Status", v)).toOption.isSome) = true := by
    obtain ⟨c0, hg⟩ := getCol_isSome_of_mem (migrate (readCsv f)) "Bonus Status" (m_mig ("Bonus Status", PVal.str "") (by decide))
    refine ⟨_, ht14 _ _ hg, ?_⟩
    rw [List.all_eq_true]
    intro v hv
    rfl
  have hLast4Digits : ∃ cs, df14.getCol "Last 4 Digits" = some cs ∧
      cs.all (fun v => (astypeConv ("Last 4 Digits", v)).toOption.isSome) = true := by
    obtain ⟨c0, hg⟩ := getCol_isSome_of_mem (migrate (readCsv f)) "Last 4 Digits" (m_mig ("Last 4 Digits", PVal.str "") (by decide))
    refine ⟨_, ht14 _ _ hg, ?_⟩
    rw [List.all_eq_true]
    intro v hv
    rfl
  have hCurrentSpend : ∃ cs, df14.getCol "Current Spend" = some cs ∧
      cs.all (fun v => (astypeConv ("Current Spend", v)).toOption.isSome) = true := by
    obtain ⟨c0, hg⟩ := getCol_isSome_of_mem (migrate (readCsv f)) "Current Spend" (m_mig ("Current Spend", PVal.flt 0) (by decide))
    refine ⟨_, ht14 _ _ hg, ?_⟩
    rw [List.all_map, List.all_eq_true]
    intro v hv
    simp only [Function.comp_apply]
    have hn2 : netMap coercionSteps "Current Spend" v = moneyCell v := by
      simp [netMap, coercionSteps, DATE_COLUMNS]
    rw [hn2, astypeConv_eval "Current Spend" Dtype.floatT rfl]
    exact astypeCell_isSome_of_ok (moneyCell_flt v)
  have hFeeWaivedCount : ∃ cs, df14.getCol "FeeWaivedCount" = some cs ∧
      cs.all (fun v => (astypeConv ("FeeWaivedCount", v)).toOption.isSome) = true := by
    obtain ⟨c0, hg⟩ := getCol_isSome_of_mem (migrate (readCsv f)) "FeeWaivedCount" (m_mig ("FeeWaivedCount", PVal.int 0) (by decide))
    refine ⟨_, ht14 _ _ hg, ?_⟩
    rw [List.all_map, List.all_eq_true]
    intro v hv
    simp only [Function.comp_apply]
    have hn2 : netMap coercionSteps "FeeWaivedCount" v = counterCell v := by
      simp [netMap, coercionSteps, DATE_COLUMNS]
    rw [hn2, astypeConv_eval "FeeWaivedCount" Dtype.intT rfl]
    exact astypeCell_isSome_of_ok (counterCell_int v)
  have hFeePaidCount : ∃ cs, df14.getCol "FeePaidCount" = some cs ∧
      cs.all (fun v => (astypeConv ("FeePaidCount", v)).toOption.isSome) = true := by
    obtain ⟨c0, hg⟩ := getCol_isSome_of_mem (migrate (readCsv f)) "FeePaidCount" (m_mig ("FeePaidCount", PVal.int 0) (by decide))
    refine ⟨_, ht14 _ _ hg, ?_⟩
    rw [List.all_map, List.all_eq_true]
    intro v hv
    simp only [Function.comp_apply]
    have hn2 : netMap coercionSteps "FeePaidCount" v = counterCell v := by
      simp [netMap, coercionSteps, DATE_COLUMNS]
    rw [hn2, astypeConv_eval "FeePaidCount" Dtype.intT rfl]
    exact astypeCell_isSome_of_ok (counterCell_int v)
  have hLastFeeActionYear : ∃ cs, df14.getCol "LastFeeActionYear" = some cs ∧
      cs.all (fun v => (astypeConv ("LastFeeActionYear", v)).toOption.isSome) = true := by
    obtain ⟨c0, hg⟩ := getCol_isSome_of_mem (migrate (readCsv f)) "LastFeeActionYear" (m_mig ("LastFeeActionYear", PVal.int 0) (by decide))
    refine ⟨_, ht14 _ _ hg, ?_⟩
    rw [List.all_map, List.all_eq_true]
    intro v hv
    simp only [Function.comp_apply]
    have hn2 : netMap coercionSteps "LastFeeActionYear" v = counterCell v := by
      simp [netMap, coercionSteps, DATE_COLUMNS]
    rw [hn2, astypeConv_eval "LastFeeActionYear" Dtype.intT rfl]
    exact astypeCell_isSome_of_ok (counterCell_int v)
  have hLastFeeAction : ∃ cs, df14.getCol "LastFeeAction" = some cs ∧
      cs.all (fun v => (astypeConv ("LastFeeAction", v)).toOption.isSome) = true := by
    obtain ⟨c0, hg⟩ := getCol_isSome_of_mem (migrate (readCsv f)) "LastFeeAction" (m_mig ("LastFeeAction", PVal.str "") (by decide))
    refine ⟨_, ht14 _ _ hg, ?_⟩
    rw [List.all_eq_true]
    intro v hv
    rfl
  have hSNotes : ∃ cs, df14.getCol "Notes" = some cs ∧ cs.all isStrCell = true := by
    obtain ⟨c0, hg⟩ := getCol_isSome_of_mem (migrate (readCsv f)) "Notes" (m_mig ("Notes", PVal.str "") (by decide))
    refine ⟨_, ht14 _ _ hg, ?_⟩
    rw [List.all_map, List.all_eq_true]
    intro v hv
    simp only [Function.comp_apply]
    have hn2 : netMap coercionSteps "Notes" v = strFillCell v := by
      simp [netMap, coercionSteps, DATE_COLUMNS]
    rw [hn2]
    exact strFillCell_str v
  have hSTags : ∃ cs, df14.getCol "Tags" = some cs ∧ cs.all isStrCell = true := by
    obtain ⟨c0, hg⟩ := getCol_isSome_of_mem (migrate (readCsv f)) "Tags" (m_mig ("Tags", PVal.str "") (by decide))
    refine ⟨_, ht14 _ _ hg, ?_⟩
    rw [List.all_map, List.all_eq_true]
    intro v hv
    simp only [Function.comp_apply]
    have hn2 : netMap coercionSteps "Tags" v = strFillCell v := by
      simp [netMap, coercionSteps, DATE_COLUMNS]
    rw [hn2]
    exact strFillCell_str v
  have hSBonusOffer : ∃ cs, df14.getCol "Bonus Offer" = some cs ∧ cs.all isStrCell = true := by
    obtain ⟨c0, hg⟩ := getCol_isSome_of_mem (migrate (readCsv f)) "Bonus Offer" (m_mig ("Bonus Offer", PVal.str "") (by decide))
    refine ⟨_, ht14 _ _ hg, ?_⟩
    rw [List.all_map, List.all_eq_true]
    intro v hv
    simp only [Function.comp_apply]
    have hn2 : netMap coercionSteps "Bonus Offer" v = strFillCell v := by
      simp [netMap, coercionSteps, DATE_COLUMNS]
    rw [hn2]
    exact strFillCell_str v
  have hSBonusStatus : ∃ cs, df14.getCol "Bonus Status" = some cs ∧ cs.all isStrCell = true := by
    obtain ⟨c0, hg⟩ := getCol_isSome_of_mem (migrate (readCsv f)) "Bonus Status" (m_mig ("Bonus Status", PVal.str "") (by decide))
    refine ⟨_, ht14 _ _ hg, ?_⟩
    rw [List.all_map, List.all_eq_true]
    intro v hv
    simp only [Function.comp_apply]
    have hn2 : netMap coercionSteps "Bonus Status" v = strFillCell v := by
      simp [netMap, coercionSteps, DATE_COLUMNS]
    rw [hn2]
    exact strFillCell_str v
  have hSLast4Digits : ∃ cs, df14.getCol "Last 4 Digits" = some cs ∧ cs.all isStrCell = true := by
    obtain ⟨c0, hg⟩ := getCol_isSome_of_mem (migrate (readCsv f)) "Last 4 Digits" (m_mig ("Last 4 Digits", PVal.str "") (by decide))
    refine ⟨_, ht14 _ _ hg, ?_⟩
    rw [List.all_map, List.all_eq_true]
    intro v hv
    simp only [Function.comp_apply]
    have hn2 : netMap coercionSteps "Last 4 Digits" v = stripCell (strFillCell v) := by
      simp [netMap, coercionSteps, DATE_COLUMNS]
    rw [hn2]
    exact stripCell_str (strFillCell_str v)
  have hSLastFeeAction : ∃ cs, df14.getCol "LastFeeAction" = some cs ∧ cs.all isStrCell = true := by
    obtain ⟨c0, hg⟩ := getCol_isSome_of_mem (migrate (readCsv f)) "LastFeeAction" (m_mig ("LastFeeAction", PVal.str "") (by decide))
    refine ⟨_, ht14 _ _ hg, ?_⟩
    rw [List.all_map, List.all_eq_true]
    intro v hv
    simp only [Function.comp_apply]
    have hn2 : netMap coercionSteps "LastFeeAction" v = strFillCell v := by
      simp [netMap, coercionSteps, DATE_COLUMNS]
    rw [hn2]
    exact strFillCell_str v
  have hfacts : ∀ n ∈ COLUMN_DTYPES.map Prod.fst,
      ∃ cs, df14.getCol n = some cs ∧
        cs.all (fun v => (astypeConv (n, v)).toOption.isSome) = true := by
    have hmap : COLUMN_DTYPES.map Prod.fst =
        ["Bank", "Card Name", "Annual Fee", "Card Expiry (MM/YY)",
         "Month of Annual Fee", "Date Applied", "Date Approved",
         "Date Received Card", "Date Activated Card", "First Charge Date",
         "Image Filename", "Sort Order", "Notes", "Cancellation Date",
         "Re-apply Date", "Tags", "Bonus Offer", "Min Spend",
         "Min Spend Deadline", "Bonus Status", "Last 4 Digits",
         "Current Spend", "FeeWaivedCount", "FeePaidCount",
         "LastFeeActionYear", "LastFeeAction"] := rfl
    intro n hn
    rw [hmap] at hn
    fin_cases hn
    exacts [hBank, hCardName, hAnnualFee, hCardExpiryMMYY, hMonthofAnnualFee, hDateApplied, hDateApproved, hDateReceivedCard, hDateActivatedCard, hFirstChargeDate, hImageFilename, hSortOrder, hNotes, hCancellationDate, hReapplyDate, hTags, hBonusOffer, hMinSpend, hMinSpendDeadline, hBonusStatus, hLast4Digits, hCurrentSpend, hFeeWaivedCount, hFeePaidCount, hLastFeeActionYear, hLastFeeAction]
  have hok : ∀ row ∈ df14.rows, ∀ k : ℕ, k < row.length →
      (astypeConv (df14.cols.getD k "", row.getD k .na)).toOption.isSome = true := by
    intro row hrow k hk
    have hkc : k < df14.cols.length := by
      rw [← ha14 row hrow]
      exact hk
    cases hdt : dtypeOf (df14.cols.getD k "") with
    | none =>
      unfold astypeConv
      rw [hdt]
      rfl
    | some dt =>
      obtain ⟨cs, hgcs, hall⟩ :=
        hfacts _ (List.mem_map_of_mem Prod.fst (lookup_mem hdt))
      have hfid := findIdx?_getD_nodup h14nd hkc
      have hgk : df14.getCol (df14.cols.getD k "") =
          some (df14.rows.map (fun r => r.getD k .na)) := by
        unfold DataFrame.getCol
        rw [hfid]
        rfl
      have hgk2 : cs = df14.rows.map (fun r => r.getD k .na) :=
        Option.some.inj (hgcs.symm.trans hgk)
      rw [List.all_eq_true] at hall
      apply hall
      rw [hgk2]
      exact List.mem_map_of_mem _ hrow
  have hpresF : ∀ p ∈ COLUMN_DTYPES, df14.cols.contains p.1 = true := by
    intro p hp
    have hm : p.1 ∈ df14.cols := by
      rw [hc14]
      fin_cases hp <;>
        first
        | exact hso1
        | exact hreq1 _ (by decide)
        | exact m_mig ("Cancellation Date", PVal.na) (by decide)
        | exact m_mig ("Re-apply Date", PVal.na) (by decide)
        | exact m_mig ("Min Spend Deadline", PVal.na) (by decide)
        | exact m_mig ("Notes", PVal.str "") (by decide)
        | exact m_mig ("Tags", PVal.str "") (by decide)
        | exact m_mig ("Bonus Offer", PVal.str "") (by decide)
        | exact m_mig ("Bonus Status", PVal.str "") (by decide)
        | exact m_mig ("Last 4 Digits", PVal.str "") (by decide)
        | exact m_mig ("LastFeeAction", PVal.str "") (by decide)
        | exact m_mig ("Min Spend", PVal.flt 0) (by decide)
        | exact m_mig ("Current Spend", PVal.flt 0) (by decide)
        | exact m_mig ("FeeWaivedCount", PVal.int 0) (by decide)
        | exact m_mig ("FeePaidCount", PVal.int 0) (by decide)
        | exact m_mig ("LastFeeActionYear", PVal.int 0) (by decide)
    simpa using hm
  obtain ⟨dfF, heF, hcF, haF, htF⟩ := astypeAll_spec df14 ha14 hpresF hok
  refine ⟨dfF, ?_, ?_, ?_⟩
  · show Main.load_csv f = .ok dfF
    unfold Main.load_csv
    rw [hlong]
    simp only [Bool.false_eq_true, if_false]
    rw [he14]
    exact heF
  · unfold schemaConformant
    rw [List.all_eq_true]
    intro p hp
    have hdt : dtypeOf p.1 = some p.2 := dtypeOf_mem p hp
    obtain ⟨cs, hg, hall⟩ := hfacts p.1 (List.mem_map_of_mem Prod.fst hp)
    have hgF := htF p.1 cs hg
    simp only [hgF]
    rw [List.all_map, List.all_eq_true]
    intro v hv
    rw [List.all_eq_true] at hall
    exact astype_extract_ok hdt (hall v hv)
  · intro n hn
    fin_cases hn
    · obtain ⟨cs, hg, hall⟩ := hSNotes
      refine ⟨_, htF "Notes" cs hg, ?_⟩
      rw [List.all_map, List.all_eq_true]
      intro v hv
      simp only [Function.comp_apply]
      have hid2 : ((astypeConv ("Notes", v)).toOption).getD PVal.na = v := by
        rw [astypeConv_eval "Notes" Dtype.objectT rfl]
        rfl
      rw [hid2]
      rw [List.all_eq_true] at hall
      exact hall v hv
    · obtain ⟨cs, hg, hall⟩ := hSTags
      refine ⟨_, htF "Tags" cs hg, ?_⟩
      rw [List.all_map, List.all_eq_true]
      intro v hv
      simp only [Function.comp_apply]
      have hid2 : ((astypeConv ("Tags", v)).toOption).getD PVal.na = v := by
        rw [astypeConv_eval "Tags" Dtype.objectT rfl]
        rfl
      rw [hid2]
      rw [List.all_eq_true] at hall
      exact hall v hv
    · obtain ⟨cs, hg, hall⟩ := hSBonusOffer
      refine ⟨_, htF "Bonus Offer" cs hg, ?_⟩
      rw [List.all_map, List.all_eq_true]
      intro v hv
      simp only [Function.comp_apply]
      have hid2 : ((astypeConv ("Bonus Offer", v)).toOption).getD PVal.na = v := by
        rw [astypeConv_eval "Bonus Offer" Dtype.objectT rfl]
        rfl
      rw [hid2]
      rw [List.all_eq_true] at hall
      exact hall v hv
    · obtain ⟨cs, hg, hall⟩ := hSBonusStatus
      refine ⟨_, htF "Bonus Status" cs hg, ?_⟩
      rw [List.all_map, List.all_eq_true]
      intro v hv
      simp only [Function.comp_apply]
      have hid2 : ((astypeConv ("Bonus Status", v)).toOption).getD PVal.na = v := by
        rw [astypeConv_eval "Bonus Status" Dtype.objectT rfl]
        rfl
      rw [hid2]
      rw [List.all_eq_true] at hall
      exact hall v hv
    · obtain ⟨cs, hg, hall⟩ := hSLast4Digits
      refine ⟨_, htF "Last 4 Digits" cs hg, ?_⟩
      rw [List.all_map, List.all_eq_true]
      intro v hv
      simp only [Function.comp_apply]
      have hid2 : ((astypeConv ("Last 4 Digits", v)).toOption).getD PVal.na = v := by
        rw [astypeConv_eval "Last 4 Digits" Dtype.objectT rfl]
        rfl
      rw [hid2]
      rw [List.all_eq_true] at hall
      exact hall v hv
    · obtain ⟨cs, hg, hall⟩ := hSLastFeeAction
      refine ⟨_, htF "LastFeeAction" cs hg, ?_⟩
      rw [List.all_map, List.all_eq_true]
      intro v hv
      simp only [Function.comp_apply]
      have hid2 : ((astypeConv ("LastFeeAction", v)).toOption).getD PVal.na = v := by
        rw [astypeConv_eval "LastFeeAction" Dtype.objectT rfl]
        rfl
      rw [hid2]
      rw [List.all_eq_true] at hall
      exact hall v hv

/-- C1 counterexample: load is not total over malformed states. A file
missing a non-migratable column raises KeyError, the bot raises on an
empty file, and the dashboard raises on an absent file. -/
theorem c1_counterexample :
    Main.load_data (.csv ⟨["Bank"], [[some "x"]]⟩) =
      .error (.keyError "Date Applied") ∧
    Bot.load_data .emptyFile = .error .emptyDataError ∧
    Main.load_data .absent = .error .fileNotFound :=
  ⟨rfl, rfl, rfl⟩

theorem c1_load_data_robust_witness :
    goodFile exMessyFile ∧
    (∃ df, Main.load_data (.csv exMessyFile) = .ok df ∧
      schemaConformant df = true ∧
      ∀ n ∈ strCoercedCols, ∃ cells, df.getCol n = some cells ∧
        cells.all isStrCell = true) :=
  ⟨by decide, c1_load_data_robust exMessyFile (by decide)⟩

/-! ## Digit and rendering basics -/

theorem digitChar_toNat {n : ℕ} (h : n < 10) : (digitChar n).toNat = 48 + n := by
  unfold digitChar Char.ofNat
  rw [dif_pos (by left; omega : Nat.isValidChar (48 + n))]
  rfl

theorem digitVal_digitChar {n : ℕ} (h : n < 10) : digitVal (digitChar n) = n := by
  unfold digitVal
  rw [digitChar_toNat h]
  omega

theorem isDigitCh_digitChar {n : ℕ} (h : n < 10) :
    isDigitCh (digitChar n) = true := by
  unfold isDigitCh
  rw [digitChar_toNat h]
  simp only [decide_eq_true_eq]
  omega

theorem digit_ne_dash {c : Char} (h : isDigitCh c = true) :
    c ≠ Char.ofNat 45 := by
  unfold isDigitCh at h
  simp only [Bool.and_eq_true, decide_eq_true_eq] at h
  intro he
  have h45 : (Char.ofNat 45).toNat = 45 := rfl
  rw [he] at h
  omega

theorem digit_ne_dot {c : Char} (h : isDigitCh c = true) :
    c ≠ Char.ofNat 46 := by
  unfold isDigitCh at h
  simp only [Bool.and_eq_true, decide_eq_true_eq] at h
  intro he
  have h46 : (Char.ofNat 46).toNat = 46 := rfl
  rw [he] at h
  omega

theorem digitsVal_append_singleton (xs : List Char) (c : Char) :
    digitsVal (xs ++ [c]) = digitsVal xs * 10 + digitVal c := by
  unfold digitsVal
  rw [List.foldl_append]
  rfl

theorem natDigitsF_congr : ∀ fuel fuel' n : ℕ, n ≤ fuel → n ≤ fuel' →
    natDigitsF fuel n = natDigitsF fuel' n := by
  intro fuel
  induction fuel using Nat.strong_induction_on with
  | _ fuel ih =>
    intro fuel' n hf hf'
    cases fuel with
    | zero =>
      have hn : n = 0 := by omega
      subst hn
      cases fuel' with
      | zero => rfl
      | succ f' => simp [natDigitsF]
    | succ f =>
      cases fuel' with
      | zero =>
        have hn : n = 0 := by omega
        subst hn
        simp [natDigitsF]
      | succ f' =>
        simp only [natDigitsF]
        by_cases h10 : n < 10
        · rw [if_pos h10, if_pos h10]
        · rw [if_neg h10, if_neg h10]
          have hlt : n / 10 < n := Nat.div_lt_self (by omega) (by omega)
          rw [ih f (by omega) f' (n / 10) (by omega) (by omega)]

theorem natDigits_eq (n : ℕ) :
    natDigits n = if n < 10 then [digitChar n]
      else natDigits (n / 10) ++ [digitChar (n % 10)] := by
  show natDigitsF n n = _
  cases n with
  | zero => simp [natDigitsF]
  | succ m =>
    simp only [natDigitsF]
    by_cases h10 : m + 1 < 10
    · rw [if_pos h10, if_pos h10]
    · rw [if_neg h10, if_neg h10]
      congr 1
      have hlt : (m + 1) / 10 < m + 1 := Nat.div_lt_self (by omega) (by omega)
      exact natDigitsF_congr m ((m + 1) / 10) ((m + 1) / 10)
        (by omega) (le_refl _)

theorem natDigits_spec (n : ℕ) :
    natDigits n ≠ [] ∧ (natDigits n).all isDigitCh = true ∧
      digitsVal (natDigits n) = n := by
  induction n using Nat.strong_induction_on with
  | _ n ih =>
    rw [natDigits_eq]
    split
    · rename_i h
      refine ⟨by simp, ?_, ?_⟩
      · simp [isDigitCh_digitChar h]
      · unfold digitsVal
        simp [digitVal_digitChar h]
    · rename_i h
      obtain ⟨ih1, ih2, ih3⟩ := ih (n / 10) (Nat.div_lt_self (by omega) (by omega))
      refine ⟨by simp, ?_, ?_⟩
      · rw [List.all_append]
        simp [ih2, isDigitCh_digitChar (Nat.mod_lt n (by omega))]
      · rw [digitsVal_append_singleton, ih3,
          digitVal_digitChar (Nat.mod_lt n (by omega))]
        omega

theorem parseNat_natDigits (n : ℕ) : parseNat (natDigits n) = some n := by
  obtain ⟨h1, h2, h3⟩ := natDigits_spec n
  unfold parseNat
  rw [if_pos ⟨h1, h2⟩, h3]

theorem digitsVal_zeros_append (k : ℕ) (cs : List Char) :
    digitsVal (List.replicate k (digitChar 0) ++ cs) = digitsVal cs := by
  induction k with
  | zero => rfl
  | succ k ih =>
    rw [List.replicate_succ, List.cons_append]
    unfold digitsVal at ih ⊢
    rw [List.foldl_cons]
    have h0 : digitVal (digitChar 0) = 0 := digitVal_digitChar (by omega)
    simpa [h0] using ih

theorem digitsVal_padZeros (k : ℕ) (cs : List Char) :
    digitsVal (padZeros k cs) = digitsVal cs := by
  unfold padZeros
  exact digitsVal_zeros_append _ cs

theorem padZeros_all_digits {k : ℕ} {cs : List Char}
    (h : cs.all isDigitCh = true) : (padZeros k cs).all isDigitCh = true := by
  unfold padZeros
  rw [List.all_append, h]
  simp [List.all_eq_true]
  exact Or.inr (isDigitCh_digitChar (by omega))

theorem padZeros_length {k : ℕ} {cs : List Char} (h : cs.length ≤ k) :
    (padZeros k cs).length = k := by
  unfold padZeros
  rw [List.length_append, List.length_replicate]
  omega

theorem natDigits_length_le {n k : ℕ} (hk : 1 ≤ k) (h : n < 10 ^ k) :
    (natDigits n).length ≤ k := by
  induction n using Nat.strong_induction_on generalizing k with
  | _ n ih =>
    rw [natDigits_eq]
    split
    · simp
      omega
    · rename_i hn
      have hk2 : 2 ≤ k := by
        by_contra hc
        have : k = 1 := by omega
        subst this
        simp at h
        omega
      have hdiv : n / 10 < 10 ^ (k - 1) := by
        have h1 : 10 ^ k = 10 ^ (k - 1) * 10 := by
          rw [← pow_succ]
          congr 1
          omega
        omega
      have := ih (n / 10) (Nat.div_lt_self (by omega) (by omega))
        (k := k - 1) (by omega) hdiv
      rw [List.length_append]
      simp at this ⊢
      omega

theorem natDigits_head_digit (n : ℕ) :
    ∃ c cs, natDigits n = c :: cs ∧ isDigitCh c = true := by
  obtain ⟨h1, h2, _⟩ := natDigits_spec n
  cases hh : natDigits n with
  | nil => exact absurd hh h1
  | cons c cs =>
    refine ⟨c, cs, rfl, ?_⟩
    rw [hh] at h2
    rw [List.all_cons] at h2
    exact (Bool.and_eq_true_iff.mp h2).1

theorem parseInt_intStr (z : ℤ) : parseInt (intStr z) = some z := by
  show parseIntChars (intChars z) = some z
  unfold intChars
  by_cases hz : z < 0
  · rw [if_pos hz]
    have hs : splitSign (Char.ofNat 45 :: natDigits z.natAbs) =
        (true, natDigits z.natAbs) := by
      simp [splitSign]
    simp only [parseIntChars, hs, parseNat_natDigits]
    simp only [if_pos, Option.some.injEq]
    omega
  · rw [if_neg hz]
    obtain ⟨c, cs, hcc, hcd⟩ := natDigits_head_digit z.natAbs
    have hs : splitSign (natDigits z.natAbs) = (false, natDigits z.natAbs) := by
      rw [hcc]
      simp [splitSign, digit_ne_dash hcd]
    simp only [parseIntChars, hs, parseNat_natDigits]
    simp only [Bool.false_eq_true, if_false, Option.some.injEq]
    omega

theorem takeWhile_all_append {p : Char → Bool} {l1 : List Char} {b : Char}
    {l2 : List Char} (h1 : l1.all p = true) (hb : p b = false) :
    (l1 ++ b :: l2).takeWhile p = l1 ∧ (l1 ++ b :: l2).dropWhile p = b :: l2 := by
  induction l1 with
  | nil =>
    simp [List.takeWhile, List.dropWhile, hb]
  | cons a t ih =>
    rw [List.all_cons, Bool.and_eq_true_iff] at h1
    obtain ⟨ha, ht⟩ := h1
    obtain ⟨ih1, ih2⟩ := ih ht
    constructor
    · rw [List.cons_append, List.takeWhile_cons_of_pos ha, ih1]
    · rw [List.cons_append, List.dropWhile_cons_of_pos ha, ih2]

theorem parseNat_none_of_nondigit {cs : List Char} {c : Char} (hm : c ∈ cs)
    (hc : isDigitCh c = false) : parseNat cs = none := by
  unfold parseNat
  rw [if_neg]
  intro ⟨_, hall⟩
  rw [List.all_eq_true] at hall
  rw [hall c hm] at hc
  exact Bool.true_eq_false.mp hc

theorem dot_not_digit : isDigitCh (Char.ofNat 46) = false := rfl

theorem dash_not_digit : isDigitCh (Char.ofNat 45) = false := rfl

theorem parseDec_isSome_of_parseInt {s : String}
    (h : (parseInt s).isSome = true) : (parseDec s).isSome = true := by
  unfold parseInt parseIntChars at h
  unfold parseDec parseDecChars
  cases hs : splitSign s.data with
  | mk neg body =>
    rw [hs] at h
    dsimp only at h ⊢
    cases hp : parseNat body with
    | none => rw [hp] at h; simp at h
    | some n =>
      unfold parseNat at hp
      split at hp
      · rename_i hcond
        obtain ⟨hne, hall⟩ := hcond
        rw [List.takeWhile_eq_self_iff.mpr ?hall2,
          List.dropWhile_eq_nil_iff.mpr ?hall3]
        case hall2 =>
          intro a ha
          rw [List.all_eq_true] at hall
          exact hall a ha
        case hall3 =>
          intro a ha
          rw [List.all_eq_true] at hall
          exact hall a ha
        rw [if_neg (by simpa using hne)]
        rfl
      · exact absurd hp (by simp)

theorem splitSign_digits_first (ip : ℕ) (l2 : List Char) :
    splitSign (natDigits ip ++ l2) = (false, natDigits ip ++ l2) := by
  obtain ⟨c, cs, hcc, hcd⟩ := natDigits_head_digit ip
  rw [hcc]
  rw [List.cons_append]
  unfold splitSign
  dsimp only
  rw [if_neg (digit_ne_dash hcd)]

theorem parseIntChars_dot (c : Prop) [Decidable c] (ip : ℕ) (l2 : List Char) :
    parseIntChars (((if c then [Char.ofNat 45] else []) ++ natDigits ip ++
      [Char.ofNat 46]) ++ l2) = none := by
  have hmem : ∀ rest : List Char, Char.ofNat 46 ∈ natDigits ip ++
      (Char.ofNat 46 :: rest) := by
    intro rest
    rw [List.mem_append]
    exact Or.inr (List.mem_cons_self _ _)
  by_cases hc : c
  · rw [if_pos hc]
    have hsh : (([Char.ofNat 45] ++ natDigits ip ++ [Char.ofNat 46]) ++ l2) =
        Char.ofNat 45 :: (natDigits ip ++ (Char.ofNat 46 :: l2)) := by
      simp
    rw [hsh]
    unfold parseIntChars splitSign
    dsimp only
    rw [if_pos rfl]
    dsimp only
    rw [parseNat_none_of_nondigit (hmem l2) dot_not_digit]
  · rw [if_neg hc]
    have hsh : (([] ++ natDigits ip ++ [Char.ofNat 46]) ++ l2) =
        natDigits ip ++ (Char.ofNat 46 :: l2) := by
      simp
    rw [hsh]
    unfold parseIntChars
    rw [splitSign_digits_first]
    dsimp only
    rw [parseNat_none_of_nondigit (hmem l2) dot_not_digit]

theorem parseDecChars_shape (c : Prop) [Decidable c] (ip : ℕ)
    (frac : List Char) (hfne : frac ≠ []) (hfd : frac.all isDigitCh = true) :
    parseDecChars (((if c then [Char.ofNat 45] else []) ++ natDigits ip ++
      [Char.ofNat 46]) ++ frac) =
      some ((if c then -1 else 1) *
        ((ip * 10 ^ frac.length + digitsVal frac : ℕ) : ℚ) /
          (10 : ℚ) ^ frac.length) := by
  obtain ⟨hne, hall, hval⟩ := natDigits_spec ip
  have hsplit := @takeWhile_all_append isDigitCh (natDigits ip)
    (Char.ofNat 46) frac hall dot_not_digit
  by_cases hc : c
  · rw [if_pos hc]
    have hsh : (([Char.ofNat 45] ++ natDigits ip ++ [Char.ofNat 46]) ++ frac) =
        Char.ofNat 45 :: (natDigits ip ++ (Char.ofNat 46 :: frac)) := by
      simp
    rw [hsh]
    unfold parseDecChars splitSign
    dsimp only
    rw [if_pos rfl]
    dsimp only
    rw [hsplit.1, hsplit.2, if_neg hne]
    dsimp only
    rw [if_pos (show Char.ofNat 46 = Char.ofNat 46 ∧ frac ≠ [] ∧
        frac.all isDigitCh = true from ⟨rfl, hfne, hfd⟩), hval]
    rw [if_pos hc]
    simp
  · rw [if_neg hc]
    have hsh : (([] ++ natDigits ip ++ [Char.ofNat 46]) ++ frac) =
        natDigits ip ++ (Char.ofNat 46 :: frac) := by
      simp
    rw [hsh]
    unfold parseDecChars
    rw [splitSign_digits_first]
    dsimp only
    rw [hsplit.1, hsplit.2, if_neg hne]
    dsimp only
    rw [if_pos (show Char.ofNat 46 = Char.ofNat 46 ∧ frac ≠ [] ∧
        frac.all isDigitCh = true from ⟨rfl, hfne, hfd⟩), hval]
    rw [if_neg hc]
    simp

theorem decExp_dvd {d k : ℕ} (h : decExp d = some k) : d ∣ 10 ^ k := by
  unfold decExp at h
  have := List.find?_some h
  simp only [decide_eq_true_eq] at this
  exact Nat.dvd_of_mod_eq_zero this

theorem parseInt_floatRepr {q : ℚ} {k : ℕ} (hk : decExp q.den = some k) :
    parseInt (floatRepr q) = none := by
  unfold parseInt floatRepr
  rw [hk]
  exact parseIntChars_dot _ _ _

theorem sign_natAbs (q : ℚ) :
    (if q.num < 0 then (-1 : ℚ) else 1) * (q.num.natAbs : ℚ) = (q.num : ℚ) := by
  have h3 : (q.num.natAbs : ℚ) = ((q.num.natAbs : ℤ) : ℚ) := by
    rw [Int.cast_natCast]
  by_cases h : q.num < 0
  · rw [if_pos h]
    have h2 : (q.num.natAbs : ℤ) = -q.num := by omega
    rw [h3, h2]
    push_cast
    ring
  · rw [if_neg h]
    have h2 : (q.num.natAbs : ℤ) = q.num := by omega
    rw [h3, h2]
    ring

theorem parseDec_floatRepr {q : ℚ} {k : ℕ} (hk : decExp q.den = some k) :
    parseDec (floatRepr q) = some q := by
  have hdvd : q.den ∣ 10 ^ k := decExp_dvd hk
  have hden0 : q.den ≠ 0 := q.den_nz
  have hnum : (q.num : ℚ) / (q.den : ℚ) = q := Rat.num_div_den q
  unfold parseDec floatRepr
  rw [hk]
  by_cases hk0 : k = 0
  · subst hk0
    have hden1 : q.den = 1 := Nat.dvd_one.mp (by simpa using hdvd)
    dsimp only
    rw [if_pos rfl]
    rw [parseDecChars_shape _ _ _ (by simp) (by
      simp [isDigitCh_digitChar (show (0:ℕ) < 10 by omega)])]
    have hdv : digitsVal [digitChar 0] = 0 := by
      unfold digitsVal
      simp [digitVal_digitChar (show (0:ℕ) < 10 by omega)]
    rw [hdv, Option.some.injEq, List.length_singleton, hden1]
    have hc1 : ((q.num.natAbs * (10 ^ 0 / 1) / 10 ^ 0 * 10 ^ 1 + 0 : ℕ) : ℚ) =
        (q.num.natAbs : ℚ) * 10 := by
      push_cast [Nat.div_one]
      ring
    rw [hc1]
    rw [show (if q.num < 0 then (-1:ℚ) else 1) * ((q.num.natAbs : ℚ) * 10) /
        (10:ℚ) ^ (1:ℕ) =
        (if q.num < 0 then (-1:ℚ) else 1) * (q.num.natAbs : ℚ) from by ring]
    rw [sign_natAbs]
    rw [← hnum, hden1]
    simp
  · have hkpos : 1 ≤ k := by omega
    have hfp : q.num.natAbs * (10 ^ k / q.den) % 10 ^ k < 10 ^ k :=
      Nat.mod_lt _ (Nat.pos_pow_of_pos k (by omega))
    have hfne2 : padZeros k
        (natDigits (q.num.natAbs * (10 ^ k / q.den) % 10 ^ k)) ≠ [] := by
      unfold padZeros
      intro hnil
      exact (natDigits_spec _).1 (List.append_eq_nil.mp hnil).2
    dsimp only
    rw [if_neg hk0]
    rw [parseDecChars_shape _ _ _ hfne2
      (padZeros_all_digits (natDigits_spec _).2.1)]
    rw [padZeros_length (natDigits_length_le hkpos hfp)]
    rw [digitsVal_padZeros, (natDigits_spec _).2.2]
    rw [Nat.mul_comm (q.num.natAbs * (10 ^ k / q.den) / 10 ^ k) (10 ^ k)]
    rw [Nat.div_add_mod (q.num.natAbs * (10 ^ k / q.den)) (10 ^ k)]
    rw [Option.some.injEq]
    have hcast : ((10 ^ k / q.den : ℕ) : ℚ) = (10 ^ k : ℚ) / (q.den : ℚ) := by
      rw [Nat.cast_div hdvd (by exact_mod_cast hden0)]
      push_cast
      ring
    push_cast [hcast]
    have h10 : ((10:ℚ)) ^ k ≠ 0 := by positivity
    have hdq : (q.den : ℚ) ≠ 0 := by exact_mod_cast hden0
    have hgen : ∀ s a : ℚ, s * (a * ((10:ℚ) ^ k / (q.den : ℚ))) / (10:ℚ) ^ k =
        s * a / (q.den : ℚ) := by
      intro s a
      field_simp
      ring
    rw [hgen, sign_natAbs, hnum]

theorem dash_not_mem_digits {l : List Char} (h : l.all isDigitCh = true) :
    Char.ofNat 45 ∉ l := by
  intro hm
  rw [List.all_eq_true] at h
  have := h _ hm
  rw [dash_not_digit] at this
  exact Bool.false_ne_true this

theorem splitOnCh_no_sep {sep : Char} {cs : List Char} (h : sep ∉ cs) :
    splitOnCh sep cs = [cs] := by
  induction cs with
  | nil => rfl
  | cons a t ih =>
    rw [List.mem_cons, not_or] at h
    unfold splitOnCh
    rw [if_neg (fun he => h.1 he.symm)]
    rw [ih h.2]

theorem splitOnCh_append {sep : Char} {l1 rest : List Char} (h : sep ∉ l1) :
    splitOnCh sep (l1 ++ sep :: rest) = l1 :: splitOnCh sep rest := by
  induction l1 with
  | nil =>
    rw [List.nil_append]
    conv_lhs => unfold splitOnCh
    rw [if_pos rfl]
  | cons a t ih =>
    rw [List.mem_cons, not_or] at h
    rw [List.cons_append]
    conv_lhs => unfold splitOnCh
    dsimp only
    rw [if_neg (fun he => h.1 he.symm), ih h.2]

theorem parseNat_pad2 (n : ℕ) : parseNat (pad2 n) = some n := by
  obtain ⟨h1, h2, h3⟩ := natDigits_spec n
  have h4 : pad2 n ≠ [] := by
    unfold pad2 padZeros
    intro hnil
    exact h1 (List.append_eq_nil.mp hnil).2
  unfold pad2 at h4 ⊢
  unfold parseNat
  rw [if_pos ⟨h4, padZeros_all_digits h2⟩]
  rw [digitsVal_padZeros, h3]

theorem validDate_fields {d : Date} (h : validDate d = true) :
    1678 ≤ d.year ∧ d.year ≤ 2261 ∧ 1 ≤ d.month ∧ d.month ≤ 12 ∧
      1 ≤ d.day ∧ d.day ≤ daysInMonth d.year d.month := by
  unfold validDate at h
  simpa using h

theorem isoChars_shape (d : Date) :
    isoChars d = natDigits d.year.natAbs ++ Char.ofNat 45 ::
      (pad2 d.month ++ Char.ofNat 45 :: pad2 d.day) := by
  unfold isoChars
  simp

theorem parseDate_isoStr {d : Date} (h : validDate d = true) :
    parseDate (isoStr d) = some d := by
  have hy := (validDate_fields h).1
  show parseDateChars (isoChars d) = some d
  rw [isoChars_shape]
  unfold parseDateChars
  rw [splitOnCh_append (dash_not_mem_digits (natDigits_spec _).2.1),
    splitOnCh_append (dash_not_mem_digits ?hp2),
    splitOnCh_no_sep (dash_not_mem_digits ?hp3)]
  case hp2 => exact padZeros_all_digits (natDigits_spec _).2.1
  case hp3 => exact padZeros_all_digits (natDigits_spec _).2.1
  dsimp only
  rw [parseNat_natDigits]
  rw [show parseNat (pad2 d.month) = some d.month from parseNat_pad2 _]
  rw [show parseNat (pad2 d.day) = some d.day from parseNat_pad2 _]
  dsimp only
  have hyy : ((d.year.natAbs : ℤ)) = d.year := by omega
  rw [hyy]
  rw [if_pos (show validDate ⟨d.year, d.month, d.day⟩ = true from h)]

theorem parseInt_isoStr (d : Date) : parseInt (isoStr d) = none := by
  show parseIntChars (isoChars d) = none
  rw [isoChars_shape]
  obtain ⟨c, cs, hcc, hcd⟩ := natDigits_head_digit d.year.natAbs
  unfold parseIntChars
  rw [splitSign_digits_first]
  dsimp only
  rw [parseNat_none_of_nondigit ?hm dash_not_digit]
  case hm =>
    rw [List.mem_append]
    exact Or.inr (List.mem_cons_self _ _)

theorem parseDec_isoStr (d : Date) : parseDec (isoStr d) = none := by
  show parseDecChars (isoChars d) = none
  rw [isoChars_shape]
  obtain ⟨hne, hall, _⟩ := natDigits_spec d.year.natAbs
  have hsplit := @takeWhile_all_append isDigitCh (natDigits d.year.natAbs)
    (Char.ofNat 45) (pad2 d.month ++ Char.ofNat 45 :: pad2 d.day)
    hall dash_not_digit
  unfold parseDecChars
  rw [splitSign_digits_first]
  dsimp only
  rw [hsplit.1, hsplit.2, if_neg hne]
  dsimp only
  rw [if_neg]
  intro ⟨h45, _⟩
  exact absurd h45 (by decide)

theorem naTokens_no_parse : ∀ s ∈ naTokens,
    parseInt s = none ∧ parseDec s = none := by
  decide

theorem normCell_safe {s : String} (h : safeStr s = true) :
    normCell (some s) = some s := by
  unfold safeStr at h
  rw [Bool.and_eq_true_iff] at h
  unfold normCell
  dsimp only
  rw [if_neg]
  intro hc
  rw [hc] at h
  simp at h

theorem normCell_intStr (z : ℤ) : normCell (some (intStr z)) = some (intStr z) := by
  unfold normCell
  dsimp only
  rw [if_neg]
  intro hc
  have hm : intStr z ∈ naTokens := by simpa using hc
  have h1 := (naTokens_no_parse _ hm).1
  rw [parseInt_intStr] at h1
  exact Option.noConfusion h1

theorem safeStr_floatRepr {q : ℚ} {k : ℕ} (hk : decExp q.den = some k) :
    safeStr (floatRepr q) = false := by
  unfold safeStr
  rw [parseDec_floatRepr hk]
  rfl

theorem normCell_floatRepr {q : ℚ} {k : ℕ} (hk : decExp q.den = some k) :
    normCell (some (floatRepr q)) = some (floatRepr q) := by
  unfold normCell
  dsimp only
  rw [if_neg]
  intro hc
  have hm : floatRepr q ∈ naTokens := by simpa using hc
  have h1 := (naTokens_no_parse _ hm).2
  rw [parseDec_floatRepr hk] at h1
  exact Option.noConfusion h1

theorem naTokens_short : ∀ s ∈ naTokens, s.length ≤ 4 := by
  decide

theorem isoStr_long (d : Date) : 7 ≤ (isoStr d).length := by
  show 7 ≤ (isoChars d).length
  rw [isoChars_shape, List.length_append, List.length_cons,
    List.length_append, List.length_cons]
  have h1 : 1 ≤ (natDigits d.year.natAbs).length := by
    have := (natDigits_spec d.year.natAbs).1
    cases hh : natDigits d.year.natAbs with
    | nil => exact absurd hh this
    | cons a t => simp
  have h2 : (pad2 d.month).length = 2 ∨ 2 ≤ (pad2 d.month).length := by
    unfold pad2 padZeros
    rw [List.length_append, List.length_replicate]
    omega
  have h3 : 2 ≤ (pad2 d.day).length ∨ True := Or.inr trivial
  unfold pad2 padZeros at h2 ⊢
  rw [List.length_append, List.length_replicate,
    List.length_append, List.length_replicate]
  have h4 : 1 ≤ (natDigits d.month).length := by
    have := (natDigits_spec d.month).1
    cases hh : natDigits d.month with
    | nil => exact absurd hh this
    | cons a t => simp
  have h5 : 1 ≤ (natDigits d.day).length := by
    have := (natDigits_spec d.day).1
    cases hh : natDigits d.day with
    | nil => exact absurd hh this
    | cons a t => simp
  omega

theorem safeStr_isoStr (d : Date) : safeStr (isoStr d) = true := by
  unfold safeStr
  rw [parseDec_isoStr]
  simp only [Option.isNone_none, Bool.true_and, Bool.not_eq_true']
  by_contra hc
  simp only [Bool.not_eq_false] at hc
  have hm : isoStr d ∈ naTokens := by simpa using hc
  have := naTokens_short _ hm
  have := isoStr_long d
  omega

theorem normCell_isoStr (d : Date) :
    normCell (some (isoStr d)) = some (isoStr d) :=
  normCell_safe (safeStr_isoStr d)

/-! ## What read_csv type inference can conclude per column -/

theorem inferKind_allNa {xs : List (Option String)}
    (h : inferKind xs = .allNa) : xs.all (·.isNone) = true := by
  unfold inferKind at h
  split at h
  · assumption
  · split at h
    · exact absurd h (by simp)
    · split at h <;> exact absurd h (by simp)

theorem inferKind_intK {xs : List (Option String)}
    (h : inferKind xs = .intK) : xs.all cellIsInt = true := by
  unfold inferKind at h
  split at h
  · exact absurd h (by simp)
  · split at h
    · assumption
    · split at h <;> exact absurd h (by simp)

theorem inferKind_fltK {xs : List (Option String)}
    (h : inferKind xs = .fltK) :
    xs.all cellDecOrNa = true ∧ xs.all cellIsInt = false := by
  unfold inferKind at h
  split at h
  · exact absurd h (by simp)
  · split at h
    · exact absurd h (by simp)
    · split at h
      · rename_i h1 h2 h3
        exact ⟨h3, by simpa using h2⟩
      · exact absurd h (by simp)

theorem inferKind_objK {xs : List (Option String)}
    (h : inferKind xs = .objK) :
    xs.all cellIsInt = false ∧ xs.all cellDecOrNa = false := by
  unfold inferKind at h
  split at h
  · exact absurd h (by simp)
  · split at h
    · exact absurd h (by simp)
    · split at h
      · exact absurd h (by simp)
      · rename_i h1 h2 h3
        exact ⟨by simpa using h2, by simpa using h3⟩

theorem cellIsInt_safe {s : String} (h : safeStr s = true) :
    cellIsInt (some s) = false := by
  unfold safeStr at h
  rw [Bool.and_eq_true_iff] at h
  unfold cellIsInt
  by_contra hc
  rw [Bool.not_eq_false] at hc
  have := parseDec_isSome_of_parseInt hc
  rw [Option.isNone_iff_eq_none.mp h.1] at this
  exact Bool.false_ne_true this

theorem cellDecOrNa_safe {s : String} (h : safeStr s = true) :
    cellDecOrNa (some s) = false := by
  unfold safeStr at h
  rw [Bool.and_eq_true_iff] at h
  unfold cellDecOrNa
  dsimp only
  rw [Option.isNone_iff_eq_none.mp h.1]
  rfl

theorem rawColumn_save (R : List CardRec) (j : ℕ) (g : CardRec → Option String)
    (hg : ∀ r, ((serRow r).get? j).join = g r) :
    rawColumn (save_data R) j = R.map (fun r => normCell (g r)) := by
  unfold rawColumn save_data
  rw [List.map_map]
  apply List.map_congr_left
  intro r _
  simp only [Function.comp_apply, hg r]

/-- In a column of serialised optional safe strings, every cell parses
back to exactly its typed value, whatever kind inference chose. -/
theorem kind_optStr_cells (R : List CardRec) (g : CardRec → Option String)
    (hok : ∀ r ∈ R, optStrOK (g r) = true) :
    ∀ r ∈ R, mkCell (inferKind (R.map (fun r => normCell (g r))))
      (normCell (g r)) = optStrCell (g r) := by
  intro r hr
  have hmem : normCell (g r) ∈ R.map (fun r => normCell (g r)) :=
    List.mem_map_of_mem _ hr
  cases hgr : g r with
  | none =>
    cases inferKind (R.map (fun r => normCell (g r))) <;> rfl
  | some s =>
    have hs : safeStr s = true := by
      have := hok r hr
      rw [hgr] at this
      exact this
    rw [hgr] at hmem
    rw [normCell_safe hs] at hmem ⊢
    cases hk : inferKind (R.map (fun r => normCell (g r))) with
    | allNa =>
      have hall := inferKind_allNa hk
      rw [List.all_eq_true] at hall
      have := hall _ hmem
      simp at this
    | intK =>
      have hall := inferKind_intK hk
      rw [List.all_eq_true] at hall
      have := hall _ hmem
      rw [cellIsInt_safe hs] at this
      exact absurd this (by simp)
    | fltK =>
      have hall := (inferKind_fltK hk).1
      rw [List.all_eq_true] at hall
      have := hall _ hmem
      rw [cellDecOrNa_safe hs] at this
      exact absurd this (by simp)
    | objK => rfl

/-- In a column of serialised integers, inference always yields the int
kind and every cell parses back to its integer. -/
theorem kind_int_cells (R : List CardRec) (g : CardRec → ℤ) :
    ∀ r ∈ R, mkCell (inferKind (R.map (fun r => normCell (some (intStr (g r))))))
      (normCell (some (intStr (g r)))) = .int (g r) := by
  have hmap : R.map (fun r => normCell (some (intStr (g r)))) =
      R.map (fun r => some (intStr (g r))) :=
    List.map_congr_left (fun r _ => normCell_intStr _)
  intro r hr
  rw [hmap, normCell_intStr]
  have hallint : (R.map (fun r => some (intStr (g r)))).all cellIsInt = true := by
    rw [List.all_eq_true]
    intro x hx
    rw [List.mem_map] at hx
    obtain ⟨r2, _, rfl⟩ := hx
    unfold cellIsInt
    dsimp only
    rw [parseInt_intStr]
    rfl
  cases hk : inferKind (R.map (fun r => some (intStr (g r)))) with
  | allNa =>
    have hall := inferKind_allNa hk
    rw [List.all_eq_true] at hall
    have := hall _ (List.mem_map_of_mem _ hr)
    simp at this
  | intK =>
    unfold mkCell
    dsimp only
    rw [parseInt_intStr]
  | fltK =>
    have := (inferKind_fltK hk).2
    rw [hallint] at this
    exact absurd this (by simp)
  | objK =>
    have := (inferKind_objK hk).1
    rw [hallint] at this
    exact absurd this (by simp)

/-- In a column of serialised finite-decimal rationals, inference always
yields the float kind and every cell parses back to its rational. -/
theorem kind_money_cells (R : List CardRec) (g : CardRec → ℚ)
    (hok : ∀ r ∈ R, isDecimalRat (g r) = true) :
    ∀ r ∈ R, mkCell (inferKind (R.map (fun r => normCell (some (floatRepr (g r))))))
      (normCell (some (floatRepr (g r)))) = .flt (g r) := by
  have hmap : R.map (fun r => normCell (some (floatRepr (g r)))) =
      R.map (fun r => some (floatRepr (g r))) := by
    apply List.map_congr_left
    intro r hr
    obtain ⟨k, hk⟩ := Option.isSome_iff_exists.mp (hok r hr)
    exact normCell_floatRepr hk
  intro r hr
  obtain ⟨k, hk⟩ := Option.isSome_iff_exists.mp (hok r hr)
  rw [hmap, normCell_floatRepr hk]
  have halldec : (R.map (fun r => some (floatRepr (g r)))).all
      cellDecOrNa = true := by
    rw [List.all_eq_true]
    intro x hx
    rw [List.mem_map] at hx
    obtain ⟨r2, hr2, rfl⟩ := hx
    obtain ⟨k2, hk2⟩ := Option.isSome_iff_exists.mp (hok r2 hr2)
    unfold cellDecOrNa
    dsimp only
    rw [parseDec_floatRepr hk2]
    rfl
  cases hkind : inferKind (R.map (fun r => some (floatRepr (g r)))) with
  | allNa =>
    have hall := inferKind_allNa hkind
    rw [List.all_eq_true] at hall
    have := hall _ (List.mem_map_of_mem _ hr)
    simp at this
  | intK =>
    have hall := inferKind_intK hkind
    rw [List.all_eq_true] at hall
    have := hall _ (List.mem_map_of_mem _ hr)
    rw [show cellIsInt (some (floatRepr (g r))) =
      (parseInt (floatRepr (g r))).isSome from rfl,
      parseInt_floatRepr hk] at this
    exact absurd this (by simp)
  | fltK =>
    unfold mkCell
    dsimp only
    rw [parseDec_floatRepr hk]
  | objK =>
    have := (inferKind_objK hkind).2
    rw [halldec] at this
    exact absurd this (by simp)

/-- In a column of serialised optional finite-decimal rationals, every
cell parses back to its typed value. -/
theorem kind_optMoney_cells (R : List CardRec) (g : CardRec → Option ℚ)
    (hok : ∀ r ∈ R, optMoneyOK (g r) = true) :
    ∀ r ∈ R, mkCell (inferKind (R.map (fun r => normCell (serMoneyOpt (g r)))))
      (normCell (serMoneyOpt (g r))) = optMoneyCell (g r) := by
  have halldec : (R.map (fun r => normCell (serMoneyOpt (g r)))).all
      cellDecOrNa = true := by
    rw [List.all_eq_true]
    intro x hx
    rw [List.mem_map] at hx
    obtain ⟨r2, hr2, rfl⟩ := hx
    cases hg2 : g r2 with
    | none => rfl
    | some q =>
      have hq := hok r2 hr2
      rw [hg2] at hq
      obtain ⟨k2, hk2⟩ := Option.isSome_iff_exists.mp hq
      unfold serMoneyOpt
      dsimp only
      rw [normCell_floatRepr hk2]
      unfold cellDecOrNa
      dsimp only
      rw [parseDec_floatRepr hk2]
      rfl
  intro r hr
  cases hgr : g r with
  | none =>
    cases inferKind (R.map (fun r => normCell (serMoneyOpt (g r)))) <;> rfl
  | some q =>
    have hq := hok r hr
    rw [hgr] at hq
    obtain ⟨k, hk⟩ := Option.isSome_iff_exists.mp hq
    show mkCell _ (normCell (some (floatRepr q))) = _
    rw [normCell_floatRepr hk]
    have hmem : normCell (serMoneyOpt (g r)) ∈
        R.map (fun r => normCell (serMoneyOpt (g r))) :=
      List.mem_map_of_mem _ hr
    rw [hgr] at hmem
    rw [show normCell (serMoneyOpt (some q)) = some (floatRepr q) from
      normCell_floatRepr hk] at hmem
    cases hkind : inferKind (R.map (fun r => normCell (serMoneyOpt (g r)))) with
    | allNa =>
      have hall := inferKind_allNa hkind
      rw [List.all_eq_true] at hall
      have := hall _ hmem
      simp at this
    | intK =>
      have hall := inferKind_intK hkind
      rw [List.all_eq_true] at hall
      have := hall _ hmem
      rw [show cellIsInt (some (floatRepr q)) =
        (parseInt (floatRepr q)).isSome from rfl,
        parseInt_floatRepr hk] at this
      exact absurd this (by simp)
    | fltK =>
      unfold mkCell
      dsimp only
      rw [parseDec_floatRepr hk]
      rfl
    | objK =>
      have := (inferKind_objK hkind).2
      rw [halldec] at this
      exact absurd this (by simp)

theorem readCsv_save (R : List CardRec) :
    readCsv (save_data R) = ⟨ALL_COLUMNS, R.map (midRow R)⟩ := by
  unfold readCsv save_data
  dsimp only
  rw [List.map_map]
  congr 1

theorem dfAddConst_present (name : String) (v : PVal)
    (rows : List (List PVal)) (h : ALL_COLUMNS.contains name = true) :
    dfAddConst name v ⟨ALL_COLUMNS, rows⟩ = ⟨ALL_COLUMNS, rows⟩ := by
  unfold dfAddConst
  dsimp only
  rw [h, if_pos rfl]

theorem migrate_id (rows : List (List PVal)) :
    migrate ⟨ALL_COLUMNS, rows⟩ = ⟨ALL_COLUMNS, rows⟩ := by
  unfold migrate
  have hso : dfAddSortOrder ⟨ALL_COLUMNS, rows⟩ = ⟨ALL_COLUMNS, rows⟩ := by
    unfold dfAddSortOrder
    dsimp only
    rw [show ALL_COLUMNS.contains "Sort Order" = true from rfl, if_pos rfl]
  rw [hso]
  rw [show migrationDefaults =
    [("Notes", PVal.str ""), ("Cancellation Date", PVal.na),
     ("Re-apply Date", PVal.na), ("Tags", PVal.str ""),
     ("Bonus Offer", PVal.str ""), ("Min Spend", PVal.flt 0),
     ("Min Spend Deadline", PVal.na), ("Bonus Status", PVal.str ""),
     ("Last 4 Digits", PVal.str ""), ("Current Spend", PVal.flt 0),
     ("FeeWaivedCount", PVal.int 0), ("FeePaidCount", PVal.int 0),
     ("LastFeeActionYear", PVal.int 0), ("LastFeeAction", PVal.str "")]
    from rfl]
  rw [List.foldl_cons, dfAddConst_present "Notes" _ rows rfl]
  rw [List.foldl_cons, dfAddConst_present "Cancellation Date" _ rows rfl]
  rw [List.foldl_cons, dfAddConst_present "Re-apply Date" _ rows rfl]
  rw [List.foldl_cons, dfAddConst_present "Tags" _ rows rfl]
  rw [List.foldl_cons, dfAddConst_present "Bonus Offer" _ rows rfl]
  rw [List.foldl_cons, dfAddConst_present "Min Spend" _ rows rfl]
  rw [List.foldl_cons, dfAddConst_present "Min Spend Deadline" _ rows rfl]
  rw [List.foldl_cons, dfAddConst_present "Bonus Status" _ rows rfl]
  rw [List.foldl_cons, dfAddConst_present "Last 4 Digits" _ rows rfl]
  rw [List.foldl_cons, dfAddConst_present "Current Spend" _ rows rfl]
  rw [List.foldl_cons, dfAddConst_present "FeeWaivedCount" _ rows rfl]
  rw [List.foldl_cons, dfAddConst_present "FeePaidCount" _ rows rfl]
  rw [List.foldl_cons, dfAddConst_present "LastFeeActionYear" _ rows rfl]
  rw [List.foldl_cons, dfAddConst_present "LastFeeAction" _ rows rfl]
  rw [List.foldl_nil]

theorem hasLongRow_save (R : List CardRec) :
    hasLongRow (save_data R) = false := by
  unfold hasLongRow save_data
  dsimp only
  rw [List.any_eq_false]
  intro row hrow
  rw [List.mem_map] at hrow
  obtain ⟨r, _, rfl⟩ := hrow
  have h1 : (serRow r).length = 26 := rfl
  have h2 : ALL_COLUMNS.length = 26 := rfl
  simp only [h1, h2]
  decide

theorem ok_bind {α β : Type} (a : α) (f : α → Except LoadErr β) :
    (Except.ok a >>= f) = f a := rfl

theorem mapCol_all (name : String) (f : PVal → PVal) (j : ℕ)
    (rows : List (List PVal))
    (h : ALL_COLUMNS.findIdx? (fun c => c = name) = some j) :
    mapCol name f ⟨ALL_COLUMNS, rows⟩ =
      .ok ⟨ALL_COLUMNS, rows.map (List.modify f j)⟩ := by
  unfold mapCol
  dsimp only
  rw [h]

set_option maxHeartbeats 1000000 in
theorem map_rowCoerce (rows : List (List PVal)) :
    List.map (List.modify strFillCell 25)
      (List.map (List.modify counterCell 24)
      (List.map (List.modify counterCell 23)
      (List.map (List.modify counterCell 22)
      (List.map (List.modify moneyCell 21)
      (List.map (List.modify stripCell 20)
      (List.map (List.modify strFillCell 20)
      (List.map (List.modify strFillCell 19)
      (List.map (List.modify moneyCell 17)
      (List.map (List.modify strFillCell 16)
      (List.map (List.modify strFillCell 15)
      (List.map (List.modify strFillCell 12)
      (List.map (List.modify sortOrderCell 11)
      (List.map (List.modify toDatetimeCell 18)
      (List.map (List.modify toDatetimeCell 14)
      (List.map (List.modify toDatetimeCell 13)
      (List.map (List.modify toDatetimeCell 9)
      (List.map (List.modify toDatetimeCell 8)
      (List.map (List.modify toDatetimeCell 7)
      (List.map (List.modify toDatetimeCell 6)
      (List.map (List.modify toDatetimeCell 5)
      (rows))))))))))))))))))))) = rows.map rowCoerce := by
  induction rows with
  | nil => simp only [List.map_nil]
  | cons a t ih =>
    simp only [List.map_cons]
    rw [ih]
    congr 1

theorem coercion_fold_save (rows : List (List PVal)) :
    coercionSteps.foldlM (fun d p => mapCol p.1 p.2 d) ⟨ALL_COLUMNS, rows⟩ =
      .ok ⟨ALL_COLUMNS, rows.map rowCoerce⟩ := by
  rw [show coercionSteps =
    [("Date Applied", toDatetimeCell),
     ("Date Approved", toDatetimeCell),
     ("Date Received Card", toDatetimeCell),
     ("Date Activated Card", toDatetimeCell),
     ("First Charge Date", toDatetimeCell),
     ("Cancellation Date", toDatetimeCell),
     ("Re-apply Date", toDatetimeCell),
     ("Min Spend Deadline", toDatetimeCell),
     ("Sort Order", sortOrderCell),
     ("Notes", strFillCell),
     ("Tags", strFillCell),
     ("Bonus Offer", strFillCell),
     ("Min Spend", moneyCell),
     ("Bonus Status", strFillCell),
     ("Last 4 Digits", strFillCell),
     ("Last 4 Digits", stripCell),
     ("Current Spend", moneyCell),
     ("FeeWaivedCount", counterCell),
     ("FeePaidCount", counterCell),
     ("LastFeeActionYear", counterCell),
     ("LastFeeAction", strFillCell)]
    from by simp [coercionSteps, DATE_COLUMNS]]
  rw [List.foldlM_cons, mapCol_all "Date Applied" toDatetimeCell 5 _ rfl, ok_bind]
  rw [List.foldlM_cons, mapCol_all "Date Approved" toDatetimeCell 6 _ rfl, ok_bind]
  rw [List.foldlM_cons, mapCol_all "Date Received Card" toDatetimeCell 7 _ rfl, ok_bind]
  rw [List.foldlM_cons, mapCol_all "Date Activated Card" toDatetimeCell 8 _ rfl, ok_bind]
  rw [List.foldlM_cons, mapCol_all "First Charge Date" toDatetimeCell 9 _ rfl, ok_bind]
  rw [List.foldlM_cons, mapCol_all "Cancellation Date" toDatetimeCell 13 _ rfl, ok_bind]
  rw [List.foldlM_cons, mapCol_all "Re-apply Date" toDatetimeCell 14 _ rfl, ok_bind]
  rw [List.foldlM_cons, mapCol_all "Min Spend Deadline" toDatetimeCell 18 _ rfl, ok_bind]
  rw [List.foldlM_cons, mapCol_all "Sort Order" sortOrderCell 11 _ rfl, ok_bind]
  rw [List.foldlM_cons, mapCol_all "Notes" strFillCell 12 _ rfl, ok_bind]
  rw [List.foldlM_cons, mapCol_all "Tags" strFillCell 15 _ rfl, ok_bind]
  rw [List.foldlM_cons, mapCol_all "Bonus Offer" strFillCell 16 _ rfl, ok_bind]
  rw [List.foldlM_cons, mapCol_all "Min Spend" moneyCell 17 _ rfl, ok_bind]
  rw [List.foldlM_cons, mapCol_all "Bonus Status" strFillCell 19 _ rfl, ok_bind]
  rw [List.foldlM_cons, mapCol_all "Last 4 Digits" strFillCell 20 _ rfl, ok_bind]
  rw [List.foldlM_cons, mapCol_all "Last 4 Digits" stripCell 20 _ rfl, ok_bind]
  rw [List.foldlM_cons, mapCol_all "Current Spend" moneyCell 21 _ rfl, ok_bind]
  rw [List.foldlM_cons, mapCol_all "FeeWaivedCount" counterCell 22 _ rfl, ok_bind]
  rw [List.foldlM_cons, mapCol_all "FeePaidCount" counterCell 23 _ rfl, ok_bind]
  rw [List.foldlM_cons, mapCol_all "LastFeeActionYear" counterCell 24 _ rfl, ok_bind]
  rw [List.foldlM_cons, mapCol_all "LastFeeAction" strFillCell 25 _ rfl, ok_bind]
  rw [List.foldlM_nil]
  rw [map_rowCoerce]
  rfl

theorem RecOK_fields {c : CardRec} (h : RecOK c = true) :
    optStrOK c.bank = true ∧
    optStrOK c.cardName = true ∧
    optMoneyOK c.annualFee = true ∧
    optStrOK c.cardExpiry = true ∧
    optStrOK c.feeMonth = true ∧
    optDateOK c.dateApplied = true ∧
    optDateOK c.dateApproved = true ∧
    optDateOK c.dateReceived = true ∧
    optDateOK c.dateActivated = true ∧
    optDateOK c.firstCharge = true ∧
    optStrOK c.imageFilename = true ∧
    strFieldOK c.notes = true ∧
    optDateOK c.cancellationDate = true ∧
    optDateOK c.reapplyDate = true ∧
    strFieldOK c.tags = true ∧
    strFieldOK c.bonusOffer = true ∧
    isDecimalRat c.minSpend = true ∧
    optDateOK c.minSpendDeadline = true ∧
    strFieldOK c.bonusStatus = true ∧
    last4OK c.last4 = true ∧
    isDecimalRat c.currentSpend = true ∧
    strFieldOK c.lastFeeAction = true := by
  unfold RecOK at h
  simp only [Bool.and_eq_true] at h
  exact ⟨h.1.1.1.1.1.1.1.1.1.1.1.1.1.1.1.1.1.1.1.1.1, h.1.1.1.1.1.1.1.1.1.1.1.1.1.1.1.1.1.1.1.1.2, h.1.1.1.1.1.1.1.1.1.1.1.1.1.1.1.1.1.1.1.2, h.1.1.1.1.1.1.1.1.1.1.1.1.1.1.1.1.1.1.2, h.1.1.1.1.1.1.1.1.1.1.1.1.1.1.1.1.1.2, h.1.1.1.1.1.1.1.1.1.1.1.1.1.1.1.1.2, h.1.1.1.1.1.1.1.1.1.1.1.1.1.1.1.2, h.1.1.1.1.1.1.1.1.1.1.1.1.1.1.2, h.1.1.1.1.1.1.1.1.1.1.1.1.1.2, h.1.1.1.1.1.1.1.1.1.1.1.1.2, h.1.1.1.1.1.1.1.1.1.1.1.2, h.1.1.1.1.1.1.1.1.1.1.2, h.1.1.1.1.1.1.1.1.1.2, h.1.1.1.1.1.1.1.1.2, h.1.1.1.1.1.1.1.2, h.1.1.1.1.1.1.2, h.1.1.1.1.1.2, h.1.1.1.1.2, h.1.1.1.2, h.1.1.2, h.1.2, h.2⟩

theorem optStrOK_ser {x : Option String} (h : optStrOK x = true) :
    optStrOK (serStrOpt x) = true := by
  cases x with
  | none => rfl
  | some s =>
    unfold serStrOpt
    dsimp only
    by_cases hs : s = ""
    · rw [if_pos hs]
      rfl
    · rw [if_neg hs]
      exact h

theorem strFieldOK_ser {s : String} (h : strFieldOK s = true) :
    optStrOK (serStr s) = true := by
  unfold serStr
  by_cases hs : s = ""
  · rw [if_pos hs]
    rfl
  · rw [if_neg hs]
    unfold strFieldOK at h
    rw [Bool.or_eq_true] at h
    rcases h with h | h
    · exact absurd (by simpa using h) hs
    · exact h

theorem last4OK_strOK {s : String} (h : last4OK s = true) :
    optStrOK (serStr s) = true := by
  apply strFieldOK_ser
  unfold last4OK at h
  unfold strFieldOK
  rw [Bool.or_eq_true] at h ⊢
  rcases h with h | h
  · exact Or.inl h
  · rw [Bool.and_eq_true] at h
    exact Or.inr h.1

theorem serDateOpt_optStrOK (x : Option Date) :
    optStrOK (serDateOpt x) = true := by
  cases x with
  | none => rfl
  | some d =>
    show safeStr (isoStr d) = true
    exact safeStr_isoStr d

theorem midRow_nice (R : List CardRec) (h : ∀ r ∈ R, RecOK r = true) :
    ∀ r ∈ R, midRow R r = niceRow r := by
  intro r hr
  have e0 : mkCell (inferKind (rawColumn (save_data R) 0))
      (normCell (serStrOpt r.bank)) = optStrCell (serStrOpt r.bank) := by
    rw [rawColumn_save R 0 (fun r2 => serStrOpt r2.bank) (fun r2 => rfl)]
    exact kind_optStr_cells R (fun r2 => serStrOpt r2.bank)
      (fun r2 hr2 => optStrOK_ser (RecOK_fields (h r2 hr2)).1) r hr
  have e1 : mkCell (inferKind (rawColumn (save_data R) 1))
      (normCell (serStrOpt r.cardName)) = optStrCell (serStrOpt r.cardName) := by
    rw [rawColumn_save R 1 (fun r2 => serStrOpt r2.cardName) (fun r2 => rfl)]
    exact kind_optStr_cells R (fun r2 => serStrOpt r2.cardName)
      (fun r2 hr2 => optStrOK_ser (RecOK_fields (h r2 hr2)).2.1) r hr
  have e2 : mkCell (inferKind (rawColumn (save_data R) 2))
      (normCell (serMoneyOpt r.annualFee)) = optMoneyCell r.annualFee := by
    rw [rawColumn_save R 2 (fun r2 => serMoneyOpt r2.annualFee) (fun r2 => rfl)]
    exact kind_optMoney_cells R (fun r2 => r2.annualFee)
      (fun r2 hr2 => (RecOK_fields (h r2 hr2)).2.2.1) r hr
  have e3 : mkCell (inferKind (rawColumn (save_data R) 3))
      (normCell (serStrOpt r.cardExpiry)) = optStrCell (serStrOpt r.cardExpiry) := by
    rw [rawColumn_save R 3 (fun r2 => serStrOpt r2.cardExpiry) (fun r2 => rfl)]
    exact kind_optStr_cells R (fun r2 => serStrOpt r2.cardExpiry)
      (fun r2 hr2 => optStrOK_ser (RecOK_fields (h r2 hr2)).2.2.2.1) r hr
  have e4 : mkCell (inferKind (rawColumn (save_data R) 4))
      (normCell (serStrOpt r.feeMonth)) = optStrCell (serStrOpt r.feeMonth) := by
    rw [rawColumn_save R 4 (fun r2 => serStrOpt r2.feeMonth) (fun r2 => rfl)]
    exact kind_optStr_cells R (fun r2 => serStrOpt r2.feeMonth)
      (fun r2 hr2 => optStrOK_ser (RecOK_fields (h r2 hr2)).2.2.2.2.1) r hr
  have e5 : mkCell (inferKind (rawColumn (save_data R) 5))
      (normCell (serDateOpt r.dateApplied)) = optStrCell (serDateOpt r.dateApplied) := by
    rw [rawColumn_save R 5 (fun r2 => serDateOpt r2.dateApplied) (fun r2 => rfl)]
    exact kind_optStr_cells R (fun r2 => serDateOpt r2.dateApplied)
      (fun r2 hr2 => serDateOpt_optStrOK _) r hr
  have e6 : mkCell (inferKind (rawColumn (save_data R) 6))
      (normCell (serDateOpt r.dateApproved)) = optStrCell (serDateOpt r.dateApproved) := by
    rw [rawColumn_save R 6 (fun r2 => serDateOpt r2.dateApproved) (fun r2 => rfl)]
    exact kind_optStr_cells R (fun r2 => serDateOpt r2.dateApproved)
      (fun r2 hr2 => serDateOpt_optStrOK _) r hr
  have e7 : mkCell (inferKind (rawColumn (save_data R) 7))
      (normCell (serDateOpt r.dateReceived)) = optStrCell (serDateOpt r.dateReceived) := by
    rw [rawColumn_save R 7 (fun r2 => serDateOpt r2.dateReceived) (fun r2 => rfl)]
    exact kind_optStr_cells R (fun r2 => serDateOpt r2.dateReceived)
      (fun r2 hr2 => serDateOpt_optStrOK _) r hr
  have e8 : mkCell (inferKind (rawColumn (save_data R) 8))
      (normCell (serDateOpt r.dateActivated)) = optStrCell (serDateOpt r.dateActivated) := by
    rw [rawColumn_save R 8 (fun r2 => serDateOpt r2.dateActivated) (fun r2 => rfl)]
    exact kind_optStr_cells R (fun r2 => serDateOpt r2.dateActivated)
      (fun r2 hr2 => serDateOpt_optStrOK _) r hr
  have e9 : mkCell (inferKind (rawColumn (save_data R) 9))
      (normCell (serDateOpt r.firstCharge)) = optStrCell (serDateOpt r.firstCharge) := by
    rw [rawColumn_save R 9 (fun r2 => serDateOpt r2.firstCharge) (fun r2 => rfl)]
    exact kind_optStr_cells R (fun r2 => serDateOpt r2.firstCharge)
      (fun r2 hr2 => serDateOpt_optStrOK _) r hr
  have e10 : mkCell (inferKind (rawColumn (save_data R) 10))
      (normCell (serStrOpt r.imageFilename)) = optStrCell (serStrOpt r.imageFilename) := by
    rw [rawColumn_save R 10 (fun r2 => serStrOpt r2.imageFilename) (fun r2 => rfl)]
    exact kind_optStr_cells R (fun r2 => serStrOpt r2.imageFilename)
      (fun r2 hr2 => optStrOK_ser (RecOK_fields (h r2 hr2)).2.2.2.2.2.2.2.2.2.2.1) r hr
  have e11 : mkCell (inferKind (rawColumn (save_data R) 11))
      (normCell (some (intStr r.sortOrder))) = PVal.int r.sortOrder := by
    rw [rawColumn_save R 11 (fun r2 => some (intStr r2.sortOrder)) (fun r2 => rfl)]
    exact kind_int_cells R (fun r2 => r2.sortOrder) r hr
  have e12 : mkCell (inferKind (rawColumn (save_data R) 12))
      (normCell (serStr r.notes)) = optStrCell (serStr r.notes) := by
    rw [rawColumn_save R 12 (fun r2 => serStr r2.notes) (fun r2 => rfl)]
    exact kind_optStr_cells R (fun r2 => serStr r2.notes)
      (fun r2 hr2 => strFieldOK_ser (RecOK_fields (h r2 hr2)).2.2.2.2.2.2.2.2.2.2.2.1) r hr
  have e13 : mkCell (inferKind (rawColumn (save_data R) 13))
      (normCell (serDateOpt r.cancellationDate)) = optStrCell (serDateOpt r.cancellationDate) := by
    rw [rawColumn_save R 13 (fun r2 => serDateOpt r2.cancellationDate) (fun r2 => rfl)]
    exact kind_optStr_cells R (fun r2 => serDateOpt r2.cancellationDate)
      (fun r2 hr2 => serDateOpt_optStrOK _) r hr
  have e14 : mkCell (inferKind (rawColumn (save_data R) 14))
      (normCell (serDateOpt r.reapplyDate)) = optStrCell (serDateOpt r.reapplyDate) := by
    rw [rawColumn_save R 14 (fun r2 => serDateOpt r2.reapplyDate) (fun r2 => rfl)]
    exact kind_optStr_cells R (fun r2 => serDateOpt r2.reapplyDate)
      (fun r2 hr2 => serDateOpt_optStrOK _) r hr
  have e15 : mkCell (inferKind (rawColumn (save_data R) 15))
      (normCell (serStr r.tags)) = optStrCell (serStr r.tags) := by
    rw [rawColumn_save R 15 (fun r2 => serStr r2.tags) (fun r2 => rfl)]
    exact kind_optStr_cells R (fun r2 => serStr r2.tags)
      (fun r2 hr2 => strFieldOK_ser (RecOK_fields (h r2 hr2)).2.2.2.2.2.2.2.2.2.2.2.2.2.2.1) r hr
  have e16 : mkCell (inferKind (rawColumn (save_data R) 16))
      (normCell (serStr r.bonusOffer)) = optStrCell (serStr r.bonusOffer) := by
    rw [rawColumn_save R 16 (fun r2 => serStr r2.bonusOffer) (fun r2 => rfl)]
    exact kind_optStr_cells R (fun r2 => serStr r2.bonusOffer)
      (fun r2 hr2 => strFieldOK_ser (RecOK_fields (h r2 hr2)).2.2.2.2.2.2.2.2.2.2.2.2.2.2.2.1) r hr
  have e17 : mkCell (inferKind (rawColumn (save_data R) 17))
      (normCell (some (floatRepr r.minSpend))) = PVal.flt r.minSpend := by
    rw [rawColumn_save R 17 (fun r2 => some (floatRepr r2.minSpend)) (fun r2 => rfl)]
    exact kind_money_cells R (fun r2 => r2.minSpend)
      (fun r2 hr2 => (RecOK_fields (h r2 hr2)).2.2.2.2.2.2.2.2.2.2.2.2.2.2.2.2.1) r hr
  have e18 : mkCell (inferKind (rawColumn (save_data R) 18))
      (normCell (serDateOpt r.minSpendDeadline)) = optStrCell (serDateOpt r.minSpendDeadline) := by
    rw [rawColumn_save R 18 (fun r2 => serDateOpt r2.minSpendDeadline) (fun r2 => rfl)]
    exact kind_optStr_cells R (fun r2 => serDateOpt r2.minSpendDeadline)
      (fun r2 hr2 => serDateOpt_optStrOK _) r hr
  have e19 : mkCell (inferKind (rawColumn (save_data R) 19))
      (normCell (serStr r.bonusStatus)) = optStrCell (serStr r.bonusStatus) := by
    rw [rawColumn_save R 19 (fun r2 => serStr r2.bonusStatus) (fun r2 => rfl)]
    exact kind_optStr_cells R (fun r2 => serStr r2.bonusStatus)
      (fun r2 hr2 => strFieldOK_ser (RecOK_fields (h r2 hr2)).2.2.2.2.2.2.2.2.2.2.2.2.2.2.2.2.2.2.1) r hr
  have e20 : mkCell (inferKind (rawColumn (save_data R) 20))
      (normCell (serStr r.last4)) = optStrCell (serStr r.last4) := by
    rw [rawColumn_save R 20 (fun r2 => serStr r2.last4) (fun r2 => rfl)]
    exact kind_optStr_cells R (fun r2 => serStr r2.last4)
      (fun r2 hr2 => last4OK_strOK (RecOK_fields (h r2 hr2)).2.2.2.2.2.2.2.2.2.2.2.2.2.2.2.2.2.2.2.1) r hr
  have e21 : mkCell (inferKind (rawColumn (save_data R) 21))
      (normCell (some (floatRepr r.currentSpend))) = PVal.flt r.currentSpend := by
    rw [rawColumn_save R 21 (fun r2 => some (floatRepr r2.currentSpend)) (fun r2 => rfl)]
    exact kind_money_cells R (fun r2 => r2.currentSpend)
      (fun r2 hr2 => (RecOK_fields (h r2 hr2)).2.2.2.2.2.2.2.2.2.2.2.2.2.2.2.2.2.2.2.2.1) r hr
  have e22 : mkCell (inferKind (rawColumn (save_data R) 22))
      (normCell (some (intStr r.feeWaivedCount))) = PVal.int r.feeWaivedCount := by
    rw [rawColumn_save R 22 (fun r2 => some (intStr r2.feeWaivedCount)) (fun r2 => rfl)]
    exact kind_int_cells R (fun r2 => r2.feeWaivedCount) r hr
  have e23 : mkCell (inferKind (rawColumn (save_data R) 23))
      (normCell (some (intStr r.feePaidCount))) = PVal.int r.feePaidCount := by
    rw [rawColumn_save R 23 (fun r2 => some (intStr r2.feePaidCount)) (fun r2 => rfl)]
    exact kind_int_cells R (fun r2 => r2.feePaidCount) r hr
  have e24 : mkCell (inferKind (rawColumn (save_data R) 24))
      (normCell (some (intStr r.lastFeeActionYear))) = PVal.int r.lastFeeActionYear := by
    rw [rawColumn_save R 24 (fun r2 => some (intStr r2.lastFeeActionYear)) (fun r2 => rfl)]
    exact kind_int_cells R (fun r2 => r2.lastFeeActionYear) r hr
  have e25 : mkCell (inferKind (rawColumn (save_data R) 25))
      (normCell (serStr r.lastFeeAction)) = optStrCell (serStr r.lastFeeAction) := by
    rw [rawColumn_save R 25 (fun r2 => serStr r2.lastFeeAction) (fun r2 => rfl)]
    exact kind_optStr_cells R (fun r2 => serStr r2.lastFeeAction)
      (fun r2 hr2 => strFieldOK_ser (RecOK_fields (h r2 hr2)).2.2.2.2.2.2.2.2.2.2.2.2.2.2.2.2.2.2.2.2.2) r hr
  unfold midRow niceRow
  rw [e0, e1, e2, e3, e4, e5, e6, e7, e8, e9, e10, e11, e12, e13, e14, e15, e16, e17, e18, e19, e20, e21, e22, e23, e24, e25]

theorem serStrOpt_id {x : Option String} (h : optStrOK x = true) :
    serStrOpt x = x := by
  cases x with
  | none => rfl
  | some s =>
    unfold serStrOpt
    dsimp only
    rw [if_neg]
    intro hs
    rw [hs] at h
    have : safeStr "" = false := rfl
    rw [show optStrOK (some "") = safeStr "" from rfl, this] at h
    exact Bool.false_ne_true h

theorem strFill_ser (s : String) :
    strFillCell (optStrCell (serStr s)) = PVal.str s := by
  unfold serStr
  by_cases h : s = ""
  · rw [if_pos h, h]
    rfl
  · rw [if_neg h]
    rfl

theorem strip_ser {s : String} (h : last4OK s = true) :
    stripCell (strFillCell (optStrCell (serStr s))) = PVal.str s := by
  rw [strFill_ser]
  show PVal.str (stripDotZero s) = PVal.str s
  congr 1
  unfold last4OK at h
  rw [Bool.or_eq_true] at h
  rcases h with h | h
  · have hs : s = "" := by simpa using h
    subst hs
    decide
  · rw [Bool.and_eq_true] at h
    simpa using h.2

theorem toDT_ser {x : Option Date} (h : optDateOK x = true) :
    toDatetimeCell (optStrCell (serDateOpt x)) = dateCell x := by
  cases x with
  | none => rfl
  | some d =>
    show toDatetimeCell (PVal.str (isoStr d)) = PVal.date d
    unfold toDatetimeCell
    dsimp only
    rw [parseDate_isoStr h]

theorem sortOrder_int_cell (z : ℤ) :
    sortOrderCell (PVal.int z) = PVal.int z := rfl

theorem counter_int_cell (z : ℤ) :
    counterCell (PVal.int z) = PVal.int z := rfl

theorem money_flt_cell (q : ℚ) :
    moneyCell (PVal.flt q) = PVal.flt q := rfl

set_option maxHeartbeats 1000000 in
theorem rowCoerce_nice (r : CardRec) (h : RecOK r = true) :
    rowCoerce (niceRow r) = finalRow r := by
  have hf := RecOK_fields h
  show [optStrCell (serStrOpt r.bank),
    optStrCell (serStrOpt r.cardName),
    optMoneyCell r.annualFee,
    optStrCell (serStrOpt r.cardExpiry),
    optStrCell (serStrOpt r.feeMonth),
    toDatetimeCell (optStrCell (serDateOpt r.dateApplied)),
    toDatetimeCell (optStrCell (serDateOpt r.dateApproved)),
    toDatetimeCell (optStrCell (serDateOpt r.dateReceived)),
    toDatetimeCell (optStrCell (serDateOpt r.dateActivated)),
    toDatetimeCell (optStrCell (serDateOpt r.firstCharge)),
    optStrCell (serStrOpt r.imageFilename),
    sortOrderCell (PVal.int r.sortOrder),
    strFillCell (optStrCell (serStr r.notes)),
    toDatetimeCell (optStrCell (serDateOpt r.cancellationDate)),
    toDatetimeCell (optStrCell (serDateOpt r.reapplyDate)),
    strFillCell (optStrCell (serStr r.tags)),
    strFillCell (optStrCell (serStr r.bonusOffer)),
    moneyCell (PVal.flt r.minSpend),
    toDatetimeCell (optStrCell (serDateOpt r.minSpendDeadline)),
    strFillCell (optStrCell (serStr r.bonusStatus)),
    stripCell (strFillCell (optStrCell (serStr r.last4))),
    moneyCell (PVal.flt r.currentSpend),
    counterCell (PVal.int r.feeWaivedCount),
    counterCell (PVal.int r.feePaidCount),
    counterCell (PVal.int r.lastFeeActionYear),
    strFillCell (optStrCell (serStr r.lastFeeAction))] = finalRow r
  rw [toDT_ser hf.2.2.2.2.2.1,
    toDT_ser hf.2.2.2.2.2.2.1,
    toDT_ser hf.2.2.2.2.2.2.2.1,
    toDT_ser hf.2.2.2.2.2.2.2.2.1,
    toDT_ser hf.2.2.2.2.2.2.2.2.2.1,
    toDT_ser hf.2.2.2.2.2.2.2.2.2.2.2.2.1,
    toDT_ser hf.2.2.2.2.2.2.2.2.2.2.2.2.2.1,
    toDT_ser hf.2.2.2.2.2.2.2.2.2.2.2.2.2.2.2.2.2.1,
    strip_ser hf.2.2.2.2.2.2.2.2.2.2.2.2.2.2.2.2.2.2.2.1]
  simp only [sortOrder_int_cell, counter_int_cell, money_flt_cell,
    strFill_ser]
  rw [serStrOpt_id hf.1, serStrOpt_id hf.2.1, serStrOpt_id hf.2.2.2.1,
    serStrOpt_id hf.2.2.2.2.1, serStrOpt_id hf.2.2.2.2.2.2.2.2.2.2.1]
  rfl

theorem mapM_id_ok {α : Type} (f : α → Except LoadErr α) :
    ∀ l : List α, (∀ x ∈ l, f x = .ok x) → l.mapM f = .ok l := by
  intro l
  induction l with
  | nil => intro _; rfl
  | cons a t ih =>
    intro h
    rw [List.mapM_cons, h a (List.mem_cons_self _ _), ok_bind,
      ih (fun x hx => h x (List.mem_cons_of_mem _ hx)), ok_bind]
    rfl

theorem mapM_map_some {α β : Type} (g : β → Option α) (F : α → β) :
    ∀ l : List α, (∀ x ∈ l, g (F x) = some x) → (l.map F).mapM g = some l := by
  intro l
  induction l with
  | nil => intro _; rfl
  | cons a t ih =>
    intro h
    rw [List.map_cons, List.mapM_cons, h a (List.mem_cons_self _ _)]
    rw [ih (fun x hx => h x (List.mem_cons_of_mem _ hx))]
    rfl

theorem astypeRow_final (r : CardRec) :
    astypeRow ALL_COLUMNS (finalRow r) = .ok (finalRow r) := by
  have a0 : ∀ v, astypeConv ("Bank", v) = .ok v := fun v => rfl
  have a1 : ∀ v, astypeConv ("Card Name", v) = .ok v := fun v => rfl
  have a2 : ∀ x : Option ℚ, astypeConv ("Annual Fee", optMoneyCell x) =
      .ok (optMoneyCell x) := fun x => by cases x <;> rfl
  have a3 : ∀ v, astypeConv ("Card Expiry (MM/YY)", v) = .ok v := fun v => rfl
  have a4 : ∀ v, astypeConv ("Month of Annual Fee", v) = .ok v := fun v => rfl
  have a5 : ∀ x : Option Date, astypeConv ("Date Applied", dateCell x) =
      .ok (dateCell x) := fun x => by cases x <;> rfl
  have a6 : ∀ x : Option Date, astypeConv ("Date Approved", dateCell x) =
      .ok (dateCell x) := fun x => by cases x <;> rfl
  have a7 : ∀ x : Option Date, astypeConv ("Date Received Card", dateCell x) =
      .ok (dateCell x) := fun x => by cases x <;> rfl
  have a8 : ∀ x : Option Date, astypeConv ("Date Activated Card", dateCell x) =
      .ok (dateCell x) := fun x => by cases x <;> rfl
  have a9 : ∀ x : Option Date, astypeConv ("First Charge Date", dateCell x) =
      .ok (dateCell x) := fun x => by cases x <;> rfl
  have a10 : ∀ v, astypeConv ("Image Filename", v) = .ok v := fun v => rfl
  have a11 : ∀ z : ℤ, astypeConv ("Sort Order", PVal.int z) =
      .ok (PVal.int z) := fun z => rfl
  have a12 : ∀ v, astypeConv ("Notes", v) = .ok v := fun v => rfl
  have a13 : ∀ x : Option Date, astypeConv ("Cancellation Date", dateCell x) =
      .ok (dateCell x) := fun x => by cases x <;> rfl
  have a14 : ∀ x : Option Date, astypeConv ("Re-apply Date", dateCell x) =
      .ok (dateCell x) := fun x => by cases x <;> rfl
  have a15 : ∀ v, astypeConv ("Tags", v) = .ok v := fun v => rfl
  have a16 : ∀ v, astypeConv ("Bonus Offer", v) = .ok v := fun v => rfl
  have a17 : ∀ q : ℚ, astypeConv ("Min Spend", PVal.flt q) =
      .ok (PVal.flt q) := fun q => rfl
  have a18 : ∀ x : Option Date, astypeConv ("Min Spend Deadline", dateCell x) =
      .ok (dateCell x) := fun x => by cases x <;> rfl
  have a19 : ∀ v, astypeConv ("Bonus Status", v) = .ok v := fun v => rfl
  have a20 : ∀ v, astypeConv ("Last 4 Digits", v) = .ok v := fun v => rfl
  have a21 : ∀ q : ℚ, astypeConv ("Current Spend", PVal.flt q) =
      .ok (PVal.flt q) := fun q => rfl
  have a22 : ∀ z : ℤ, astypeConv ("FeeWaivedCount", PVal.int z) =
      .ok (PVal.int z) := fun z => rfl
  have a23 : ∀ z : ℤ, astypeConv ("FeePaidCount", PVal.int z) =
      .ok (PVal.int z) := fun z => rfl
  have a24 : ∀ z : ℤ, astypeConv ("LastFeeActionYear", PVal.int z) =
      .ok (PVal.int z) := fun z => rfl
  have a25 : ∀ v, astypeConv ("LastFeeAction", v) = .ok v := fun v => rfl
  unfold astypeRow finalRow
  simp only [List.zip, List.zipWith, List.mapM_cons, List.mapM_nil,
    a0, a1, a2, a3, a4, a5, a6, a7, a8, a9, a10, a11, a12, a13, a14, a15, a16, a17, a18, a19, a20, a21, a22, a23, a24, a25, ok_bind]
  rfl

theorem astypeAll_final (rows : List (List PVal))
    (hok : ∀ row ∈ rows, astypeRow ALL_COLUMNS row = .ok row) :
    astypeAll ⟨ALL_COLUMNS, rows⟩ = .ok ⟨ALL_COLUMNS, rows⟩ := by
  unfold astypeAll
  dsimp only
  have hfind : COLUMN_DTYPES.find?
      (fun p => ¬ ALL_COLUMNS.contains p.1) = none := by
    rw [List.find?_eq_none]
    intro p hp
    fin_cases hp <;> decide
  rw [hfind, mapM_id_ok _ rows hok]
  rfl

theorem some_bind2 {α β : Type} (a : α) (f : α → Option β) :
    (some a >>= f) = f a := rfl

theorem rdOptStr (x : Option String) : asOptStr (optStrCell x) = some x := by
  cases x <;> rfl

theorem rdDate (x : Option Date) : asOptDate (dateCell x) = some x := by
  cases x <;> rfl

theorem rdOptMoney (x : Option ℚ) : asOptMoney (optMoneyCell x) = some x := by
  cases x <;> rfl

theorem rdStr (s : String) : asStr (PVal.str s) = some s := rfl

theorem rdMoney (q : ℚ) : asMoney (PVal.flt q) = some q := rfl

theorem rdInt (z : ℤ) : asInt (PVal.int z) = some z := rfl

theorem cAt0 (c0 c1 c2 c3 c4 c5 c6 c7 c8 c9 c10 c11 c12 c13 c14 c15 c16 c17 c18 c19 c20 c21 c22 c23 c24 c25 : PVal) :
    cellAt ALL_COLUMNS [c0, c1, c2, c3, c4, c5, c6, c7, c8, c9, c10, c11, c12, c13, c14, c15, c16, c17, c18, c19, c20, c21, c22, c23, c24, c25] "Bank" = c0 := rfl

theorem cAt1 (c0 c1 c2 c3 c4 c5 c6 c7 c8 c9 c10 c11 c12 c13 c14 c15 c16 c17 c18 c19 c20 c21 c22 c23 c24 c25 : PVal) :
    cellAt ALL_COLUMNS [c0, c1, c2, c3, c4, c5, c6, c7, c8, c9, c10, c11, c12, c13, c14, c15, c16, c17, c18, c19, c20, c21, c22, c23, c24, c25] "Card Name" = c1 := rfl

theorem cAt2 (c0 c1 c2 c3 c4 c5 c6 c7 c8 c9 c10 c11 c12 c13 c14 c15 c16 c17 c18 c19 c20 c21 c22 c23 c24 c25 : PVal) :
    cellAt ALL_COLUMNS [c0, c1, c2, c3, c4, c5, c6, c7, c8, c9, c10, c11, c12, c13, c14, c15, c16, c17, c18, c19, c20, c21, c22, c23, c24, c25] "Annual Fee" = c2 := rfl

theorem cAt3 (c0 c1 c2 c3 c4 c5 c6 c7 c8 c9 c10 c11 c12 c13 c14 c15 c16 c17 c18 c19 c20 c21 c22 c23 c24 c25 : PVal) :
    cellAt ALL_COLUMNS [c0, c1, c2, c3, c4, c5, c6, c7, c8, c9, c10, c11, c12, c13, c14, c15, c16, c17, c18, c19, c20, c21, c22, c23, c24, c25] "Card Expiry (MM/YY)" = c3 := rfl

theorem cAt4 (c0 c1 c2 c3 c4 c5 c6 c7 c8 c9 c10 c11 c12 c13 c14 c15 c16 c17 c18 c19 c20 c21 c22 c23 c24 c25 : PVal) :
    cellAt ALL_COLUMNS [c0, c1, c2, c3, c4, c5, c6, c7, c8, c9, c10, c11, c12, c13, c14, c15, c16, c17, c18, c19, c20, c21, c22, c23, c24, c25] "Month of Annual Fee" = c4 := rfl

theorem cAt5 (c0 c1 c2 c3 c4 c5 c6 c7 c8 c9 c10 c11 c12 c13 c14 c15 c16 c17 c18 c19 c20 c21 c22 c23 c24 c25 : PVal) :
    cellAt ALL_COLUMNS [c0, c1, c2, c3, c4, c5, c6, c7, c8, c9, c10, c11, c12, c13, c14, c15, c16, c17, c18, c19, c20, c21, c22, c23, c24, c25] "Date Applied" = c5 := rfl

theorem cAt6 (c0 c1 c2 c3 c4 c5 c6 c7 c8 c9 c10 c11 c12 c13 c14 c15 c16 c17 c18 c19 c20 c21 c22 c23 c24 c25 : PVal) :
    cellAt ALL_COLUMNS [c0, c1, c2, c3, c4, c5, c6, c7, c8, c9, c10, c11, c12, c13, c14, c15, c16, c17, c18, c19, c20, c21, c22, c23, c24, c25] "Date Approved" = c6 := rfl

theorem cAt7 (c0 c1 c2 c3 c4 c5 c6 c7 c8 c9 c10 c11 c12 c13 c14 c15 c16 c17 c18 c19 c20 c21 c22 c23 c24 c25 : PVal) :
    cellAt ALL_COLUMNS [c0, c1, c2, c3, c4, c5, c6, c7, c8, c9, c10, c11, c12, c13, c14, c15, c16, c17, c18, c19, c20, c21, c22, c23, c24, c25] "Date Received Card" = c7 := rfl

theorem cAt8 (c0 c1 c2 c3 c4 c5 c6 c7 c8 c9 c10 c11 c12 c13 c14 c15 c16 c17 c18 c19 c20 c21 c22 c23 c24 c25 : PVal) :
    cellAt ALL_COLUMNS [c0, c1, c2, c3, c4, c5, c6, c7, c8, c9, c10, c11, c12, c13, c14, c15, c16, c17, c18, c19, c20, c21, c22, c23, c24, c25] "Date Activated Card" = c8 := rfl

theorem cAt9 (c0 c1 c2 c3 c4 c5 c6 c7 c8 c9 c10 c11 c12 c13 c14 c15 c16 c17 c18 c19 c20 c21 c22 c23 c24 c25 : PVal) :
    cellAt ALL_COLUMNS [c0, c1, c2, c3, c4, c5, c6, c7, c8, c9, c10, c11, c12, c13, c14, c15, c16, c17, c18, c19, c20, c21, c22, c23, c24, c25] "First Charge Date" = c9 := rfl

theorem cAt10 (c0 c1 c2 c3 c4 c5 c6 c7 c8 c9 c10 c11 c12 c13 c14 c15 c16 c17 c18 c19 c20 c21 c22 c23 c24 c25 : PVal) :
    cellAt ALL_COLUMNS [c0, c1, c2, c3, c4, c5, c6, c7, c8, c9, c10, c11, c12, c13, c14, c15, c16, c17, c18, c19, c20, c21, c22, c23, c24, c25] "Image Filename" = c10 := rfl

theorem cAt11 (c0 c1 c2 c3 c4 c5 c6 c7 c8 c9 c10 c11 c12 c13 c14 c15 c16 c17 c18 c19 c20 c21 c22 c23 c24 c25 : PVal) :
    cellAt ALL_COLUMNS [c0, c1, c2, c3, c4, c5, c6, c7, c8, c9, c10, c11, c12, c13, c14, c15, c16, c17, c18, c19, c20, c21, c22, c23, c24, c25] "Sort Order" = c11 := rfl

theorem cAt12 (c0 c1 c2 c3 c4 c5 c6 c7 c8 c9 c10 c11 c12 c13 c14 c15 c16 c17 c18 c19 c20 c21 c22 c23 c24 c25 : PVal) :
    cellAt ALL_COLUMNS [c0, c1, c2, c3, c4, c5, c6, c7, c8, c9, c10, c11, c12, c13, c14, c15, c16, c17, c18, c19, c20, c21, c22, c23, c24, c25] "Notes" = c12 := rfl

theorem cAt13 (c0 c1 c2 c3 c4 c5 c6 c7 c8 c9 c10 c11 c12 c13 c14 c15 c16 c17 c18 c19 c20 c21 c22 c23 c24 c25 : PVal) :
    cellAt ALL_COLUMNS [c0, c1, c2, c3, c4, c5, c6, c7, c8, c9, c10, c11, c12, c13, c14, c15, c16, c17, c18, c19, c20, c21, c22, c23, c24, c25] "Cancellation Date" = c13 := rfl

theorem cAt14 (c0 c1 c2 c3 c4 c5 c6 c7 c8 c9 c10 c11 c12 c13 c14 c15 c16 c17 c18 c19 c20 c21 c22 c23 c24 c25 : PVal) :
    cellAt ALL_COLUMNS [c0, c1, c2, c3, c4, c5, c6, c7, c8, c9, c10, c11, c12, c13, c14, c15, c16, c17, c18, c19, c20, c21, c22, c23, c24, c25] "Re-apply Date" = c14 := rfl

theorem cAt15 (c0 c1 c2 c3 c4 c5 c6 c7 c8 c9 c10 c11 c12 c13 c14 c15 c16 c17 c18 c19 c20 c21 c22 c23 c24 c25 : PVal) :
    cellAt ALL_COLUMNS [c0, c1, c2, c3, c4, c5, c6, c7, c8, c9, c10, c11, c12, c13, c14, c15, c16, c17, c18, c19, c20, c21, c22, c23, c24, c25] "Tags" = c15 := rfl

theorem cAt16 (c0 c1 c2 c3 c4 c5 c6 c7 c8 c9 c10 c11 c12 c13 c14 c15 c16 c17 c18 c19 c20 c21 c22 c23 c24 c25 : PVal) :
    cellAt ALL_COLUMNS [c0, c1, c2, c3, c4, c5, c6, c7, c8, c9, c10, c11, c12, c13, c14, c15, c16, c17, c18, c19, c20, c21, c22, c23, c24, c25] "Bonus Offer" = c16 := rfl

theorem cAt17 (c0 c1 c2 c3 c4 c5 c6 c7 c8 c9 c10 c11 c12 c13 c14 c15 c16 c17 c18 c19 c20 c21 c22 c23 c24 c25 : PVal) :
    cellAt ALL_COLUMNS [c0, c1, c2, c3, c4, c5, c6, c7, c8, c9, c10, c11, c12, c13, c14, c15, c16, c17, c18, c19, c20, c21, c22, c23, c24, c25] "Min Spend" = c17 := rfl

theorem cAt18 (c0 c1 c2 c3 c4 c5 c6 c7 c8 c9 c10 c11 c12 c13 c14 c15 c16 c17 c18 c19 c20 c21 c22 c23 c24 c25 : PVal) :
    cellAt ALL_COLUMNS [c0, c1, c2, c3, c4, c5, c6, c7, c8, c9, c10, c11, c12, c13, c14, c15, c16, c17, c18, c19, c20, c21, c22, c23, c24, c25] "Min Spend Deadline" = c18 := rfl

theorem cAt19 (c0 c1 c2 c3 c4 c5 c6 c7 c8 c9 c10 c11 c12 c13 c14 c15 c16 c17 c18 c19 c20 c21 c22 c23 c24 c25 : PVal) :
    cellAt ALL_COLUMNS [c0, c1, c2, c3, c4, c5, c6, c7, c8, c9, c10, c11, c12, c13, c14, c15, c16, c17, c18, c19, c20, c21, c22, c23, c24, c25] "Bonus Status" = c19 := rfl

theorem cAt20 (c0 c1 c2 c3 c4 c5 c6 c7 c8 c9 c10 c11 c12 c13 c14 c15 c16 c17 c18 c19 c20 c21 c22 c23 c24 c25 : PVal) :
    cellAt ALL_COLUMNS [c0, c1, c2, c3, c4, c5, c6, c7, c8, c9, c10, c11, c12, c13, c14, c15, c16, c17, c18, c19, c20, c21, c22, c23, c24, c25] "Last 4 Digits" = c20 := rfl

theorem cAt21 (c0 c1 c2 c3 c4 c5 c6 c7 c8 c9 c10 c11 c12 c13 c14 c15 c16 c17 c18 c19 c20 c21 c22 c23 c24 c25 : PVal) :
    cellAt ALL_COLUMNS [c0, c1, c2, c3, c4, c5, c6, c7, c8, c9, c10, c11, c12, c13, c14, c15, c16, c17, c18, c19, c20, c21, c22, c23, c24, c25] "Current Spend" = c21 := rfl

theorem cAt22 (c0 c1 c2 c3 c4 c5 c6 c7 c8 c9 c10 c11 c12 c13 c14 c15 c16 c17 c18 c19 c20 c21 c22 c23 c24 c25 : PVal) :
    cellAt ALL_COLUMNS [c0, c1, c2, c3, c4, c5, c6, c7, c8, c9, c10, c11, c12, c13, c14, c15, c16, c17, c18, c19, c20, c21, c22, c23, c24, c25] "FeeWaivedCount" = c22 := rfl

theorem cAt23 (c0 c1 c2 c3 c4 c5 c6 c7 c8 c9 c10 c11 c12 c13 c14 c15 c16 c17 c18 c19 c20 c21 c22 c23 c24 c25 : PVal) :
    cellAt ALL_COLUMNS [c0, c1, c2, c3, c4, c5, c6, c7, c8, c9, c10, c11, c12, c13, c14, c15, c16, c17, c18, c19, c20, c21, c22, c23, c24, c25] "FeePaidCount" = c23 := rfl

theorem cAt24 (c0 c1 c2 c3 c4 c5 c6 c7 c8 c9 c10 c11 c12 c13 c14 c15 c16 c17 c18 c19 c20 c21 c22 c23 c24 c25 : PVal) :
    cellAt ALL_COLUMNS [c0, c1, c2, c3, c4, c5, c6, c7, c8, c9, c10, c11, c12, c13, c14, c15, c16, c17, c18, c19, c20, c21, c22, c23, c24, c25] "LastFeeActionYear" = c24 := rfl

theorem cAt25 (c0 c1 c2 c3 c4 c5 c6 c7 c8 c9 c10 c11 c12 c13 c14 c15 c16 c17 c18 c19 c20 c21 c22 c23 c24 c25 : PVal) :
    cellAt ALL_COLUMNS [c0, c1, c2, c3, c4, c5, c6, c7, c8, c9, c10, c11, c12, c13, c14, c15, c16, c17, c18, c19, c20, c21, c22, c23, c24, c25] "LastFeeAction" = c25 := rfl

set_option maxHeartbeats 1000000 in
theorem buildRec_final (r : CardRec) :
    buildRec ALL_COLUMNS (finalRow r) = some r := by
  obtain ⟨x1, x2, x3, x4, x5, x6, x7, x8, x9, x10, x11, x12, x13, x14,
    x15, x16, x17, x18, x19, x20, x21, x22, x23, x24, x25, x26⟩ := r
  unfold buildRec fieldReaders finalRow
  simp only [List.foldlM_cons, List.foldlM_nil,
    cAt0, cAt1, cAt2, cAt3, cAt4, cAt5, cAt6, cAt7, cAt8, cAt9, cAt10, cAt11, cAt12, cAt13, cAt14, cAt15, cAt16, cAt17, cAt18, cAt19, cAt20, cAt21, cAt22, cAt23, cAt24, cAt25,
    rdOptStr, rdDate, rdOptMoney, rdStr, rdMoney, rdInt,
    Option.map_some', some_bind2]
  rfl

theorem exBad_mid :
    midRow [exBadRec] exBadRec = [optStrCell (serStrOpt exBadRec.bank),
      optStrCell (serStrOpt exBadRec.cardName),
      optMoneyCell exBadRec.annualFee,
      optStrCell (serStrOpt exBadRec.cardExpiry),
      optStrCell (serStrOpt exBadRec.feeMonth),
      optStrCell (serDateOpt exBadRec.dateApplied),
      optStrCell (serDateOpt exBadRec.dateApproved),
      optStrCell (serDateOpt exBadRec.dateReceived),
      optStrCell (serDateOpt exBadRec.dateActivated),
      optStrCell (serDateOpt exBadRec.firstCharge),
      optStrCell (serStrOpt exBadRec.imageFilename),
      PVal.int exBadRec.sortOrder,
      optStrCell (serStr exBadRec.notes),
      optStrCell (serDateOpt exBadRec.cancellationDate),
      optStrCell (serDateOpt exBadRec.reapplyDate),
      optStrCell (serStr exBadRec.tags),
      optStrCell (serStr exBadRec.bonusOffer),
      PVal.flt exBadRec.minSpend,
      optStrCell (serDateOpt exBadRec.minSpendDeadline),
      optStrCell (serStr exBadRec.bonusStatus),
      PVal.int 512,
      PVal.flt exBadRec.currentSpend,
      PVal.int exBadRec.feeWaivedCount,
      PVal.int exBadRec.feePaidCount,
      PVal.int exBadRec.lastFeeActionYear,
      optStrCell (serStr exBadRec.lastFeeAction)] := by
  have e0 : mkCell (inferKind (rawColumn (save_data [exBadRec]) 0))
      (normCell (serStrOpt exBadRec.bank)) = optStrCell (serStrOpt exBadRec.bank) := by
    rw [rawColumn_save [exBadRec] 0 (fun r2 => serStrOpt r2.bank)
      (fun r2 => rfl)]
    exact kind_optStr_cells [exBadRec] (fun r2 => serStrOpt r2.bank)
      (by decide) exBadRec (List.mem_cons_self _ _)
  have e1 : mkCell (inferKind (rawColumn (save_data [exBadRec]) 1))
      (normCell (serStrOpt exBadRec.cardName)) = optStrCell (serStrOpt exBadRec.cardName) := by
    rw [rawColumn_save [exBadRec] 1 (fun r2 => serStrOpt r2.cardName)
      (fun r2 => rfl)]
    exact kind_optStr_cells [exBadRec] (fun r2 => serStrOpt r2.cardName)
      (by decide) exBadRec (List.mem_cons_self _ _)
  have e2 : mkCell (inferKind (rawColumn (save_data [exBadRec]) 2))
      (normCell (serMoneyOpt exBadRec.annualFee)) = optMoneyCell exBadRec.annualFee := by
    rw [rawColumn_save [exBadRec] 2 (fun r2 => serMoneyOpt r2.annualFee)
      (fun r2 => rfl)]
    exact kind_optMoney_cells [exBadRec] (fun r2 => r2.annualFee)
      (by decide) exBadRec (List.mem_cons_self _ _)
  have e3 : mkCell (inferKind (rawColumn (save_data [exBadRec]) 3))
      (normCell (serStrOpt exBadRec.cardExpiry)) = optStrCell (serStrOpt exBadRec.cardExpiry) := by
    rw [rawColumn_save [exBadRec] 3 (fun r2 => serStrOpt r2.cardExpiry)
      (fun r2 => rfl)]
    exact kind_optStr_cells [exBadRec] (fun r2 => serStrOpt r2.cardExpiry)
      (by decide) exBadRec (List.mem_cons_self _ _)
  have e4 : mkCell (inferKind (rawColumn (save_data [exBadRec]) 4))
      (normCell (serStrOpt exBadRec.feeMonth)) = optStrCell (serStrOpt exBadRec.feeMonth) := by
    rw [rawColumn_save [exBadRec] 4 (fun r2 => serStrOpt r2.feeMonth)
      (fun r2 => rfl)]
    exact kind_optStr_cells [exBadRec] (fun r2 => serStrOpt r2.feeMonth)
      (by decide) exBadRec (List.mem_cons_self _ _)
  have e5 : mkCell (inferKind (rawColumn (save_data [exBadRec]) 5))
      (normCell (serDateOpt exBadRec.dateApplied)) = optStrCell (serDateOpt exBadRec.dateApplied) := by
    rw [rawColumn_save [exBadRec] 5 (fun r2 => serDateOpt r2.dateApplied)
      (fun r2 => rfl)]
    exact kind_optStr_cells [exBadRec] (fun r2 => serDateOpt r2.dateApplied)
      (fun r2 hr2 => serDateOpt_optStrOK _) exBadRec (List.mem_cons_self _ _)
  have e6 : mkCell (inferKind (rawColumn (save_data [exBadRec]) 6))
      (normCell (serDateOpt exBadRec.dateApproved)) = optStrCell (serDateOpt exBadRec.dateApproved) := by
    rw [rawColumn_save [exBadRec] 6 (fun r2 => serDateOpt r2.dateApproved)
      (fun r2 => rfl)]
    exact kind_optStr_cells [exBadRec] (fun r2 => serDateOpt r2.dateApproved)
      (fun r2 hr2 => serDateOpt_optStrOK _) exBadRec (List.mem_cons_self _ _)
  have e7 : mkCell (inferKind (rawColumn (save_data [exBadRec]) 7))
      (normCell (serDateOpt exBadRec.dateReceived)) = optStrCell (serDateOpt exBadRec.dateReceived) := by
    rw [rawColumn_save [exBadRec] 7 (fun r2 => serDateOpt r2.dateReceived)
      (fun r2 => rfl)]
    exact kind_optStr_cells [exBadRec] (fun r2 => serDateOpt r2.dateReceived)
      (fun r2 hr2 => serDateOpt_optStrOK _) exBadRec (List.mem_cons_self _ _)
  have e8 : mkCell (inferKind (rawColumn (save_data [exBadRec]) 8))
      (normCell (serDateOpt exBadRec.dateActivated)) = optStrCell (serDateOpt exBadRec.dateActivated) := by
    rw [rawColumn_save [exBadRec] 8 (fun r2 => serDateOpt r2.dateActivated)
      (fun r2 => rfl)]
    exact kind_optStr_cells [exBadRec] (fun r2 => serDateOpt r2.dateActivated)
      (fun r2 hr2 => serDateOpt_optStrOK _) exBadRec (List.mem_cons_self _ _)
  have e9 : mkCell (inferKind (rawColumn (save_data [exBadRec]) 9))
      (normCell (serDateOpt exBadRec.firstCharge)) = optStrCell (serDateOpt exBadRec.firstCharge) := by
    rw [rawColumn_save [exBadRec] 9 (fun r2 => serDateOpt r2.firstCharge)
      (fun r2 => rfl)]
    exact kind_optStr_cells [exBadRec] (fun r2 => serDateOpt r2.firstCharge)
      (fun r2 hr2 => serDateOpt_optStrOK _) exBadRec (List.mem_cons_self _ _)
  have e10 : mkCell (inferKind (rawColumn (save_data [exBadRec]) 10))
      (normCell (serStrOpt exBadRec.imageFilename)) = optStrCell (serStrOpt exBadRec.imageFilename) := by
    rw [rawColumn_save [exBadRec] 10 (fun r2 => serStrOpt r2.imageFilename)
      (fun r2 => rfl)]
    exact kind_optStr_cells [exBadRec] (fun r2 => serStrOpt r2.imageFilename)
      (by decide) exBadRec (List.mem_cons_self _ _)
  have e11 : mkCell (inferKind (rawColumn (save_data [exBadRec]) 11))
      (normCell (some (intStr exBadRec.sortOrder))) = PVal.int exBadRec.sortOrder := by
    rw [rawColumn_save [exBadRec] 11 (fun r2 => some (intStr r2.sortOrder))
      (fun r2 => rfl)]
    exact kind_int_cells [exBadRec] (fun r2 => r2.sortOrder)
      exBadRec (List.mem_cons_self _ _)
  have e12 : mkCell (inferKind (rawColumn (save_data [exBadRec]) 12))
      (normCell (serStr exBadRec.notes)) = optStrCell (serStr exBadRec.notes) := by
    rw [rawColumn_save [exBadRec] 12 (fun r2 => serStr r2.notes)
      (fun r2 => rfl)]
    exact kind_optStr_cells [exBadRec] (fun r2 => serStr r2.notes)
      (by decide) exBadRec (List.mem_cons_self _ _)
  have e13 : mkCell (inferKind (rawColumn (save_data [exBadRec]) 13))
      (normCell (serDateOpt exBadRec.cancellationDate)) = optStrCell (serDateOpt exBadRec.cancellationDate) := by
    rw [rawColumn_save [exBadRec] 13 (fun r2 => serDateOpt r2.cancellationDate)
      (fun r2 => rfl)]
    exact kind_optStr_cells [exBadRec] (fun r2 => serDateOpt r2.cancellationDate)
      (fun r2 hr2 => serDateOpt_optStrOK _) exBadRec (List.mem_cons_self _ _)
  have e14 : mkCell (inferKind (rawColumn (save_data [exBadRec]) 14))
      (normCell (serDateOpt exBadRec.reapplyDate)) = optStrCell (serDateOpt exBadRec.reapplyDate) := by
    rw [rawColumn_save [exBadRec] 14 (fun r2 => serDateOpt r2.reapplyDate)
      (fun r2 => rfl)]
    exact kind_optStr_cells [exBadRec] (fun r2 => serDateOpt r2.reapplyDate)
      (fun r2 hr2 => serDateOpt_optStrOK _) exBadRec (List.mem_cons_self _ _)
  have e15 : mkCell (inferKind (rawColumn (save_data [exBadRec]) 15))
      (normCell (serStr exBadRec.tags)) = optStrCell (serStr exBadRec.tags) := by
    rw [rawColumn_save [exBadRec] 15 (fun r2 => serStr r2.tags)
      (fun r2 => rfl)]
    exact kind_optStr_cells [exBadRec] (fun r2 => serStr r2.tags)
      (by decide) exBadRec (List.mem_cons_self _ _)
  have e16 : mkCell (inferKind (rawColumn (save_data [exBadRec]) 16))
      (normCell (serStr exBadRec.bonusOffer)) = optStrCell (serStr exBadRec.bonusOffer) := by
    rw [rawColumn_save [exBadRec] 16 (fun r2 => serStr r2.bonusOffer)
      (fun r2 => rfl)]
    exact kind_optStr_cells [exBadRec] (fun r2 => serStr r2.bonusOffer)
      (by decide) exBadRec (List.mem_cons_self _ _)
  have e17 : mkCell (inferKind (rawColumn (save_data [exBadRec]) 17))
      (normCell (some (floatRepr exBadRec.minSpend))) = PVal.flt exBadRec.minSpend := by
    rw [rawColumn_save [exBadRec] 17 (fun r2 => some (floatRepr r2.minSpend))
      (fun r2 => rfl)]
    exact kind_money_cells [exBadRec] (fun r2 => r2.minSpend)
      (by decide) exBadRec (List.mem_cons_self _ _)
  have e18 : mkCell (inferKind (rawColumn (save_data [exBadRec]) 18))
      (normCell (serDateOpt exBadRec.minSpendDeadline)) = optStrCell (serDateOpt exBadRec.minSpendDeadline) := by
    rw [rawColumn_save [exBadRec] 18 (fun r2 => serDateOpt r2.minSpendDeadline)
      (fun r2 => rfl)]
    exact kind_optStr_cells [exBadRec] (fun r2 => serDateOpt r2.minSpendDeadline)
      (fun r2 hr2 => serDateOpt_optStrOK _) exBadRec (List.mem_cons_self _ _)
  have e19 : mkCell (inferKind (rawColumn (save_data [exBadRec]) 19))
      (normCell (serStr exBadRec.bonusStatus)) = optStrCell (serStr exBadRec.bonusStatus) := by
    rw [rawColumn_save [exBadRec] 19 (fun r2 => serStr r2.bonusStatus)
      (fun r2 => rfl)]
    exact kind_optStr_cells [exBadRec] (fun r2 => serStr r2.bonusStatus)
      (by decide) exBadRec (List.mem_cons_self _ _)
  have hraw20 : rawColumn (save_data [exBadRec]) 20 = [some "0512"] := by
    rw [rawColumn_save [exBadRec] 20 (fun r2 => serStr r2.last4)
      (fun r2 => rfl)]
    rfl
  have e20 : mkCell (inferKind (rawColumn (save_data [exBadRec]) 20))
      (normCell (serStr exBadRec.last4)) = PVal.int 512 := by
    rw [hraw20]
    rfl
  have e21 : mkCell (inferKind (rawColumn (save_data [exBadRec]) 21))
      (normCell (some (floatRepr exBadRec.currentSpend))) = PVal.flt exBadRec.currentSpend := by
    rw [rawColumn_save [exBadRec] 21 (fun r2 => some (floatRepr r2.currentSpend))
      (fun r2 => rfl)]
    exact kind_money_cells [exBadRec] (fun r2 => r2.currentSpend)
      (by decide) exBadRec (List.mem_cons_self _ _)
  have e22 : mkCell (inferKind (rawColumn (save_data [exBadRec]) 22))
      (normCell (some (intStr exBadRec.feeWaivedCount))) = PVal.int exBadRec.feeWaivedCount := by
    rw [rawColumn_save [exBadRec] 22 (fun r2 => some (intStr r2.feeWaivedCount))
      (fun r2 => rfl)]
    exact kind_int_cells [exBadRec] (fun r2 => r2.feeWaivedCount)
      exBadRec (List.mem_cons_self _ _)
  have e23 : mkCell (inferKind (rawColumn (save_data [exBadRec]) 23))
      (normCell (some (intStr exBadRec.feePaidCount))) = PVal.int exBadRec.feePaidCount := by
    rw [rawColumn_save [exBadRec] 23 (fun r2 => some (intStr r2.feePaidCount))
      (fun r2 => rfl)]
    exact kind_int_cells [exBadRec] (fun r2 => r2.feePaidCount)
      exBadRec (List.mem_cons_self _ _)
  have e24 : mkCell (inferKind (rawColumn (save_data [exBadRec]) 24))
      (normCell (some (intStr exBadRec.lastFeeActionYear))) = PVal.int exBadRec.lastFeeActionYear := by
    rw [rawColumn_save [exBadRec] 24 (fun r2 => some (intStr r2.lastFeeActionYear))
      (fun r2 => rfl)]
    exact kind_int_cells [exBadRec] (fun r2 => r2.lastFeeActionYear)
      exBadRec (List.mem_cons_self _ _)
  have e25 : mkCell (inferKind (rawColumn (save_data [exBadRec]) 25))
      (normCell (serStr exBadRec.lastFeeAction)) = optStrCell (serStr exBadRec.lastFeeAction) := by
    rw [rawColumn_save [exBadRec] 25 (fun r2 => serStr r2.lastFeeAction)
      (fun r2 => rfl)]
    exact kind_optStr_cells [exBadRec] (fun r2 => serStr r2.lastFeeAction)
      (by decide) exBadRec (List.mem_cons_self _ _)
  unfold midRow
  rw [e0, e1, e2, e3, e4, e5, e6, e7, e8, e9, e10, e11, e12, e13, e14, e15, e16, e17, e18, e19, e20, e21, e22, e23, e24, e25]

theorem exBad_coerce :
    rowCoerce [optStrCell (serStrOpt exBadRec.bank),
      optStrCell (serStrOpt exBadRec.cardName),
      optMoneyCell exBadRec.annualFee,
      optStrCell (serStrOpt exBadRec.cardExpiry),
      optStrCell (serStrOpt exBadRec.feeMonth),
      optStrCell (serDateOpt exBadRec.dateApplied),
      optStrCell (serDateOpt exBadRec.dateApproved),
      optStrCell (serDateOpt exBadRec.dateReceived),
      optStrCell (serDateOpt exBadRec.dateActivated),
      optStrCell (serDateOpt exBadRec.firstCharge),
      optStrCell (serStrOpt exBadRec.imageFilename),
      PVal.int exBadRec.sortOrder,
      optStrCell (serStr exBadRec.notes),
      optStrCell (serDateOpt exBadRec.cancellationDate),
      optStrCell (serDateOpt exBadRec.reapplyDate),
      optStrCell (serStr exBadRec.tags),
      optStrCell (serStr exBadRec.bonusOffer),
      PVal.flt exBadRec.minSpend,
      optStrCell (serDateOpt exBadRec.minSpendDeadline),
      optStrCell (serStr exBadRec.bonusStatus),
      PVal.int 512,
      PVal.flt exBadRec.currentSpend,
      PVal.int exBadRec.feeWaivedCount,
      PVal.int exBadRec.feePaidCount,
      PVal.int exBadRec.lastFeeActionYear,
      optStrCell (serStr exBadRec.lastFeeAction)] =
      finalRow exFixedRec := by
  show [optStrCell (serStrOpt exBadRec.bank),
      optStrCell (serStrOpt exBadRec.cardName),
      optMoneyCell exBadRec.annualFee,
      optStrCell (serStrOpt exBadRec.cardExpiry),
      optStrCell (serStrOpt exBadRec.feeMonth),
      toDatetimeCell (optStrCell (serDateOpt exBadRec.dateApplied)),
      toDatetimeCell (optStrCell (serDateOpt exBadRec.dateApproved)),
      toDatetimeCell (optStrCell (serDateOpt exBadRec.dateReceived)),
      toDatetimeCell (optStrCell (serDateOpt exBadRec.dateActivated)),
      toDatetimeCell (optStrCell (serDateOpt exBadRec.firstCharge)),
      optStrCell (serStrOpt exBadRec.imageFilename),
      sortOrderCell (PVal.int exBadRec.sortOrder),
      strFillCell (optStrCell (serStr exBadRec.notes)),
      toDatetimeCell (optStrCell (serDateOpt exBadRec.cancellationDate)),
      toDatetimeCell (optStrCell (serDateOpt exBadRec.reapplyDate)),
      strFillCell (optStrCell (serStr exBadRec.tags)),
      strFillCell (optStrCell (serStr exBadRec.bonusOffer)),
      moneyCell (PVal.flt exBadRec.minSpend),
      toDatetimeCell (optStrCell (serDateOpt exBadRec.minSpendDeadline)),
      strFillCell (optStrCell (serStr exBadRec.bonusStatus)),
      stripCell (strFillCell (PVal.int 512)),
      moneyCell (PVal.flt exBadRec.currentSpend),
      counterCell (PVal.int exBadRec.feeWaivedCount),
      counterCell (PVal.int exBadRec.feePaidCount),
      counterCell (PVal.int exBadRec.lastFeeActionYear),
      strFillCell (optStrCell (serStr exBadRec.lastFeeAction))] = finalRow exFixedRec
  rw [show stripCell (strFillCell (PVal.int 512)) = PVal.str "512" from by decide]
  rw [toDT_ser (show optDateOK exBadRec.dateApplied = true by decide)]
  rw [toDT_ser (show optDateOK exBadRec.dateApproved = true by decide)]
  rw [toDT_ser (show optDateOK exBadRec.dateReceived = true by decide)]
  rw [toDT_ser (show optDateOK exBadRec.dateActivated = true by decide)]
  rw [toDT_ser (show optDateOK exBadRec.firstCharge = true by decide)]
  rw [toDT_ser (show optDateOK exBadRec.cancellationDate = true by decide)]
  rw [toDT_ser (show optDateOK exBadRec.reapplyDate = true by decide)]
  rw [toDT_ser (show optDateOK exBadRec.minSpendDeadline = true by decide)]
  simp only [sortOrder_int_cell, counter_int_cell, money_flt_cell,
    strFill_ser]
  rw [serStrOpt_id (show optStrOK exBadRec.bank = true by decide)]
  rw [serStrOpt_id (show optStrOK exBadRec.cardName = true by decide)]
  rw [serStrOpt_id (show optStrOK exBadRec.cardExpiry = true by decide)]
  rw [serStrOpt_id (show optStrOK exBadRec.feeMonth = true by decide)]
  rw [serStrOpt_id (show optStrOK exBadRec.imageFilename = true by decide)]
  rfl

/-- C2 counterexample: a record whose Last 4 Digits is the digit string
0512 comes back from the round trip with last4 = 512: read_csv types the
column as integer and the leading zero is gone. -/
theorem c2_counterexample :
    load_save_roundtrip [exBadRec] = some [exFixedRec] ∧ exFixedRec ≠ exBadRec := by
  constructor
  · have hload : Main.load_data (.csv (save_data [exBadRec])) =
        .ok ⟨ALL_COLUMNS, [finalRow exFixedRec]⟩ := by
      show Main.load_csv (save_data [exBadRec]) = _
      unfold Main.load_csv
      rw [hasLongRow_save]
      simp only [Bool.false_eq_true, if_false]
      rw [readCsv_save, migrate_id]
      rw [show List.map (midRow [exBadRec]) [exBadRec] =
        [[optStrCell (serStrOpt exBadRec.bank), optStrCell (serStrOpt exBadRec.cardName), optMoneyCell exBadRec.annualFee, optStrCell (serStrOpt exBadRec.cardExpiry), optStrCell (serStrOpt exBadRec.feeMonth), optStrCell (serDateOpt exBadRec.dateApplied), optStrCell (serDateOpt exBadRec.dateApproved), optStrCell (serDateOpt exBadRec.dateReceived), optStrCell (serDateOpt exBadRec.dateActivated), optStrCell (serDateOpt exBadRec.firstCharge), optStrCell (serStrOpt exBadRec.imageFilename), PVal.int exBadRec.sortOrder, optStrCell (serStr exBadRec.notes), optStrCell (serDateOpt exBadRec.cancellationDate), optStrCell (serDateOpt exBadRec.reapplyDate), optStrCell (serStr exBadRec.tags), optStrCell (serStr exBadRec.bonusOffer), PVal.flt exBadRec.minSpend, optStrCell (serDateOpt exBadRec.minSpendDeadline), optStrCell (serStr exBadRec.bonusStatus), PVal.int 512, PVal.flt exBadRec.currentSpend, PVal.int exBadRec.feeWaivedCount, PVal.int exBadRec.feePaidCount, PVal.int exBadRec.lastFeeActionYear, optStrCell (serStr exBadRec.lastFeeAction)]] from by rw [List.map_cons, List.map_nil, exBad_mid]]
      rw [coercion_fold_save]
      rw [show List.map rowCoerce
        [[optStrCell (serStrOpt exBadRec.bank), optStrCell (serStrOpt exBadRec.cardName), optMoneyCell exBadRec.annualFee, optStrCell (serStrOpt exBadRec.cardExpiry), optStrCell (serStrOpt exBadRec.feeMonth), optStrCell (serDateOpt exBadRec.dateApplied), optStrCell (serDateOpt exBadRec.dateApproved), optStrCell (serDateOpt exBadRec.dateReceived), optStrCell (serDateOpt exBadRec.dateActivated), optStrCell (serDateOpt exBadRec.firstCharge), optStrCell (serStrOpt exBadRec.imageFilename), PVal.int exBadRec.sortOrder, optStrCell (serStr exBadRec.notes), optStrCell (serDateOpt exBadRec.cancellationDate), optStrCell (serDateOpt exBadRec.reapplyDate), optStrCell (serStr exBadRec.tags), optStrCell (serStr exBadRec.bonusOffer), PVal.flt exBadRec.minSpend, optStrCell (serDateOpt exBadRec.minSpendDeadline), optStrCell (serStr exBadRec.bonusStatus), PVal.int 512, PVal.flt exBadRec.currentSpend, PVal.int exBadRec.feeWaivedCount, PVal.int exBadRec.feePaidCount, PVal.int exBadRec.lastFeeActionYear, optStrCell (serStr exBadRec.lastFeeAction)]] =
        [finalRow exFixedRec] from by rw [List.map_cons, List.map_nil, exBad_coerce]]
      rw [ok_bind]
      apply astypeAll_final
      intro row hrow
      rw [List.mem_singleton] at hrow
      subst hrow
      exact astypeRow_final exFixedRec
    unfold load_save_roundtrip
    rw [hload]
    unfold toRecords
    dsimp only
    rw [show ([finalRow exFixedRec] : List (List PVal)) =
      List.map finalRow [exFixedRec] from rfl]
    exact mapM_map_some _ _ [exFixedRec] (fun r _ => buildRec_final r)
  · decide

/-- C2: save/load round-trip fidelity on the conforming class. For every
record set whose records lie in the RecOK class (safe strings, finite
decimal money, valid dates), writing the set with to_csv and loading it
back through the dashboard load_data yields exactly the same typed
records. -/
theorem c2_save_load_roundtrip (R : List CardRec)
    (h : ∀ r ∈ R, RecOK r = true) :
    load_save_roundtrip R = some R := by
  have hnice : R.map (midRow R) = R.map niceRow :=
    List.map_congr_left (midRow_nice R h)
  have hfin : (R.map niceRow).map rowCoerce = R.map finalRow := by
    rw [List.map_map]
    apply List.map_congr_left
    intro r hr
    exact rowCoerce_nice r (h r hr)
  have hload : Main.load_data (.csv (save_data R)) =
      .ok ⟨ALL_COLUMNS, R.map finalRow⟩ := by
    show Main.load_csv (save_data R) = _
    unfold Main.load_csv
    rw [hasLongRow_save]
    simp only [Bool.false_eq_true, if_false]
    rw [readCsv_save, migrate_id, hnice, coercion_fold_save, ok_bind, hfin]
    exact astypeAll_final _ (fun row hrow => by
      rw [List.mem_map] at hrow
      obtain ⟨r, _, rfl⟩ := hrow
      exact astypeRow_final r)
  unfold load_save_roundtrip
  rw [hload]
  unfold toRecords
  dsimp only
  exact mapM_map_some _ _ R (fun r _ => buildRec_final r)

theorem c2_save_load_roundtrip_witness :
    (∀ r ∈ [exGoodRec], RecOK r = true) ∧
    load_save_roundtrip [exGoodRec] = some [exGoodRec] :=
  ⟨by decide, c2_save_load_roundtrip [exGoodRec] (by decide)⟩

end CardTracker
